import Mathlib

/-!
Verification of the backup/restore (export + import) subsystem of an
owner-scoped business-management store, together with the ordinary CRUD
operations the specification mentions (createJob, updateJob,
updateCustomer, deleteCustomer).

The relational store is shallowly embedded: one Lean list per table, a
per-table serial counter assigning fresh ids on insert, and a clock value
used for columns whose default is the current timestamp.  Numeric SQL
columns (pg numeric) are carried as strings, exactly as the data layer
receives them; integer columns are Nat (ids) or Int (rating).  Nullable
columns are Option.  The import document mirrors the JSON shape consumed
by importData: every list is optional (absent means empty) and row ids
are optional numbers whose JavaScript truthiness (nonzero, present) the
code tests before recording id-map entries.
-/

/-- A row of the customers table. -/
structure CustomerRow where
  id : Nat
  userId : Nat
  name : String
  phone : String
  address : String
deriving DecidableEq, Repr

/-- A row of the jobs table.  The column named job_id (here jobId) is the
derived jobCode text; it is nullable. -/
structure JobRow where
  id : Nat
  userId : Nat
  jobId : Option String
  jobName : Option String
  customerId : Option Nat
  category : String
  description : String
  location : String
  status : String
  quotedAmount : String
  agreedAmount : String
  paidAmount : String
  startDate : Option String
  endDate : Option String
deriving DecidableEq, Repr

/-- A row of the expenses table. -/
structure ExpenseRow where
  id : Nat
  userId : Nat
  jobId : Option Nat
  category : String
  description : String
  amount : String
  paidAmount : String
  paidFull : Bool
  date : String
  isRequired : Bool
deriving DecidableEq, Repr

/-- A row of the inventory table. -/
structure InventoryRow where
  id : Nat
  userId : Nat
  jobId : Option Nat
  name : String
  category : String
  quantity : String
  unit : String
  costPerUnit : String
  assignedToJobId : Option Nat
deriving DecidableEq, Repr

/-- A row of the notes table.  The source column called section is named
sectionTag here because section is a Lean keyword; attribute is named
attrName for the same reason. -/
structure NoteRow where
  id : Nat
  userId : Nat
  type : String
  sectionTag : String
  referenceId : Option Nat
  attrName : Option String
  content : String
  createdAt : Nat
deriving DecidableEq, Repr

/-- A row of the travel table. -/
structure TravelRow where
  id : Nat
  userId : Nat
  jobId : Option Nat
  date : String
  kilometers : String
  fuelCost : String
deriving DecidableEq, Repr

/-- A row of the workers table. -/
structure WorkerRow where
  id : Nat
  userId : Nat
  jobId : Option Nat
  name : String
  role : String
  phone : Option String
  address : Option String
  documentUrl : Option String
  dailyWage : String
  isActive : Bool
  rating : Option Int
deriving DecidableEq, Repr

/-- A row of the attendance table. -/
structure AttendanceRow where
  id : Nat
  userId : Nat
  workerId : Option Nat
  jobId : Option Nat
  date : String
  status : String
  extraAllowance : Option String
deriving DecidableEq, Repr

/-- A row of the job_images table; jobId is NOT NULL. -/
structure JobImageRow where
  id : Nat
  userId : Nat
  jobId : Nat
  url : String
  description : Option String
  createdAt : Nat
deriving DecidableEq, Repr

/-- A row of the worker_documents table; workerId is NOT NULL. -/
structure WorkerDocumentRow where
  id : Nat
  userId : Nat
  workerId : Nat
  url : String
  name : String
  createdAt : Nat
deriving DecidableEq, Repr

/-- A row of the customer_images table; customerId is NOT NULL. -/
structure CustomerImageRow where
  id : Nat
  userId : Nat
  customerId : Nat
  url : String
  description : Option String
  createdAt : Nat
deriving DecidableEq, Repr

/-- The relational store: one list per entity table, one serial counter
per table (the id the next insert will receive), and the clock value used
for createdAt defaults. -/
structure DB where
  customers : List CustomerRow
  jobs : List JobRow
  expenses : List ExpenseRow
  inventory : List InventoryRow
  notes : List NoteRow
  travel : List TravelRow
  workers : List WorkerRow
  attendance : List AttendanceRow
  jobImages : List JobImageRow
  workerDocuments : List WorkerDocumentRow
  customerImages : List CustomerImageRow
  nextCustomerId : Nat
  nextJobId : Nat
  nextExpenseId : Nat
  nextInventoryId : Nat
  nextNoteId : Nat
  nextTravelId : Nat
  nextWorkerId : Nat
  nextAttendanceId : Nat
  nextJobImageId : Nat
  nextWorkerDocumentId : Nat
  nextCustomerImageId : Nat
  now : Nat
deriving DecidableEq, Repr

/-! Document rows: the JSON objects importData destructures.  The id
field is optional (hand-edited documents may omit it); the userId field
of an exported row is always stripped by importData, so it is not
modelled.  Fields that importData spreads into the insert are carried
with the column types of the destination table. -/

/-- A customer record inside an import document. -/
structure DocCustomer where
  id : Option Nat
  name : String
  phone : String
  address : String
deriving DecidableEq, Repr

/-- A job record inside an import document.  jobId (the jobCode text) is
destructured away by importData and never inserted. -/
structure DocJob where
  id : Option Nat
  jobId : Option String
  jobName : Option String
  customerId : Option Nat
  category : String
  description : String
  location : String
  status : String
  quotedAmount : String
  agreedAmount : String
  paidAmount : String
  startDate : Option String
  endDate : Option String
deriving DecidableEq, Repr

/-- An expense record inside an import document. -/
structure DocExpense where
  id : Option Nat
  jobId : Option Nat
  category : String
  description : String
  amount : String
  paidAmount : String
  paidFull : Bool
  date : String
  isRequired : Bool
deriving DecidableEq, Repr

/-- An inventory record inside an import document. -/
structure DocInventory where
  id : Option Nat
  jobId : Option Nat
  name : String
  category : String
  quantity : String
  unit : String
  costPerUnit : String
  assignedToJobId : Option Nat
deriving DecidableEq, Repr

/-- A note record inside an import document; createdAt is destructured
away by importData and regenerated by the store. -/
structure DocNote where
  id : Option Nat
  type : String
  sectionTag : String
  referenceId : Option Nat
  attrName : Option String
  content : String
  createdAt : Nat
deriving DecidableEq, Repr

/-- A travel record inside an import document. -/
structure DocTravel where
  id : Option Nat
  jobId : Option Nat
  date : String
  kilometers : String
  fuelCost : String
deriving DecidableEq, Repr

/-- A worker record inside an import document. -/
structure DocWorker where
  id : Option Nat
  jobId : Option Nat
  name : String
  role : String
  phone : Option String
  address : Option String
  documentUrl : Option String
  dailyWage : String
  isActive : Bool
  rating : Option Int
deriving DecidableEq, Repr

/-- An attendance record inside an import document. -/
structure DocAttendance where
  id : Option Nat
  workerId : Option Nat
  jobId : Option Nat
  date : String
  status : String
  extraAllowance : Option String
deriving DecidableEq, Repr

/-- A job image record inside an import document; createdAt is stripped
on import.  jobId is a plain number in an exported row (NOT NULL column). -/
structure DocJobImage where
  id : Option Nat
  jobId : Nat
  url : String
  description : Option String
  createdAt : Nat
deriving DecidableEq, Repr

/-- A worker document record inside an import document. -/
structure DocWorkerDocument where
  id : Option Nat
  workerId : Nat
  url : String
  name : String
  createdAt : Nat
deriving DecidableEq, Repr

/-- A customer image record inside an import document. -/
structure DocCustomerImage where
  id : Option Nat
  customerId : Nat
  url : String
  description : Option String
  createdAt : Nat
deriving DecidableEq, Repr

/-- The aggregate backup document.  Every list is optional: importData
reads each with a fallback to the empty list. -/
structure Doc where
  customers : Option (List DocCustomer)
  jobs : Option (List DocJob)
  expenses : Option (List DocExpense)
  inventory : Option (List DocInventory)
  notes : Option (List DocNote)
  travel : Option (List DocTravel)
  workers : Option (List DocWorker)
  attendance : Option (List DocAttendance)
  jobImages : Option (List DocJobImage)
  workerDocuments : Option (List DocWorkerDocument)
  customerImages : Option (List DocCustomerImage)
deriving DecidableEq, Repr

/-! The id-maps.  The source uses a JavaScript Map from old backup id to
new database id; set replaces the value of an existing key in place and
appends new keys, get returns the value or undefined. -/

/-- An id translation map, old backup id to new database id. -/
abbrev IdMap := List (Nat × Nat)

/-- JavaScript Map.set: replace the value at an existing key, else append. -/
def mapSet (m : IdMap) (k v : Nat) : IdMap :=
  match m with
  | [] => [(k, v)]
  | (k1, v1) :: rest => if k1 = k then (k, v) :: rest else (k1, v1) :: mapSet rest k v

/-- JavaScript Map.get followed by the null-coalescing fallback: the
value at the key, or none. -/
def mapGet (m : IdMap) (k : Nat) : Option Nat :=
  match m with
  | [] => none
  | (k1, v1) :: rest => if k1 = k then some v1 else mapGet rest k

/-- The foreign-key translation the import applies to every optional
foreign key: the source writes x ? map.get(Number(x)) ?? null : null, so
an absent or zero (falsy) key yields null and an unmapped key yields
null. -/
def remapFk (m : IdMap) (fk : Option Nat) : Option Nat :=
  match fk with
  | some k => if k = 0 then none else mapGet m k
  | none => none

/-- The truthiness test the source applies to an old id before recording
an id-map entry: present and nonzero. -/
def truthyId : Option Nat → Bool
  | some n => n != 0
  | none => false

/-- The conditional id-map update after one parent insert: the source
writes if (oldId) map.set(Number(oldId), inserted.id). -/
def recordId (m : IdMap) (oldId : Option Nat) (newId : Nat) : IdMap :=
  match oldId with
  | some o => if o = 0 then m else mapSet m o newId
  | none => m

/-- The note referenceId translation of import STEP 8: the id-map is
selected by the section tag, any other section leaves the reference
null, and a falsy (absent or zero) referenceId stays null. -/
def remapNoteRef (cmap jmap wmap : IdMap) (sec : String) (ref : Option Nat) : Option Nat :=
  match ref with
  | some r =>
    if r = 0 then none
    else if sec = "jobs" || sec = "workers_attendance" then mapGet jmap r
    else if sec = "customers" then mapGet cmap r
    else if sec = "workers" then mapGet wmap r
    else none
  | none => none

/-! Export: one owner-filtered select per table, rows returned verbatim
(ids intact, foreign keys as stored), serialized into the document. -/

/-- Serialize a stored customer row into the document shape. -/
def custToDoc (r : CustomerRow) : DocCustomer :=
  { id := some r.id, name := r.name, phone := r.phone, address := r.address }

/-- Serialize a stored job row into the document shape. -/
def jobToDoc (r : JobRow) : DocJob :=
  { id := some r.id, jobId := r.jobId, jobName := r.jobName, customerId := r.customerId,
    category := r.category, description := r.description, location := r.location,
    status := r.status, quotedAmount := r.quotedAmount, agreedAmount := r.agreedAmount,
    paidAmount := r.paidAmount, startDate := r.startDate, endDate := r.endDate }

/-- Serialize a stored expense row into the document shape. -/
def expenseToDoc (r : ExpenseRow) : DocExpense :=
  { id := some r.id, jobId := r.jobId, category := r.category, description := r.description,
    amount := r.amount, paidAmount := r.paidAmount, paidFull := r.paidFull,
    date := r.date, isRequired := r.isRequired }

/-- Serialize a stored inventory row into the document shape. -/
def inventoryToDoc (r : InventoryRow) : DocInventory :=
  { id := some r.id, jobId := r.jobId, name := r.name, category := r.category,
    quantity := r.quantity, unit := r.unit, costPerUnit := r.costPerUnit,
    assignedToJobId := r.assignedToJobId }

/-- Serialize a stored note row into the document shape. -/
def noteToDoc (r : NoteRow) : DocNote :=
  { id := some r.id, type := r.type, sectionTag := r.sectionTag,
    referenceId := r.referenceId, attrName := r.attrName, content := r.content,
    createdAt := r.createdAt }

/-- Serialize a stored travel row into the document shape. -/
def travelToDoc (r : TravelRow) : DocTravel :=
  { id := some r.id, jobId := r.jobId, date := r.date, kilometers := r.kilometers,
    fuelCost := r.fuelCost }

/-- Serialize a stored worker row into the document shape. -/
def workerToDoc (r : WorkerRow) : DocWorker :=
  { id := some r.id, jobId := r.jobId, name := r.name, role := r.role, phone := r.phone,
    address := r.address, documentUrl := r.documentUrl, dailyWage := r.dailyWage,
    isActive := r.isActive, rating := r.rating }

/-- Serialize a stored attendance row into the document shape. -/
def attendanceToDoc (r : AttendanceRow) : DocAttendance :=
  { id := some r.id, workerId := r.workerId, jobId := r.jobId, date := r.date,
    status := r.status, extraAllowance := r.extraAllowance }

/-- Serialize a stored job image row into the document shape. -/
def jobImageToDoc (r : JobImageRow) : DocJobImage :=
  { id := some r.id, jobId := r.jobId, url := r.url, description := r.description,
    createdAt := r.createdAt }

/-- Serialize a stored worker document row into the document shape. -/
def workerDocumentToDoc (r : WorkerDocumentRow) : DocWorkerDocument :=
  { id := some r.id, workerId := r.workerId, url := r.url, name := r.name,
    createdAt := r.createdAt }

/-- Serialize a stored customer image row into the document shape. -/
def customerImageToDoc (r : CustomerImageRow) : DocCustomerImage :=
  { id := some r.id, customerId := r.customerId, url := r.url,
    description := r.description, createdAt := r.createdAt }

/-- exportData: for every entity table, the full list of rows owned by
the given user, verbatim, gathered into one aggregate document. -/
def exportData (userId : Nat) (s : DB) : Doc :=
  { customers := some ((s.customers.filter (fun r => r.userId == userId)).map custToDoc),
    jobs := some ((s.jobs.filter (fun r => r.userId == userId)).map jobToDoc),
    expenses := some ((s.expenses.filter (fun r => r.userId == userId)).map expenseToDoc),
    inventory := some ((s.inventory.filter (fun r => r.userId == userId)).map inventoryToDoc),
    notes := some ((s.notes.filter (fun r => r.userId == userId)).map noteToDoc),
    travel := some ((s.travel.filter (fun r => r.userId == userId)).map travelToDoc),
    workers := some ((s.workers.filter (fun r => r.userId == userId)).map workerToDoc),
    attendance := some ((s.attendance.filter (fun r => r.userId == userId)).map attendanceToDoc),
    jobImages := some ((s.jobImages.filter (fun r => r.userId == userId)).map jobImageToDoc),
    workerDocuments := some ((s.workerDocuments.filter (fun r => r.userId == userId)).map workerDocumentToDoc),
    customerImages := some ((s.customerImages.filter (fun r => r.userId == userId)).map customerImageToDoc) }

/-! Import: one transaction around a delete phase (children first) and an
insert phase in dependency order, building the three id-maps as it goes.
The pure functions below give the no-failure semantics of the transaction
body; the oracle-instrumented variant further down models a failing step
and the rollback the transaction provides. -/

/-- Import STEP 1: delete all existing data of the owner, every entity
table (child tables first in the source; the net effect on the pure
state is the same owner filter on each table). -/
def deleteOwner (userId : Nat) (s : DB) : DB :=
  { s with
    jobImages := s.jobImages.filter (fun r => !(r.userId == userId)),
    workerDocuments := s.workerDocuments.filter (fun r => !(r.userId == userId)),
    customerImages := s.customerImages.filter (fun r => !(r.userId == userId)),
    attendance := s.attendance.filter (fun r => !(r.userId == userId)),
    inventory := s.inventory.filter (fun r => !(r.userId == userId)),
    travel := s.travel.filter (fun r => !(r.userId == userId)),
    expenses := s.expenses.filter (fun r => !(r.userId == userId)),
    notes := s.notes.filter (fun r => !(r.userId == userId)),
    workers := s.workers.filter (fun r => !(r.userId == userId)),
    jobs := s.jobs.filter (fun r => !(r.userId == userId)),
    customers := s.customers.filter (fun r => !(r.userId == userId)) }

/-- Import STEP 2 loop body: insert the customers one by one under the
target owner (original id and owner stripped), recording old id to new
id in the customer id-map when the old id is truthy. -/
def importCustomers (userId : Nat) : List DocCustomer → DB → IdMap → DB × IdMap
  | [], s, m => (s, m)
  | c :: cs, s, m =>
    let row : CustomerRow :=
      { id := s.nextCustomerId, userId := userId,
        name := c.name, phone := c.phone, address := c.address }
    importCustomers userId cs
      { s with customers := s.customers ++ [row], nextCustomerId := s.nextCustomerId + 1 }
      (recordId m c.id row.id)

/-- Import STEP 3 loop body: insert the jobs one by one, translating
customerId through the customer id-map, stripping the jobCode text
(jobId) so the inserted row has a null jobCode, and recording old job id
to new job id. -/
def importJobs (userId : Nat) (cmap : IdMap) : List DocJob → DB → IdMap → DB × IdMap
  | [], s, m => (s, m)
  | j :: js, s, m =>
    let row : JobRow :=
      { id := s.nextJobId, userId := userId, jobId := none, jobName := j.jobName,
        customerId := remapFk cmap j.customerId,
        category := j.category, description := j.description, location := j.location,
        status := j.status, quotedAmount := j.quotedAmount, agreedAmount := j.agreedAmount,
        paidAmount := j.paidAmount, startDate := j.startDate, endDate := j.endDate }
    importJobs userId cmap js
      { s with jobs := s.jobs ++ [row], nextJobId := s.nextJobId + 1 }
      (recordId m j.id row.id)

/-- Import STEP 4 loop body: insert the workers one by one, translating
jobId through the job id-map and recording old worker id to new id. -/
def importWorkers (userId : Nat) (jmap : IdMap) : List DocWorker → DB → IdMap → DB × IdMap
  | [], s, m => (s, m)
  | w :: ws, s, m =>
    let row : WorkerRow :=
      { id := s.nextWorkerId, userId := userId, jobId := remapFk jmap w.jobId,
        name := w.name, role := w.role, phone := w.phone, address := w.address,
        documentUrl := w.documentUrl, dailyWage := w.dailyWage,
        isActive := w.isActive, rating := w.rating }
    importWorkers userId jmap ws
      { s with workers := s.workers ++ [row], nextWorkerId := s.nextWorkerId + 1 }
      (recordId m w.id row.id)

/-- Import STEP 5 loop body: insert the expenses, translating jobId
through the job id-map. -/
def importExpenses (userId : Nat) (jmap : IdMap) : List DocExpense → DB → DB
  | [], s => s
  | e :: es, s =>
    let row : ExpenseRow :=
      { id := s.nextExpenseId, userId := userId, jobId := remapFk jmap e.jobId,
        category := e.category, description := e.description, amount := e.amount,
        paidAmount := e.paidAmount, paidFull := e.paidFull, date := e.date,
        isRequired := e.isRequired }
    importExpenses userId jmap es
      { s with expenses := s.expenses ++ [row], nextExpenseId := s.nextExpenseId + 1 }

/-- Import STEP 6 loop body: insert the inventory items, translating
jobId and assignedToJobId independently through the job id-map. -/
def importInventory (userId : Nat) (jmap : IdMap) : List DocInventory → DB → DB
  | [], s => s
  | i :: is, s =>
    let row : InventoryRow :=
      { id := s.nextInventoryId, userId := userId, jobId := remapFk jmap i.jobId,
        name := i.name, category := i.category, quantity := i.quantity, unit := i.unit,
        costPerUnit := i.costPerUnit, assignedToJobId := remapFk jmap i.assignedToJobId }
    importInventory userId jmap is
      { s with inventory := s.inventory ++ [row], nextInventoryId := s.nextInventoryId + 1 }

/-- Import STEP 7 loop body: insert the travel logs, translating jobId
through the job id-map. -/
def importTravel (userId : Nat) (jmap : IdMap) : List DocTravel → DB → DB
  | [], s => s
  | t :: ts, s =>
    let row : TravelRow :=
      { id := s.nextTravelId, userId := userId, jobId := remapFk jmap t.jobId,
        date := t.date, kilometers := t.kilometers, fuelCost := t.fuelCost }
    importTravel userId jmap ts
      { s with travel := s.travel ++ [row], nextTravelId := s.nextTravelId + 1 }

/-- Import STEP 8 loop body: insert the notes, translating referenceId
through the map selected by the section tag; createdAt is stripped and
regenerated from the clock. -/
def importNotes (userId : Nat) (cmap jmap wmap : IdMap) : List DocNote → DB → DB
  | [], s => s
  | n :: ns, s =>
    let row : NoteRow :=
      { id := s.nextNoteId, userId := userId, type := n.type, sectionTag := n.sectionTag,
        referenceId := remapNoteRef cmap jmap wmap n.sectionTag n.referenceId,
        attrName := n.attrName, content := n.content, createdAt := s.now }
    importNotes userId cmap jmap wmap ns
      { s with notes := s.notes ++ [row], nextNoteId := s.nextNoteId + 1 }

/-- Import STEP 9 loop body: insert the attendance records, translating
workerId through the worker id-map and jobId through the job id-map,
independently. -/
def importAttendance (userId : Nat) (wmap jmap : IdMap) : List DocAttendance → DB → DB
  | [], s => s
  | a :: as, s =>
    let row : AttendanceRow :=
      { id := s.nextAttendanceId, userId := userId,
        workerId := remapFk wmap a.workerId, jobId := remapFk jmap a.jobId,
        date := a.date, status := a.status, extraAllowance := a.extraAllowance }
    importAttendance userId wmap jmap as
      { s with attendance := s.attendance ++ [row], nextAttendanceId := s.nextAttendanceId + 1 }

/-- Import STEP 10 loop body: insert the job images, translating the
required jobId through the job id-map; a row whose translated id is not
truthy is skipped entirely (no insert, no serial id consumed); createdAt
is stripped and regenerated. -/
def importJobImages (userId : Nat) (jmap : IdMap) : List DocJobImage → DB → DB
  | [], s => s
  | ji :: jis, s =>
    let newJobId := if ji.jobId = 0 then none else mapGet jmap ji.jobId
    match newJobId with
    | some nj =>
      if nj = 0 then importJobImages userId jmap jis s
      else
        let row : JobImageRow :=
          { id := s.nextJobImageId, userId := userId, jobId := nj, url := ji.url,
            description := ji.description, createdAt := s.now }
        importJobImages userId jmap jis
          { s with jobImages := s.jobImages ++ [row], nextJobImageId := s.nextJobImageId + 1 }
    | none => importJobImages userId jmap jis s

/-- Import STEP 11 loop body: insert the worker documents, translating
the required workerId through the worker id-map; untranslatable rows are
skipped entirely. -/
def importWorkerDocuments (userId : Nat) (wmap : IdMap) : List DocWorkerDocument → DB → DB
  | [], s => s
  | wd :: wds, s =>
    let newWorkerId := if wd.workerId = 0 then none else mapGet wmap wd.workerId
    match newWorkerId with
    | some nw =>
      if nw = 0 then importWorkerDocuments userId wmap wds s
      else
        let row : WorkerDocumentRow :=
          { id := s.nextWorkerDocumentId, userId := userId, workerId := nw, url := wd.url,
            name := wd.name, createdAt := s.now }
        importWorkerDocuments userId wmap wds
          { s with workerDocuments := s.workerDocuments ++ [row],
                   nextWorkerDocumentId := s.nextWorkerDocumentId + 1 }
    | none => importWorkerDocuments userId wmap wds s

/-- Import STEP 12 loop body: insert the customer images, translating
the required customerId through the customer id-map; untranslatable rows
are skipped entirely. -/
def importCustomerImages (userId : Nat) (cmap : IdMap) : List DocCustomerImage → DB → DB
  | [], s => s
  | ci :: cis, s =>
    let newCustomerId := if ci.customerId = 0 then none else mapGet cmap ci.customerId
    match newCustomerId with
    | some nc =>
      if nc = 0 then importCustomerImages userId cmap cis s
      else
        let row : CustomerImageRow :=
          { id := s.nextCustomerImageId, userId := userId, customerId := nc, url := ci.url,
            description := ci.description, createdAt := s.now }
        importCustomerImages userId cmap cis
          { s with customerImages := s.customerImages ++ [row],
                   nextCustomerImageId := s.nextCustomerImageId + 1 }
    | none => importCustomerImages userId cmap cis s

/-- importData, no-failure semantics of the transaction body: delete all
the owner rows, then insert every list of the document in dependency
order (absent lists treated as empty), building and consuming the three
id-maps exactly as the source loops do. -/
def importData (userId : Nat) (d : Doc) (s : DB) : DB :=
  let s0 := deleteOwner userId s
  let (s1, cmap) := importCustomers userId (d.customers.getD []) s0 []
  let (s2, jmap) := importJobs userId cmap (d.jobs.getD []) s1 []
  let (s3, wmap) := importWorkers userId jmap (d.workers.getD []) s2 []
  let s4 := importExpenses userId jmap (d.expenses.getD []) s3
  let s5 := importInventory userId jmap (d.inventory.getD []) s4
  let s6 := importTravel userId jmap (d.travel.getD []) s5
  let s7 := importNotes userId cmap jmap wmap (d.notes.getD []) s6
  let s8 := importAttendance userId wmap jmap (d.attendance.getD []) s7
  let s9 := importJobImages userId jmap (d.jobImages.getD []) s8
  let s10 := importWorkerDocuments userId wmap (d.workerDocuments.getD []) s9
  importCustomerImages userId cmap (d.customerImages.getD []) s10

/-! Ordinary CRUD operations the specification claims mention. -/

/-- The update payload of updateCustomer: a JavaScript Partial of the
insert shape; an absent field leaves the column untouched. -/
structure CustomerUpdates where
  name : Option String := none
  phone : Option String := none
  address : Option String := none
deriving DecidableEq, Repr

/-- Apply an update payload to one stored customer row. -/
def applyCustomerUpdates (u : CustomerUpdates) (r : CustomerRow) : CustomerRow :=
  { r with
    name := u.name.getD r.name,
    phone := u.phone.getD r.phone,
    address := u.address.getD r.address }

/-- updateCustomer: update the rows matching the id and the owner; when
the returning list is empty the source throws Customer not found,
otherwise it returns the updated row. -/
def updateCustomer (id userId : Nat) (u : CustomerUpdates) (s : DB) :
    Except String (CustomerRow × DB) :=
  match s.customers.find? (fun r => r.id == id && r.userId == userId) with
  | none => .error "Customer not found"
  | some r =>
    let upd := fun (x : CustomerRow) =>
      if x.id == id && x.userId == userId then applyCustomerUpdates u x else x
    .ok (applyCustomerUpdates u r, { s with customers := s.customers.map upd })

/-- deleteCustomer: delete the rows matching the id and the owner and
return nothing; the source performs no existence check and reports no
error when nothing matched. -/
def deleteCustomer (id userId : Nat) (s : DB) : DB :=
  { s with customers := s.customers.filter (fun r => !(r.id == id && r.userId == userId)) }

/-- The insert payload of createJob.  Columns that are NOT NULL with a
database default (category, status, agreedAmount, paidAmount) are
optional in the insert schema; the store fills the default when the
field is absent. -/
structure InsertJob where
  jobId : Option String := none
  jobName : Option String := none
  customerId : Option Nat := none
  category : Option String := none
  description : String
  location : String
  status : Option String := none
  quotedAmount : String
  agreedAmount : Option String := none
  paidAmount : Option String := none
  startDate : Option String := none
  endDate : Option String := none
deriving DecidableEq, Repr

/-- A calendar date as createJob reads it from the clock. -/
structure DateParts where
  day : Nat
  month : Nat
  year : Nat
deriving DecidableEq, Repr

/-- String(n).padStart(2, the zero digit). -/
def pad2 (n : Nat) : String :=
  if n < 10 then "0" ++ toString n else toString n

/-- The category initial of the jobCode: the first character of the
category uppercased, or X when the category is absent or empty. -/
def categoryInitial (category : Option String) : String :=
  match category with
  | some c =>
    match c.toList with
    | [] => "X"
    | ch :: _ => (Char.toUpper ch).toString
  | none => "X"

/-- The JavaScript or-else on strings: an absent or empty left operand
falls through to the right operand. -/
def jsOrElse (a : Option String) (b : String) : String :=
  match a with
  | some x => if x = "" then b else x
  | none => b

/-- createJob: count only the jobs of this user, insert the row (with
agreedAmount defaulting to quotedAmount when falsy), then derive the
jobCode as the ordinal job number, the category initial and the DDMMYYYY
date, and write it back to the inserted row. -/
def createJob (ij : InsertJob) (userId : Nat) (today : DateParts) (s : DB) : JobRow × DB :=
  let dateStr := pad2 today.day ++ pad2 today.month ++ toString today.year
  let catInitial := categoryInitial ij.category
  let existingJobs := s.jobs.filter (fun r => r.userId == userId)
  let jobNumber := existingJobs.length + 1
  let inserted : JobRow :=
    { id := s.nextJobId, userId := userId, jobId := ij.jobId, jobName := ij.jobName,
      customerId := ij.customerId,
      category := ij.category.getD "Interior painting",
      description := ij.description, location := ij.location,
      status := ij.status.getD "quoted",
      quotedAmount := ij.quotedAmount,
      agreedAmount := jsOrElse ij.agreedAmount ij.quotedAmount,
      paidAmount := ij.paidAmount.getD "0",
      startDate := ij.startDate, endDate := ij.endDate }
  let s1 := { s with jobs := s.jobs ++ [inserted], nextJobId := s.nextJobId + 1 }
  let jobCode := toString jobNumber ++ catInitial ++ dateStr
  let setCode := fun (j : JobRow) =>
    if j.id == inserted.id then { j with jobId := some jobCode } else j
  ({ inserted with jobId := some jobCode }, { s1 with jobs := s1.jobs.map setCode })

/-- The update payload of updateJob: a JavaScript Partial of the insert
shape.  An outer none means the field is absent from the payload and the
column is untouched; for nullable columns the inner Option carries an
explicit null. -/
structure UpdateJob where
  jobId : Option (Option String) := none
  jobName : Option (Option String) := none
  customerId : Option (Option Nat) := none
  category : Option String := none
  description : Option String := none
  location : Option String := none
  status : Option String := none
  quotedAmount : Option String := none
  agreedAmount : Option String := none
  paidAmount : Option String := none
  startDate : Option (Option String) := none
  endDate : Option (Option String) := none
deriving DecidableEq, Repr

/-- Apply an update payload to one stored job row. -/
def applyJobUpdates (u : UpdateJob) (r : JobRow) : JobRow :=
  { r with
    jobId := u.jobId.getD r.jobId,
    jobName := u.jobName.getD r.jobName,
    customerId := u.customerId.getD r.customerId,
    category := u.category.getD r.category,
    description := u.description.getD r.description,
    location := u.location.getD r.location,
    status := u.status.getD r.status,
    quotedAmount := u.quotedAmount.getD r.quotedAmount,
    agreedAmount := u.agreedAmount.getD r.agreedAmount,
    paidAmount := u.paidAmount.getD r.paidAmount,
    startDate := u.startDate.getD r.startDate,
    endDate := u.endDate.getD r.endDate }

/-- updateJob: update the rows matching the id and the owner with the
payload exactly as given; when nothing matched the source throws Job not
found, otherwise it returns the updated row. -/
def updateJob (id userId : Nat) (u : UpdateJob) (s : DB) : Except String (JobRow × DB) :=
  match s.jobs.find? (fun r => r.id == id && r.userId == userId) with
  | none => .error "Job not found"
  | some r =>
    let upd := fun (x : JobRow) =>
      if x.id == id && x.userId == userId then applyJobUpdates u x else x
    .ok (applyJobUpdates u r, { s with jobs := s.jobs.map upd })

/-! The transactional import with an injected failure oracle.  Every
store operation the transaction body issues (one delete per table, one
insert per document row) consults the oracle at its ordinal position; a
true answer models a store-level error thrown by that operation.  The
transaction wrapper turns an error of the body into a rollback: the
caller observes the pre-call state together with the error. -/

/-- One store operation inside the transaction: fail if the oracle says
so, otherwise apply the state change and advance the operation index. -/
def txStep (oracle : Nat → Bool) (n : Nat) (f : DB → DB) (s : DB) :
    Except String (DB × Nat) :=
  if oracle n then .error "store error" else .ok (f s, n + 1)

/-- The delete phase as eleven individual store operations, child tables
first, in source order. -/
def deleteOwnerT (oracle : Nat → Bool) (userId : Nat) (s : DB) (n : Nat) :
    Except String (DB × Nat) := do
  let (s, n) ← txStep oracle n (fun s => { s with jobImages := s.jobImages.filter (fun r => !(r.userId == userId)) }) s
  let (s, n) ← txStep oracle n (fun s => { s with workerDocuments := s.workerDocuments.filter (fun r => !(r.userId == userId)) }) s
  let (s, n) ← txStep oracle n (fun s => { s with customerImages := s.customerImages.filter (fun r => !(r.userId == userId)) }) s
  let (s, n) ← txStep oracle n (fun s => { s with attendance := s.attendance.filter (fun r => !(r.userId == userId)) }) s
  let (s, n) ← txStep oracle n (fun s => { s with inventory := s.inventory.filter (fun r => !(r.userId == userId)) }) s
  let (s, n) ← txStep oracle n (fun s => { s with travel := s.travel.filter (fun r => !(r.userId == userId)) }) s
  let (s, n) ← txStep oracle n (fun s => { s with expenses := s.expenses.filter (fun r => !(r.userId == userId)) }) s
  let (s, n) ← txStep oracle n (fun s => { s with notes := s.notes.filter (fun r => !(r.userId == userId)) }) s
  let (s, n) ← txStep oracle n (fun s => { s with workers := s.workers.filter (fun r => !(r.userId == userId)) }) s
  let (s, n) ← txStep oracle n (fun s => { s with jobs := s.jobs.filter (fun r => !(r.userId == userId)) }) s
  let (s, n) ← txStep oracle n (fun s => { s with customers := s.customers.filter (fun r => !(r.userId == userId)) }) s
  return (s, n)

/-- STEP 2 with the failure oracle; each insert is one store operation
performed exactly as the pure loop performs it. -/
def importCustomersT (oracle : Nat → Bool) (userId : Nat) :
    List DocCustomer → DB → IdMap → Nat → Except String (DB × IdMap × Nat)
  | [], s, m, n => .ok (s, m, n)
  | c :: cs, s, m, n =>
    if oracle n then .error "store error"
    else
      match importCustomers userId [c] s m with
      | (s1, m1) => importCustomersT oracle userId cs s1 m1 (n + 1)

/-- STEP 3 with the failure oracle. -/
def importJobsT (oracle : Nat → Bool) (userId : Nat) (cmap : IdMap) :
    List DocJob → DB → IdMap → Nat → Except String (DB × IdMap × Nat)
  | [], s, m, n => .ok (s, m, n)
  | j :: js, s, m, n =>
    if oracle n then .error "store error"
    else
      match importJobs userId cmap [j] s m with
      | (s1, m1) => importJobsT oracle userId cmap js s1 m1 (n + 1)

/-- STEP 4 with the failure oracle. -/
def importWorkersT (oracle : Nat → Bool) (userId : Nat) (jmap : IdMap) :
    List DocWorker → DB → IdMap → Nat → Except String (DB × IdMap × Nat)
  | [], s, m, n => .ok (s, m, n)
  | w :: ws, s, m, n =>
    if oracle n then .error "store error"
    else
      match importWorkers userId jmap [w] s m with
      | (s1, m1) => importWorkersT oracle userId jmap ws s1 m1 (n + 1)

/-- STEP 5 with the failure oracle. -/
def importExpensesT (oracle : Nat → Bool) (userId : Nat) (jmap : IdMap) :
    List DocExpense → DB → Nat → Except String (DB × Nat)
  | [], s, n => .ok (s, n)
  | e :: es, s, n =>
    if oracle n then .error "store error"
    else importExpensesT oracle userId jmap es (importExpenses userId jmap [e] s) (n + 1)

/-- STEP 6 with the failure oracle. -/
def importInventoryT (oracle : Nat → Bool) (userId : Nat) (jmap : IdMap) :
    List DocInventory → DB → Nat → Except String (DB × Nat)
  | [], s, n => .ok (s, n)
  | i :: is, s, n =>
    if oracle n then .error "store error"
    else importInventoryT oracle userId jmap is (importInventory userId jmap [i] s) (n + 1)

/-- STEP 7 with the failure oracle. -/
def importTravelT (oracle : Nat → Bool) (userId : Nat) (jmap : IdMap) :
    List DocTravel → DB → Nat → Except String (DB × Nat)
  | [], s, n => .ok (s, n)
  | t :: ts, s, n =>
    if oracle n then .error "store error"
    else importTravelT oracle userId jmap ts (importTravel userId jmap [t] s) (n + 1)

/-- STEP 8 with the failure oracle. -/
def importNotesT (oracle : Nat → Bool) (userId : Nat) (cmap jmap wmap : IdMap) :
    List DocNote → DB → Nat → Except String (DB × Nat)
  | [], s, n => .ok (s, n)
  | x :: xs, s, n =>
    if oracle n then .error "store error"
    else importNotesT oracle userId cmap jmap wmap xs
      (importNotes userId cmap jmap wmap [x] s) (n + 1)

/-- STEP 9 with the failure oracle. -/
def importAttendanceT (oracle : Nat → Bool) (userId : Nat) (wmap jmap : IdMap) :
    List DocAttendance → DB → Nat → Except String (DB × Nat)
  | [], s, n => .ok (s, n)
  | a :: as, s, n =>
    if oracle n then .error "store error"
    else importAttendanceT oracle userId wmap jmap as
      (importAttendance userId wmap jmap [a] s) (n + 1)

/-- STEP 10 with the failure oracle.  A skipped row issues no store
operation, so it consults no oracle index. -/
def importJobImagesT (oracle : Nat → Bool) (userId : Nat) (jmap : IdMap) :
    List DocJobImage → DB → Nat → Except String (DB × Nat)
  | [], s, n => .ok (s, n)
  | ji :: jis, s, n =>
    let newJobId := if ji.jobId = 0 then none else mapGet jmap ji.jobId
    match newJobId with
    | some nj =>
      if nj = 0 then importJobImagesT oracle userId jmap jis s n
      else if oracle n then .error "store error"
      else importJobImagesT oracle userId jmap jis (importJobImages userId jmap [ji] s) (n + 1)
    | none => importJobImagesT oracle userId jmap jis s n

/-- STEP 11 with the failure oracle. -/
def importWorkerDocumentsT (oracle : Nat → Bool) (userId : Nat) (wmap : IdMap) :
    List DocWorkerDocument → DB → Nat → Except String (DB × Nat)
  | [], s, n => .ok (s, n)
  | wd :: wds, s, n =>
    let newWorkerId := if wd.workerId = 0 then none else mapGet wmap wd.workerId
    match newWorkerId with
    | some nw =>
      if nw = 0 then importWorkerDocumentsT oracle userId wmap wds s n
      else if oracle n then .error "store error"
      else importWorkerDocumentsT oracle userId wmap wds
        (importWorkerDocuments userId wmap [wd] s) (n + 1)
    | none => importWorkerDocumentsT oracle userId wmap wds s n

/-- STEP 12 with the failure oracle. -/
def importCustomerImagesT (oracle : Nat → Bool) (userId : Nat) (cmap : IdMap) :
    List DocCustomerImage → DB → Nat → Except String (DB × Nat)
  | [], s, n => .ok (s, n)
  | ci :: cis, s, n =>
    let newCustomerId := if ci.customerId = 0 then none else mapGet cmap ci.customerId
    match newCustomerId with
    | some nc =>
      if nc = 0 then importCustomerImagesT oracle userId cmap cis s n
      else if oracle n then .error "store error"
      else importCustomerImagesT oracle userId cmap cis
        (importCustomerImages userId cmap [ci] s) (n + 1)
    | none => importCustomerImagesT oracle userId cmap cis s n

/-- The transaction body: the delete phase then the twelve insert phases
in dependency order, every store operation subject to the oracle. -/
def txBodyT (oracle : Nat → Bool) (userId : Nat) (d : Doc) (s : DB) :
    Except String (DB × Nat) := do
  let (s0, n0) ← deleteOwnerT oracle userId s 0
  let (s1, cmap, n1) ← importCustomersT oracle userId (d.customers.getD []) s0 [] n0
  let (s2, jmap, n2) ← importJobsT oracle userId cmap (d.jobs.getD []) s1 [] n1
  let (s3, wmap, n3) ← importWorkersT oracle userId jmap (d.workers.getD []) s2 [] n2
  let (s4, n4) ← importExpensesT oracle userId jmap (d.expenses.getD []) s3 n3
  let (s5, n5) ← importInventoryT oracle userId jmap (d.inventory.getD []) s4 n4
  let (s6, n6) ← importTravelT oracle userId jmap (d.travel.getD []) s5 n5
  let (s7, n7) ← importNotesT oracle userId cmap jmap wmap (d.notes.getD []) s6 n6
  let (s8, n8) ← importAttendanceT oracle userId wmap jmap (d.attendance.getD []) s7 n7
  let (s9, n9) ← importJobImagesT oracle userId jmap (d.jobImages.getD []) s8 n8
  let (s10, n10) ← importWorkerDocumentsT oracle userId wmap (d.workerDocuments.getD []) s9 n9
  importCustomerImagesT oracle userId cmap (d.customerImages.getD []) s10 n10

/-- importData with the transaction wrapper: when the body fails, the
transaction rolls back and the caller observes the pre-call state plus
one error; when it commits, the caller observes the new state. -/
def importDataT (oracle : Nat → Bool) (userId : Nat) (d : Doc) (s : DB) :
    DB × Option String :=
  match txBodyT oracle userId d s with
  | .ok (s1, _) => (s1, none)
  | .error e => (s, some e)

/-! Characterization helpers: explicit descriptions of what one insert
phase appends and which id-map it builds, used to state and prove the
claims.  They are derived views of the loops above, proved equal to them
below. -/

/-- The id-map an insert phase builds, as a function of the old ids of
the document rows (in order) and the first fresh id. -/
def buildIdMap : List (Option Nat) → Nat → IdMap → IdMap
  | [], _, m => m
  | o :: os, base, m => buildIdMap os (base + 1) (recordId m o base)

/-- The truthy old ids of a document list, in order: exactly the keys an
insert phase records. -/
def truthyIds : List (Option Nat) → List Nat :=
  List.filterMap (fun o => match o with
    | some n => if n = 0 then none else some n
    | none => none)

/-- The customer rows STEP 2 appends. -/
def mkCustomerRows (userId : Nat) : Nat → List DocCustomer → List CustomerRow
  | _, [] => []
  | base, c :: cs =>
    { id := base, userId := userId, name := c.name, phone := c.phone,
      address := c.address } :: mkCustomerRows userId (base + 1) cs

/-- The job rows STEP 3 appends. -/
def mkJobRows (userId : Nat) (cmap : IdMap) : Nat → List DocJob → List JobRow
  | _, [] => []
  | base, j :: js =>
    { id := base, userId := userId, jobId := none, jobName := j.jobName,
      customerId := remapFk cmap j.customerId, category := j.category,
      description := j.description, location := j.location, status := j.status,
      quotedAmount := j.quotedAmount, agreedAmount := j.agreedAmount,
      paidAmount := j.paidAmount, startDate := j.startDate, endDate := j.endDate }
      :: mkJobRows userId cmap (base + 1) js

/-- The worker rows STEP 4 appends. -/
def mkWorkerRows (userId : Nat) (jmap : IdMap) : Nat → List DocWorker → List WorkerRow
  | _, [] => []
  | base, w :: ws =>
    { id := base, userId := userId, jobId := remapFk jmap w.jobId, name := w.name,
      role := w.role, phone := w.phone, address := w.address,
      documentUrl := w.documentUrl, dailyWage := w.dailyWage,
      isActive := w.isActive, rating := w.rating }
      :: mkWorkerRows userId jmap (base + 1) ws

/-- The expense rows STEP 5 appends. -/
def mkExpenseRows (userId : Nat) (jmap : IdMap) : Nat → List DocExpense → List ExpenseRow
  | _, [] => []
  | base, e :: es =>
    { id := base, userId := userId, jobId := remapFk jmap e.jobId,
      category := e.category, description := e.description, amount := e.amount,
      paidAmount := e.paidAmount, paidFull := e.paidFull, date := e.date,
      isRequired := e.isRequired } :: mkExpenseRows userId jmap (base + 1) es

/-- The inventory rows STEP 6 appends. -/
def mkInventoryRows (userId : Nat) (jmap : IdMap) : Nat → List DocInventory → List InventoryRow
  | _, [] => []
  | base, i :: is =>
    { id := base, userId := userId, jobId := remapFk jmap i.jobId, name := i.name,
      category := i.category, quantity := i.quantity, unit := i.unit,
      costPerUnit := i.costPerUnit, assignedToJobId := remapFk jmap i.assignedToJobId }
      :: mkInventoryRows userId jmap (base + 1) is

/-- The travel rows STEP 7 appends. -/
def mkTravelRows (userId : Nat) (jmap : IdMap) : Nat → List DocTravel → List TravelRow
  | _, [] => []
  | base, t :: ts =>
    { id := base, userId := userId, jobId := remapFk jmap t.jobId, date := t.date,
      kilometers := t.kilometers, fuelCost := t.fuelCost }
      :: mkTravelRows userId jmap (base + 1) ts

/-- The note rows STEP 8 appends; createdAt comes from the clock. -/
def mkNoteRows (userId now : Nat) (cmap jmap wmap : IdMap) : Nat → List DocNote → List NoteRow
  | _, [] => []
  | base, n :: ns =>
    { id := base, userId := userId, type := n.type, sectionTag := n.sectionTag,
      referenceId := remapNoteRef cmap jmap wmap n.sectionTag n.referenceId,
      attrName := n.attrName, content := n.content, createdAt := now }
      :: mkNoteRows userId now cmap jmap wmap (base + 1) ns

/-- The attendance rows STEP 9 appends. -/
def mkAttendanceRows (userId : Nat) (wmap jmap : IdMap) : Nat → List DocAttendance → List AttendanceRow
  | _, [] => []
  | base, a :: as =>
    { id := base, userId := userId, workerId := remapFk wmap a.workerId,
      jobId := remapFk jmap a.jobId, date := a.date, status := a.status,
      extraAllowance := a.extraAllowance }
      :: mkAttendanceRows userId wmap jmap (base + 1) as

/-- The job image rows STEP 10 appends: untranslatable rows are skipped
and consume no serial id. -/
def mkJobImageRows (userId now : Nat) (jmap : IdMap) : Nat → List DocJobImage → List JobImageRow
  | _, [] => []
  | base, ji :: jis =>
    match (if ji.jobId = 0 then none else mapGet jmap ji.jobId) with
    | some nj =>
      if nj = 0 then mkJobImageRows userId now jmap base jis
      else { id := base, userId := userId, jobId := nj, url := ji.url,
             description := ji.description, createdAt := now }
             :: mkJobImageRows userId now jmap (base + 1) jis
    | none => mkJobImageRows userId now jmap base jis

/-- The worker document rows STEP 11 appends. -/
def mkWorkerDocumentRows (userId now : Nat) (wmap : IdMap) : Nat → List DocWorkerDocument → List WorkerDocumentRow
  | _, [] => []
  | base, wd :: wds =>
    match (if wd.workerId = 0 then none else mapGet wmap wd.workerId) with
    | some nw =>
      if nw = 0 then mkWorkerDocumentRows userId now wmap base wds
      else { id := base, userId := userId, workerId := nw, url := wd.url,
             name := wd.name, createdAt := now }
             :: mkWorkerDocumentRows userId now wmap (base + 1) wds
    | none => mkWorkerDocumentRows userId now wmap base wds

/-- The customer image rows STEP 12 appends. -/
def mkCustomerImageRows (userId now : Nat) (cmap : IdMap) : Nat → List DocCustomerImage → List CustomerImageRow
  | _, [] => []
  | base, ci :: cis =>
    match (if ci.customerId = 0 then none else mapGet cmap ci.customerId) with
    | some nc =>
      if nc = 0 then mkCustomerImageRows userId now cmap base cis
      else { id := base, userId := userId, customerId := nc, url := ci.url,
             description := ci.description, createdAt := now }
             :: mkCustomerImageRows userId now cmap (base + 1) cis
    | none => mkCustomerImageRows userId now cmap base cis

/-- The number of job image rows STEP 10 actually inserts (skipped rows
consume no store operation and no serial id). -/
def countJobImageInserts (m : IdMap) : List DocJobImage → Nat
  | [] => 0
  | ji :: jis =>
    match (if ji.jobId = 0 then none else mapGet m ji.jobId) with
    | some nj => if nj = 0 then countJobImageInserts m jis else countJobImageInserts m jis + 1
    | none => countJobImageInserts m jis

/-- The number of worker document rows STEP 11 actually inserts. -/
def countWorkerDocumentInserts (m : IdMap) : List DocWorkerDocument → Nat
  | [] => 0
  | wd :: wds =>
    match (if wd.workerId = 0 then none else mapGet m wd.workerId) with
    | some nw => if nw = 0 then countWorkerDocumentInserts m wds else countWorkerDocumentInserts m wds + 1
    | none => countWorkerDocumentInserts m wds

/-- The number of customer image rows STEP 12 actually inserts. -/
def countCustomerImageInserts (m : IdMap) : List DocCustomerImage → Nat
  | [] => 0
  | ci :: cis =>
    match (if ci.customerId = 0 then none else mapGet m ci.customerId) with
    | some nc => if nc = 0 then countCustomerImageInserts m cis else countCustomerImageInserts m cis + 1
    | none => countCustomerImageInserts m cis

/-! Content projections: the attribute fields of a row, excluding the
store-assigned id, the owner id, the foreign keys (which import remaps)
and the fields import regenerates (jobCode, createdAt where stripped). -/

/-- Customer attribute fields. -/
def custContent (r : CustomerRow) : String × String × String :=
  (r.name, r.phone, r.address)

/-- Job attribute fields: everything except id, owner, jobCode and the
customer foreign key. -/
def jobContent (r : JobRow) :
    Option String × String × String × String × String × String × String × String ×
    Option String × Option String :=
  (r.jobName, r.category, r.description, r.location, r.status, r.quotedAmount,
   r.agreedAmount, r.paidAmount, r.startDate, r.endDate)

/-- Worker attribute fields except id, owner and the job foreign key. -/
def workerContent (r : WorkerRow) :
    String × String × Option String × Option String × Option String × String ×
    Bool × Option Int :=
  (r.name, r.role, r.phone, r.address, r.documentUrl, r.dailyWage, r.isActive, r.rating)

/-- Expense attribute fields except id, owner and the job foreign key. -/
def expenseContent (r : ExpenseRow) :
    String × String × String × String × Bool × String × Bool :=
  (r.category, r.description, r.amount, r.paidAmount, r.paidFull, r.date, r.isRequired)

/-- Inventory attribute fields except id, owner and the two job foreign
keys. -/
def inventoryContent (r : InventoryRow) : String × String × String × String × String :=
  (r.name, r.category, r.quantity, r.unit, r.costPerUnit)

/-- Travel attribute fields except id, owner and the job foreign key. -/
def travelContent (r : TravelRow) : String × String × String :=
  (r.date, r.kilometers, r.fuelCost)

/-- Note attribute fields except id, owner, the polymorphic reference
and the regenerated timestamp. -/
def noteContent (r : NoteRow) : String × String × Option String × String :=
  (r.type, r.sectionTag, r.attrName, r.content)

/-- Attendance attribute fields except id, owner and the two foreign
keys. -/
def attendanceContent (r : AttendanceRow) : String × String × Option String :=
  (r.date, r.status, r.extraAllowance)

/-- Job image attribute fields except id, owner, the job foreign key and
the regenerated timestamp. -/
def jobImageContent (r : JobImageRow) : String × Option String :=
  (r.url, r.description)

/-- Worker document attribute fields except id, owner, the worker
foreign key and the regenerated timestamp. -/
def workerDocumentContent (r : WorkerDocumentRow) : String × String :=
  (r.url, r.name)

/-- Customer image attribute fields except id, owner, the customer
foreign key and the regenerated timestamp. -/
def customerImageContent (r : CustomerImageRow) : String × Option String :=
  (r.url, r.description)

/-- A store with no rows, serial counters at one (the first id a
PostgreSQL serial column assigns) and the clock at zero. -/
def emptyDB : DB :=
  { customers := [], jobs := [], expenses := [], inventory := [], notes := [],
    travel := [], workers := [], attendance := [], jobImages := [],
    workerDocuments := [], customerImages := [],
    nextCustomerId := 1, nextJobId := 1, nextExpenseId := 1, nextInventoryId := 1,
    nextNoteId := 1, nextTravelId := 1, nextWorkerId := 1, nextAttendanceId := 1,
    nextJobImageId := 1, nextWorkerDocumentId := 1, nextCustomerImageId := 1,
    now := 0 }

/-- The empty import document: every list absent. -/
def emptyDoc : Doc :=
  { customers := none, jobs := none, expenses := none, inventory := none,
    notes := none, travel := none, workers := none, attendance := none,
    jobImages := none, workerDocuments := none, customerImages := none }

/-! Concrete fixtures used to evaluate the theorems on explicit inputs. -/

/-- A store holding one customer of owner 1. -/
def exDB1 : DB :=
  { emptyDB with
    customers := [{ id := 1, userId := 1, name := "Alice", phone := "555", address := "1 Rd" }],
    nextCustomerId := 2 }

/-- exDB1 extended with rows of owner 2 whose numeric ids collide with
the ids of owner 1. -/
def exDB2 : DB :=
  { exDB1 with
    customers := exDB1.customers ++
      [{ id := 1, userId := 2, name := "Eve", phone := "7", address := "x" }],
    jobs := [{ id := 1, userId := 2, jobId := none, jobName := none, customerId := some 1,
               category := "c", description := "d", location := "l", status := "quoted",
               quotedAmount := "1", agreedAmount := "1", paidAmount := "0",
               startDate := none, endDate := none }] }

/-- A store holding one job of owner 1 whose jobCode was derived at
creation. -/
def exDBJob : DB :=
  { emptyDB with
    jobs := [{ id := 1, userId := 1, jobId := some "1I01012025", jobName := none,
               customerId := none, category := "Interior painting", description := "d",
               location := "l", status := "quoted", quotedAmount := "100",
               agreedAmount := "100", paidAmount := "0", startDate := none, endDate := none }],
    nextJobId := 2 }

/-- A store of owner 1 holding an inventory item together with the audit
note updateInventory writes for it: type log, section inventory,
referenceId pointing at the item. -/
def exDBInv : DB :=
  { emptyDB with
    inventory := [{ id := 1, userId := 1, jobId := none, name := "Paint",
                    category := "materials", quantity := "5", unit := "L",
                    costPerUnit := "10", assignedToJobId := none }],
    notes := [{ id := 1, userId := 1, type := "log", sectionTag := "inventory",
                referenceId := some 1, attrName := some "reassignment",
                content := "Initial assignment", createdAt := 42 }],
    nextInventoryId := 2, nextNoteId := 2, now := 100 }

/-- A store of owner 1 with one row in every entity table, all foreign
keys pointing at rows of the same owner. -/
def exDBAll : DB :=
  { customers := [{ id := 1, userId := 1, name := "Alice", phone := "555", address := "1 Rd" }],
    jobs := [{ id := 1, userId := 1, jobId := some "1I01012025", jobName := some "Hall",
               customerId := some 1, category := "Interior painting",
               description := "Paint hall", location := "1 Rd", status := "quoted",
               quotedAmount := "100", agreedAmount := "100", paidAmount := "0",
               startDate := none, endDate := none }],
    expenses := [{ id := 1, userId := 1, jobId := some 1, category := "paint",
                   description := "cans", amount := "30", paidAmount := "0",
                   paidFull := false, date := "2025-01-01", isRequired := true }],
    inventory := [{ id := 1, userId := 1, jobId := some 1, name := "Brush",
                    category := "tools", quantity := "2", unit := "pc", costPerUnit := "3",
                    assignedToJobId := some 1 }],
    notes := [{ id := 1, userId := 1, type := "note", sectionTag := "jobs",
                referenceId := some 1, attrName := none, content := "n", createdAt := 7 }],
    travel := [{ id := 1, userId := 1, jobId := some 1, date := "2025-01-02",
                 kilometers := "12", fuelCost := "5" }],
    workers := [{ id := 1, userId := 1, jobId := some 1, name := "Bob", role := "Painter",
                  phone := none, address := none, documentUrl := none, dailyWage := "20",
                  isActive := true, rating := some 0 }],
    attendance := [{ id := 1, userId := 1, workerId := some 1, jobId := some 1,
                     date := "2025-01-03", status := "full", extraAllowance := some "0" }],
    jobImages := [{ id := 1, userId := 1, jobId := 1, url := "u1", description := none,
                    createdAt := 7 }],
    workerDocuments := [{ id := 1, userId := 1, workerId := 1, url := "u3", name := "doc",
                          createdAt := 7 }],
    customerImages := [{ id := 1, userId := 1, customerId := 1, url := "u4",
                         description := none, createdAt := 7 }],
    nextCustomerId := 2, nextJobId := 2, nextExpenseId := 2, nextInventoryId := 2,
    nextNoteId := 2, nextTravelId := 2, nextWorkerId := 2, nextAttendanceId := 2,
    nextJobImageId := 2, nextWorkerDocumentId := 2, nextCustomerImageId := 2, now := 100 }

/-- An import document exercising every foreign-key kind: one customer
(old id 2), two jobs (old ids 5 and 6; the first references customer 2,
the second a customer 9 absent from the document; the first carries a
jobCode text), one worker (old id 3, job 5), an expense (job 5), an
inventory item (job 5, assigned to job 6), a travel log (job 6), five
notes covering the four mapped sections and one unknown section, one
attendance (worker 3, job 5), two job images (job 5 and an absent job
99), one worker document and one customer image. -/
def exDocFull : Doc :=
  { customers := some [{ id := some 2, name := "Alice", phone := "555", address := "1 Rd" }],
    jobs := some
      [{ id := some 5, jobId := some "OLDCODE", jobName := some "Hall", customerId := some 2,
         category := "Interior painting", description := "Paint hall", location := "1 Rd",
         status := "quoted", quotedAmount := "100", agreedAmount := "100", paidAmount := "0",
         startDate := none, endDate := none },
       { id := some 6, jobId := none, jobName := none, customerId := some 9,
         category := "Exterior", description := "Paint fence", location := "2 Rd",
         status := "quoted", quotedAmount := "50", agreedAmount := "50", paidAmount := "0",
         startDate := none, endDate := none }],
    expenses := some [{ id := some 7, jobId := some 5, category := "paint",
                        description := "cans", amount := "30", paidAmount := "0",
                        paidFull := false, date := "2025-01-01", isRequired := true }],
    inventory := some [{ id := some 8, jobId := some 5, name := "Brush", category := "tools",
                         quantity := "2", unit := "pc", costPerUnit := "3",
                         assignedToJobId := some 6 }],
    notes := some
      [{ id := some 11, type := "note", sectionTag := "jobs", referenceId := some 6,
         attrName := none, content := "n1", createdAt := 7 },
       { id := some 12, type := "note", sectionTag := "customers", referenceId := some 2,
         attrName := none, content := "n2", createdAt := 7 },
       { id := some 13, type := "note", sectionTag := "workers", referenceId := some 3,
         attrName := none, content := "n3", createdAt := 7 },
       { id := some 14, type := "note", sectionTag := "workers_attendance",
         referenceId := some 5, attrName := none, content := "n4", createdAt := 7 },
       { id := some 15, type := "log", sectionTag := "inventory", referenceId := some 8,
         attrName := some "reassignment", content := "n5", createdAt := 7 }],
    travel := some [{ id := some 4, jobId := some 6, date := "2025-01-02",
                      kilometers := "12", fuelCost := "5" }],
    workers := some [{ id := some 3, jobId := some 5, name := "Bob", role := "Painter",
                       phone := none, address := none, documentUrl := none,
                       dailyWage := "20", isActive := true, rating := some 0 }],
    attendance := some [{ id := some 9, workerId := some 3, jobId := some 5,
                          date := "2025-01-03", status := "full",
                          extraAllowance := some "0" }],
    jobImages := some
      [{ id := some 21, jobId := 5, url := "u1", description := none, createdAt := 7 },
       { id := some 22, jobId := 99, url := "u2", description := none, createdAt := 7 }],
    workerDocuments := some [{ id := some 23, workerId := 3, url := "u3", name := "doc",
                               createdAt := 7 }],
    customerImages := some [{ id := some 24, customerId := 2, url := "u4",
                              description := none, createdAt := 7 }] }

/-- The three id-maps a given import builds, as functions of the
document and the pre-call serial counters. -/
def importMaps (d : Doc) (s : DB) : IdMap × IdMap × IdMap :=
  (buildIdMap ((d.customers.getD []).map (fun c => c.id)) s.nextCustomerId [],
   buildIdMap ((d.jobs.getD []).map (fun j => j.id)) s.nextJobId [],
   buildIdMap ((d.workers.getD []).map (fun w => w.id)) s.nextWorkerId [])

/-- The explicit form of a whole import: every table is the non-owner
rows followed by the mk-list of inserted rows, every serial counter is
advanced by the number of rows inserted into its table, and the clock is
untouched.  Proved equal to importData below. -/
def importSpec (userId : Nat) (d : Doc) (s : DB) : DB :=
  let cmap := (importMaps d s).1
  let jmap := (importMaps d s).2.1
  let wmap := (importMaps d s).2.2
  { customers := s.customers.filter (fun r => !(r.userId == userId)) ++
      mkCustomerRows userId s.nextCustomerId (d.customers.getD []),
    jobs := s.jobs.filter (fun r => !(r.userId == userId)) ++
      mkJobRows userId cmap s.nextJobId (d.jobs.getD []),
    expenses := s.expenses.filter (fun r => !(r.userId == userId)) ++
      mkExpenseRows userId jmap s.nextExpenseId (d.expenses.getD []),
    inventory := s.inventory.filter (fun r => !(r.userId == userId)) ++
      mkInventoryRows userId jmap s.nextInventoryId (d.inventory.getD []),
    notes := s.notes.filter (fun r => !(r.userId == userId)) ++
      mkNoteRows userId s.now cmap jmap wmap s.nextNoteId (d.notes.getD []),
    travel := s.travel.filter (fun r => !(r.userId == userId)) ++
      mkTravelRows userId jmap s.nextTravelId (d.travel.getD []),
    workers := s.workers.filter (fun r => !(r.userId == userId)) ++
      mkWorkerRows userId jmap s.nextWorkerId (d.workers.getD []),
    attendance := s.attendance.filter (fun r => !(r.userId == userId)) ++
      mkAttendanceRows userId wmap jmap s.nextAttendanceId (d.attendance.getD []),
    jobImages := s.jobImages.filter (fun r => !(r.userId == userId)) ++
      mkJobImageRows userId s.now jmap s.nextJobImageId (d.jobImages.getD []),
    workerDocuments := s.workerDocuments.filter (fun r => !(r.userId == userId)) ++
      mkWorkerDocumentRows userId s.now wmap s.nextWorkerDocumentId (d.workerDocuments.getD []),
    customerImages := s.customerImages.filter (fun r => !(r.userId == userId)) ++
      mkCustomerImageRows userId s.now cmap s.nextCustomerImageId (d.customerImages.getD []),
    nextCustomerId := s.nextCustomerId + (d.customers.getD []).length,
    nextJobId := s.nextJobId + (d.jobs.getD []).length,
    nextExpenseId := s.nextExpenseId + (d.expenses.getD []).length,
    nextInventoryId := s.nextInventoryId + (d.inventory.getD []).length,
    nextNoteId := s.nextNoteId + (d.notes.getD []).length,
    nextTravelId := s.nextTravelId + (d.travel.getD []).length,
    nextWorkerId := s.nextWorkerId + (d.workers.getD []).length,
    nextAttendanceId := s.nextAttendanceId + (d.attendance.getD []).length,
    nextJobImageId := s.nextJobImageId +
      (mkJobImageRows userId s.now jmap s.nextJobImageId (d.jobImages.getD [])).length,
    nextWorkerDocumentId := s.nextWorkerDocumentId +
      (mkWorkerDocumentRows userId s.now wmap s.nextWorkerDocumentId (d.workerDocuments.getD [])).length,
    nextCustomerImageId := s.nextCustomerImageId +
      (mkCustomerImageRows userId s.now cmap s.nextCustomerImageId (d.customerImages.getD [])).length,
    now := s.now }

/-! Lemmas about the JavaScript-style id-map. -/

theorem mapGet_mapSet_self (m : IdMap) (k v : Nat) : mapGet (mapSet m k v) k = some v := by
  induction m with
  | nil => simp [mapSet, mapGet]
  | cons p rest ih =>
    obtain ⟨k1, v1⟩ := p
    by_cases h : k1 = k
    · simp [mapSet, h, mapGet]
    · simp [mapSet, h, mapGet, ih]

theorem mapGet_mapSet_ne (m : IdMap) (k v k1 : Nat) (h : k1 ≠ k) :
    mapGet (mapSet m k v) k1 = mapGet m k1 := by
  induction m with
  | nil => simp [mapSet, mapGet, Ne.symm h]
  | cons p rest ih =>
    obtain ⟨k2, v2⟩ := p
    by_cases h2 : k2 = k
    · subst h2
      simp [mapSet, mapGet, Ne.symm h]
    · by_cases h3 : k2 = k1 <;> simp [mapSet, mapGet, h2, h3, ih, h]

theorem truthyIds_nil : truthyIds [] = [] := rfl

theorem truthyIds_cons_none (os : List (Option Nat)) :
    truthyIds (none :: os) = truthyIds os := by
  simp [truthyIds]

theorem truthyIds_cons_some (n : Nat) (os : List (Option Nat)) :
    truthyIds (some n :: os) = if n = 0 then truthyIds os else n :: truthyIds os := by
  by_cases h : n = 0 <;> simp [truthyIds, h]

theorem buildIdMap_not_mem (os : List (Option Nat)) (base : Nat) (m : IdMap) (c : Nat)
    (h : c ∉ truthyIds os) : mapGet (buildIdMap os base m) c = mapGet m c := by
  induction os generalizing base m with
  | nil => simp [buildIdMap]
  | cons o os ih =>
    match o with
    | none => simpa [buildIdMap, recordId] using ih (base + 1) m (by simpa [truthyIds_cons_none] using h)
    | some n =>
      by_cases hn : n = 0
      · subst hn
        simpa [buildIdMap, recordId] using
          ih (base + 1) m (by simpa [truthyIds_cons_some] using h)
      · have hmem : c ≠ n ∧ c ∉ truthyIds os := by
          constructor
          · intro hc; exact h (by simp [truthyIds_cons_some, hn, hc])
          · intro hc; exact h (by simp [truthyIds_cons_some, hn, hc])
        have := ih (base + 1) (mapSet m n base) hmem.2
        rw [buildIdMap]
        simp only [recordId, hn, if_false]
        rw [this, mapGet_mapSet_ne m n base c hmem.1]

theorem buildIdMap_get (os : List (Option Nat)) (base : Nat) (m : IdMap) (i c : Nat)
    (hnd : (truthyIds os).Nodup) (hi : os[i]? = some (some c)) (hc : c ≠ 0) :
    mapGet (buildIdMap os base m) c = some (base + i) := by
  induction os generalizing base m i with
  | nil => simp at hi
  | cons o os ih =>
    match i with
    | 0 =>
      simp at hi
      subst hi
      rw [truthyIds_cons_some] at hnd
      simp [hc] at hnd
      rw [buildIdMap]
      simp only [recordId, hc, if_false]
      rw [buildIdMap_not_mem os (base + 1) (mapSet m c base) c hnd.1]
      simp [mapGet_mapSet_self]
    | Nat.succ j =>
      simp only [List.getElem?_cons_succ] at hi
      have hnd2 : (truthyIds os).Nodup := by
        match o with
        | none => rwa [truthyIds_cons_none] at hnd
        | some n =>
          rw [truthyIds_cons_some] at hnd
          by_cases hn : n = 0
          · simpa [hn] using hnd
          · simp [hn] at hnd
            exact hnd.2
      have := ih (base + 1) (recordId m o base) j hnd2 hi
      rw [buildIdMap, this]
      congr 1
      omega

/-! Characterizations of the insert phases: each loop appends exactly
its mk-list of rows, bumps its serial counter by the number of rows it
inserted, touches no other field, and builds exactly the id-map given by
buildIdMap over the document row ids. -/

theorem importCustomers_spec (userId : Nat) (cs : List DocCustomer) (s : DB) (m : IdMap) :
    importCustomers userId cs s m =
      ({ s with customers := s.customers ++ mkCustomerRows userId s.nextCustomerId cs,
                nextCustomerId := s.nextCustomerId + cs.length },
       buildIdMap (cs.map (fun c => c.id)) s.nextCustomerId m) := by
  induction cs generalizing s m with
  | nil => simp [importCustomers, mkCustomerRows, buildIdMap]
  | cons c cs ih =>
    rw [importCustomers, ih]
    simp [mkCustomerRows, buildIdMap]
    omega

theorem importJobs_spec (userId : Nat) (cmap : IdMap) (js : List DocJob) (s : DB) (m : IdMap) :
    importJobs userId cmap js s m =
      ({ s with jobs := s.jobs ++ mkJobRows userId cmap s.nextJobId js,
                nextJobId := s.nextJobId + js.length },
       buildIdMap (js.map (fun j => j.id)) s.nextJobId m) := by
  induction js generalizing s m with
  | nil => simp [importJobs, mkJobRows, buildIdMap]
  | cons j js ih =>
    rw [importJobs, ih]
    simp [mkJobRows, buildIdMap]
    omega

theorem importWorkers_spec (userId : Nat) (jmap : IdMap) (ws : List DocWorker) (s : DB) (m : IdMap) :
    importWorkers userId jmap ws s m =
      ({ s with workers := s.workers ++ mkWorkerRows userId jmap s.nextWorkerId ws,
                nextWorkerId := s.nextWorkerId + ws.length },
       buildIdMap (ws.map (fun w => w.id)) s.nextWorkerId m) := by
  induction ws generalizing s m with
  | nil => simp [importWorkers, mkWorkerRows, buildIdMap]
  | cons w ws ih =>
    rw [importWorkers, ih]
    simp [mkWorkerRows, buildIdMap]
    omega

theorem importExpenses_spec (userId : Nat) (jmap : IdMap) (es : List DocExpense) (s : DB) :
    importExpenses userId jmap es s =
      { s with expenses := s.expenses ++ mkExpenseRows userId jmap s.nextExpenseId es,
               nextExpenseId := s.nextExpenseId + es.length } := by
  induction es generalizing s with
  | nil => simp [importExpenses, mkExpenseRows]
  | cons e es ih =>
    rw [importExpenses, ih]
    simp [mkExpenseRows]
    omega

theorem importInventory_spec (userId : Nat) (jmap : IdMap) (items : List DocInventory) (s : DB) :
    importInventory userId jmap items s =
      { s with inventory := s.inventory ++ mkInventoryRows userId jmap s.nextInventoryId items,
               nextInventoryId := s.nextInventoryId + items.length } := by
  induction items generalizing s with
  | nil => simp [importInventory, mkInventoryRows]
  | cons i items ih =>
    rw [importInventory, ih]
    simp [mkInventoryRows]
    omega

theorem importTravel_spec (userId : Nat) (jmap : IdMap) (ts : List DocTravel) (s : DB) :
    importTravel userId jmap ts s =
      { s with travel := s.travel ++ mkTravelRows userId jmap s.nextTravelId ts,
               nextTravelId := s.nextTravelId + ts.length } := by
  induction ts generalizing s with
  | nil => simp [importTravel, mkTravelRows]
  | cons t ts ih =>
    rw [importTravel, ih]
    simp [mkTravelRows]
    omega

theorem importNotes_spec (userId : Nat) (cmap jmap wmap : IdMap) (ns : List DocNote) (s : DB) :
    importNotes userId cmap jmap wmap ns s =
      { s with notes := s.notes ++ mkNoteRows userId s.now cmap jmap wmap s.nextNoteId ns,
               nextNoteId := s.nextNoteId + ns.length } := by
  induction ns generalizing s with
  | nil => simp [importNotes, mkNoteRows]
  | cons n ns ih =>
    rw [importNotes, ih]
    simp [mkNoteRows]
    omega

theorem importAttendance_spec (userId : Nat) (wmap jmap : IdMap) (items : List DocAttendance) (s : DB) :
    importAttendance userId wmap jmap items s =
      { s with attendance := s.attendance ++ mkAttendanceRows userId wmap jmap s.nextAttendanceId items,
               nextAttendanceId := s.nextAttendanceId + items.length } := by
  induction items generalizing s with
  | nil => simp [importAttendance, mkAttendanceRows]
  | cons a items ih =>
    rw [importAttendance, ih]
    simp [mkAttendanceRows]
    omega

theorem importJobImages_spec (userId : Nat) (jmap : IdMap) (jis : List DocJobImage) (s : DB) :
    importJobImages userId jmap jis s =
      { s with jobImages := s.jobImages ++ mkJobImageRows userId s.now jmap s.nextJobImageId jis,
               nextJobImageId := s.nextJobImageId + (mkJobImageRows userId s.now jmap s.nextJobImageId jis).length } := by
  induction jis generalizing s with
  | nil => simp [importJobImages, mkJobImageRows]
  | cons ji jis ih =>
    rw [importJobImages]
    cases hm : (if ji.jobId = 0 then none else mapGet jmap ji.jobId) with
    | none =>
      rw [ih]
      simp [mkJobImageRows, hm]
    | some nj =>
      by_cases hz : nj = 0
      · subst hz
        simp only [if_pos rfl]
        rw [ih]
        simp [mkJobImageRows, hm]
      · simp only [if_neg hz]
        rw [ih]
        simp [mkJobImageRows, hm, hz]
        omega

theorem importWorkerDocuments_spec (userId : Nat) (wmap : IdMap) (wds : List DocWorkerDocument) (s : DB) :
    importWorkerDocuments userId wmap wds s =
      { s with workerDocuments := s.workerDocuments ++ mkWorkerDocumentRows userId s.now wmap s.nextWorkerDocumentId wds,
               nextWorkerDocumentId := s.nextWorkerDocumentId + (mkWorkerDocumentRows userId s.now wmap s.nextWorkerDocumentId wds).length } := by
  induction wds generalizing s with
  | nil => simp [importWorkerDocuments, mkWorkerDocumentRows]
  | cons wd wds ih =>
    rw [importWorkerDocuments]
    cases hm : (if wd.workerId = 0 then none else mapGet wmap wd.workerId) with
    | none =>
      rw [ih]
      simp [mkWorkerDocumentRows, hm]
    | some nw =>
      by_cases hz : nw = 0
      · subst hz
        simp only [if_pos rfl]
        rw [ih]
        simp [mkWorkerDocumentRows, hm]
      · simp only [if_neg hz]
        rw [ih]
        simp [mkWorkerDocumentRows, hm, hz]
        omega

theorem importCustomerImages_spec (userId : Nat) (cmap : IdMap) (cis : List DocCustomerImage) (s : DB) :
    importCustomerImages userId cmap cis s =
      { s with customerImages := s.customerImages ++ mkCustomerImageRows userId s.now cmap s.nextCustomerImageId cis,
               nextCustomerImageId := s.nextCustomerImageId + (mkCustomerImageRows userId s.now cmap s.nextCustomerImageId cis).length } := by
  induction cis generalizing s with
  | nil => simp [importCustomerImages, mkCustomerImageRows]
  | cons ci cis ih =>
    rw [importCustomerImages]
    cases hm : (if ci.customerId = 0 then none else mapGet cmap ci.customerId) with
    | none =>
      rw [ih]
      simp [mkCustomerImageRows, hm]
    | some nc =>
      by_cases hz : nc = 0
      · subst hz
        simp only [if_pos rfl]
        rw [ih]
        simp [mkCustomerImageRows, hm]
      · simp only [if_neg hz]
        rw [ih]
        simp [mkCustomerImageRows, hm, hz]
        omega

/-- Master characterization: one whole import in explicit form. -/
theorem importData_spec (userId : Nat) (d : Doc) (s : DB) :
    importData userId d s = importSpec userId d s := by
  simp only [importData, deleteOwner, importCustomers_spec, importJobs_spec,
    importWorkers_spec, importExpenses_spec, importInventory_spec, importTravel_spec,
    importNotes_spec, importAttendance_spec, importJobImages_spec,
    importWorkerDocuments_spec, importCustomerImages_spec, importSpec, importMaps]

/-! Generic filter lemmas and ownership of the inserted rows. -/

theorem filter_not_filter {α : Type} (p : α → Bool) (l : List α) :
    (l.filter (fun r => !(p r))).filter p = [] := by
  induction l with
  | nil => rfl
  | cons a l ih => by_cases h : p a <;> simp [h, ih]

theorem filter_not_idem {α : Type} (p : α → Bool) (l : List α) :
    (l.filter (fun r => !(p r))).filter (fun r => !(p r)) = l.filter (fun r => !(p r)) := by
  induction l with
  | nil => rfl
  | cons a l ih => by_cases h : p a <;> simp [h, ih]

theorem mkCustomerRows_userId (uid base : Nat) (cs : List DocCustomer) :
    ∀ r ∈ mkCustomerRows uid base cs, r.userId = uid := by
  induction cs generalizing base with
  | nil => simp [mkCustomerRows]
  | cons c cs ih =>
    intro r hr
    rcases (by simpa [mkCustomerRows] using hr : _ ∨ _) with h | h
    · simp [h]
    · exact ih (base + 1) r h

theorem mkJobRows_userId (uid : Nat) (cmap : IdMap) (base : Nat) (js : List DocJob) :
    ∀ r ∈ mkJobRows uid cmap base js, r.userId = uid := by
  induction js generalizing base with
  | nil => simp [mkJobRows]
  | cons j js ih =>
    intro r hr
    rcases (by simpa [mkJobRows] using hr : _ ∨ _) with h | h
    · simp [h]
    · exact ih (base + 1) r h

theorem mkWorkerRows_userId (uid : Nat) (jmap : IdMap) (base : Nat) (ws : List DocWorker) :
    ∀ r ∈ mkWorkerRows uid jmap base ws, r.userId = uid := by
  induction ws generalizing base with
  | nil => simp [mkWorkerRows]
  | cons w ws ih =>
    intro r hr
    rcases (by simpa [mkWorkerRows] using hr : _ ∨ _) with h | h
    · simp [h]
    · exact ih (base + 1) r h

theorem mkExpenseRows_userId (uid : Nat) (jmap : IdMap) (base : Nat) (es : List DocExpense) :
    ∀ r ∈ mkExpenseRows uid jmap base es, r.userId = uid := by
  induction es generalizing base with
  | nil => simp [mkExpenseRows]
  | cons e es ih =>
    intro r hr
    rcases (by simpa [mkExpenseRows] using hr : _ ∨ _) with h | h
    · simp [h]
    · exact ih (base + 1) r h

theorem mkInventoryRows_userId (uid : Nat) (jmap : IdMap) (base : Nat) (items : List DocInventory) :
    ∀ r ∈ mkInventoryRows uid jmap base items, r.userId = uid := by
  induction items generalizing base with
  | nil => simp [mkInventoryRows]
  | cons i items ih =>
    intro r hr
    rcases (by simpa [mkInventoryRows] using hr : _ ∨ _) with h | h
    · simp [h]
    · exact ih (base + 1) r h

theorem mkTravelRows_userId (uid : Nat) (jmap : IdMap) (base : Nat) (ts : List DocTravel) :
    ∀ r ∈ mkTravelRows uid jmap base ts, r.userId = uid := by
  induction ts generalizing base with
  | nil => simp [mkTravelRows]
  | cons t ts ih =>
    intro r hr
    rcases (by simpa [mkTravelRows] using hr : _ ∨ _) with h | h
    · simp [h]
    · exact ih (base + 1) r h

theorem mkNoteRows_userId (uid now : Nat) (cmap jmap wmap : IdMap) (base : Nat) (ns : List DocNote) :
    ∀ r ∈ mkNoteRows uid now cmap jmap wmap base ns, r.userId = uid := by
  induction ns generalizing base with
  | nil => simp [mkNoteRows]
  | cons n ns ih =>
    intro r hr
    rcases (by simpa [mkNoteRows] using hr : _ ∨ _) with h | h
    · simp [h]
    · exact ih (base + 1) r h

theorem mkAttendanceRows_userId (uid : Nat) (wmap jmap : IdMap) (base : Nat) (items : List DocAttendance) :
    ∀ r ∈ mkAttendanceRows uid wmap jmap base items, r.userId = uid := by
  induction items generalizing base with
  | nil => simp [mkAttendanceRows]
  | cons a items ih =>
    intro r hr
    rcases (by simpa [mkAttendanceRows] using hr : _ ∨ _) with h | h
    · simp [h]
    · exact ih (base + 1) r h

theorem mkJobImageRows_userId (uid now : Nat) (jmap : IdMap) (base : Nat) (jis : List DocJobImage) :
    ∀ r ∈ mkJobImageRows uid now jmap base jis, r.userId = uid := by
  induction jis generalizing base with
  | nil => simp [mkJobImageRows]
  | cons ji jis ih =>
    intro r hr
    rw [mkJobImageRows] at hr
    rcases hmo : (if ji.jobId = 0 then none else mapGet jmap ji.jobId) with _ | nj
    · rw [hmo] at hr
      exact ih base r hr
    · rw [hmo] at hr
      by_cases hz : nj = 0
      · simp only [hz, if_true, eq_self_iff_true] at hr
        exact ih base r hr
      · simp only [hz, if_false, if_neg hz] at hr
        rcases (by simpa using hr : _ ∨ _) with h | h
        · simp [h]
        · exact ih (base + 1) r h

theorem mkWorkerDocumentRows_userId (uid now : Nat) (wmap : IdMap) (base : Nat) (wds : List DocWorkerDocument) :
    ∀ r ∈ mkWorkerDocumentRows uid now wmap base wds, r.userId = uid := by
  induction wds generalizing base with
  | nil => simp [mkWorkerDocumentRows]
  | cons wd wds ih =>
    intro r hr
    rw [mkWorkerDocumentRows] at hr
    rcases hmo : (if wd.workerId = 0 then none else mapGet wmap wd.workerId) with _ | nw
    · rw [hmo] at hr
      exact ih base r hr
    · rw [hmo] at hr
      by_cases hz : nw = 0
      · simp only [hz, if_true, eq_self_iff_true] at hr
        exact ih base r hr
      · simp only [hz, if_false, if_neg hz] at hr
        rcases (by simpa using hr : _ ∨ _) with h | h
        · simp [h]
        · exact ih (base + 1) r h

theorem mkCustomerImageRows_userId (uid now : Nat) (cmap : IdMap) (base : Nat) (cis : List DocCustomerImage) :
    ∀ r ∈ mkCustomerImageRows uid now cmap base cis, r.userId = uid := by
  induction cis generalizing base with
  | nil => simp [mkCustomerImageRows]
  | cons ci cis ih =>
    intro r hr
    rw [mkCustomerImageRows] at hr
    rcases hmo : (if ci.customerId = 0 then none else mapGet cmap ci.customerId) with _ | nc
    · rw [hmo] at hr
      exact ih base r hr
    · rw [hmo] at hr
      by_cases hz : nc = 0
      · simp only [hz, if_true, eq_self_iff_true] at hr
        exact ih base r hr
      · simp only [hz, if_false, if_neg hz] at hr
        rcases (by simpa using hr : _ ∨ _) with h | h
        · simp [h]
        · exact ih (base + 1) r h

/-! Owner and non-owner projections of one whole import, per table. -/

theorem importData_owner_customers (u : Nat) (d : Doc) (s : DB) :
    (importData u d s).customers.filter (fun r => r.userId == u) =
      mkCustomerRows u s.nextCustomerId (d.customers.getD []) := by
  rw [importData_spec]
  simp only [importSpec, List.filter_append, filter_not_filter, List.nil_append]
  exact List.filter_eq_self.mpr (fun r hr => by
    simp [mkCustomerRows_userId u s.nextCustomerId (d.customers.getD []) r hr])

theorem importData_nonowner_customers (u : Nat) (d : Doc) (s : DB) :
    (importData u d s).customers.filter (fun r => !(r.userId == u)) =
      s.customers.filter (fun r => !(r.userId == u)) := by
  rw [importData_spec]
  simp only [importSpec, List.filter_append, filter_not_idem]
  have hnil : (mkCustomerRows u s.nextCustomerId (d.customers.getD [])).filter (fun r => !(r.userId == u)) = [] := by
    rw [List.filter_eq_nil_iff]
    intro r hr
    simp [mkCustomerRows_userId u s.nextCustomerId (d.customers.getD []) r hr]
  rw [hnil, List.append_nil]

theorem importData_owner_jobs (u : Nat) (d : Doc) (s : DB) :
    (importData u d s).jobs.filter (fun r => r.userId == u) =
      mkJobRows u (importMaps d s).1 s.nextJobId (d.jobs.getD []) := by
  rw [importData_spec]
  simp only [importSpec, List.filter_append, filter_not_filter, List.nil_append]
  exact List.filter_eq_self.mpr (fun r hr => by
    simp [mkJobRows_userId u (importMaps d s).1 s.nextJobId (d.jobs.getD []) r hr])

theorem importData_nonowner_jobs (u : Nat) (d : Doc) (s : DB) :
    (importData u d s).jobs.filter (fun r => !(r.userId == u)) =
      s.jobs.filter (fun r => !(r.userId == u)) := by
  rw [importData_spec]
  simp only [importSpec, List.filter_append, filter_not_idem]
  have hnil : (mkJobRows u (importMaps d s).1 s.nextJobId (d.jobs.getD [])).filter (fun r => !(r.userId == u)) = [] := by
    rw [List.filter_eq_nil_iff]
    intro r hr
    simp [mkJobRows_userId u (importMaps d s).1 s.nextJobId (d.jobs.getD []) r hr]
  rw [hnil, List.append_nil]

theorem importData_owner_workers (u : Nat) (d : Doc) (s : DB) :
    (importData u d s).workers.filter (fun r => r.userId == u) =
      mkWorkerRows u (importMaps d s).2.1 s.nextWorkerId (d.workers.getD []) := by
  rw [importData_spec]
  simp only [importSpec, List.filter_append, filter_not_filter, List.nil_append]
  exact List.filter_eq_self.mpr (fun r hr => by
    simp [mkWorkerRows_userId u (importMaps d s).2.1 s.nextWorkerId (d.workers.getD []) r hr])

theorem importData_nonowner_workers (u : Nat) (d : Doc) (s : DB) :
    (importData u d s).workers.filter (fun r => !(r.userId == u)) =
      s.workers.filter (fun r => !(r.userId == u)) := by
  rw [importData_spec]
  simp only [importSpec, List.filter_append, filter_not_idem]
  have hnil : (mkWorkerRows u (importMaps d s).2.1 s.nextWorkerId (d.workers.getD [])).filter (fun r => !(r.userId == u)) = [] := by
    rw [List.filter_eq_nil_iff]
    intro r hr
    simp [mkWorkerRows_userId u (importMaps d s).2.1 s.nextWorkerId (d.workers.getD []) r hr]
  rw [hnil, List.append_nil]

theorem importData_owner_expenses (u : Nat) (d : Doc) (s : DB) :
    (importData u d s).expenses.filter (fun r => r.userId == u) =
      mkExpenseRows u (importMaps d s).2.1 s.nextExpenseId (d.expenses.getD []) := by
  rw [importData_spec]
  simp only [importSpec, List.filter_append, filter_not_filter, List.nil_append]
  exact List.filter_eq_self.mpr (fun r hr => by
    simp [mkExpenseRows_userId u (importMaps d s).2.1 s.nextExpenseId (d.expenses.getD []) r hr])

theorem importData_nonowner_expenses (u : Nat) (d : Doc) (s : DB) :
    (importData u d s).expenses.filter (fun r => !(r.userId == u)) =
      s.expenses.filter (fun r => !(r.userId == u)) := by
  rw [importData_spec]
  simp only [importSpec, List.filter_append, filter_not_idem]
  have hnil : (mkExpenseRows u (importMaps d s).2.1 s.nextExpenseId (d.expenses.getD [])).filter (fun r => !(r.userId == u)) = [] := by
    rw [List.filter_eq_nil_iff]
    intro r hr
    simp [mkExpenseRows_userId u (importMaps d s).2.1 s.nextExpenseId (d.expenses.getD []) r hr]
  rw [hnil, List.append_nil]

theorem importData_owner_inventory (u : Nat) (d : Doc) (s : DB) :
    (importData u d s).inventory.filter (fun r => r.userId == u) =
      mkInventoryRows u (importMaps d s).2.1 s.nextInventoryId (d.inventory.getD []) := by
  rw [importData_spec]
  simp only [importSpec, List.filter_append, filter_not_filter, List.nil_append]
  exact List.filter_eq_self.mpr (fun r hr => by
    simp [mkInventoryRows_userId u (importMaps d s).2.1 s.nextInventoryId (d.inventory.getD []) r hr])

theorem importData_nonowner_inventory (u : Nat) (d : Doc) (s : DB) :
    (importData u d s).inventory.filter (fun r => !(r.userId == u)) =
      s.inventory.filter (fun r => !(r.userId == u)) := by
  rw [importData_spec]
  simp only [importSpec, List.filter_append, filter_not_idem]
  have hnil : (mkInventoryRows u (importMaps d s).2.1 s.nextInventoryId (d.inventory.getD [])).filter (fun r => !(r.userId == u)) = [] := by
    rw [List.filter_eq_nil_iff]
    intro r hr
    simp [mkInventoryRows_userId u (importMaps d s).2.1 s.nextInventoryId (d.inventory.getD []) r hr]
  rw [hnil, List.append_nil]

theorem importData_owner_travel (u : Nat) (d : Doc) (s : DB) :
    (importData u d s).travel.filter (fun r => r.userId == u) =
      mkTravelRows u (importMaps d s).2.1 s.nextTravelId (d.travel.getD []) := by
  rw [importData_spec]
  simp only [importSpec, List.filter_append, filter_not_filter, List.nil_append]
  exact List.filter_eq_self.mpr (fun r hr => by
    simp [mkTravelRows_userId u (importMaps d s).2.1 s.nextTravelId (d.travel.getD []) r hr])

theorem importData_nonowner_travel (u : Nat) (d : Doc) (s : DB) :
    (importData u d s).travel.filter (fun r => !(r.userId == u)) =
      s.travel.filter (fun r => !(r.userId == u)) := by
  rw [importData_spec]
  simp only [importSpec, List.filter_append, filter_not_idem]
  have hnil : (mkTravelRows u (importMaps d s).2.1 s.nextTravelId (d.travel.getD [])).filter (fun r => !(r.userId == u)) = [] := by
    rw [List.filter_eq_nil_iff]
    intro r hr
    simp [mkTravelRows_userId u (importMaps d s).2.1 s.nextTravelId (d.travel.getD []) r hr]
  rw [hnil, List.append_nil]

theorem importData_owner_notes (u : Nat) (d : Doc) (s : DB) :
    (importData u d s).notes.filter (fun r => r.userId == u) =
      mkNoteRows u s.now (importMaps d s).1 (importMaps d s).2.1 (importMaps d s).2.2 s.nextNoteId (d.notes.getD []) := by
  rw [importData_spec]
  simp only [importSpec, List.filter_append, filter_not_filter, List.nil_append]
  exact List.filter_eq_self.mpr (fun r hr => by
    simp [mkNoteRows_userId u s.now (importMaps d s).1 (importMaps d s).2.1 (importMaps d s).2.2 s.nextNoteId (d.notes.getD []) r hr])

theorem importData_nonowner_notes (u : Nat) (d : Doc) (s : DB) :
    (importData u d s).notes.filter (fun r => !(r.userId == u)) =
      s.notes.filter (fun r => !(r.userId == u)) := by
  rw [importData_spec]
  simp only [importSpec, List.filter_append, filter_not_idem]
  have hnil : (mkNoteRows u s.now (importMaps d s).1 (importMaps d s).2.1 (importMaps d s).2.2 s.nextNoteId (d.notes.getD [])).filter (fun r => !(r.userId == u)) = [] := by
    rw [List.filter_eq_nil_iff]
    intro r hr
    simp [mkNoteRows_userId u s.now (importMaps d s).1 (importMaps d s).2.1 (importMaps d s).2.2 s.nextNoteId (d.notes.getD []) r hr]
  rw [hnil, List.append_nil]

theorem importData_owner_attendance (u : Nat) (d : Doc) (s : DB) :
    (importData u d s).attendance.filter (fun r => r.userId == u) =
      mkAttendanceRows u (importMaps d s).2.2 (importMaps d s).2.1 s.nextAttendanceId (d.attendance.getD []) := by
  rw [importData_spec]
  simp only [importSpec, List.filter_append, filter_not_filter, List.nil_append]
  exact List.filter_eq_self.mpr (fun r hr => by
    simp [mkAttendanceRows_userId u (importMaps d s).2.2 (importMaps d s).2.1 s.nextAttendanceId (d.attendance.getD []) r hr])

theorem importData_nonowner_attendance (u : Nat) (d : Doc) (s : DB) :
    (importData u d s).attendance.filter (fun r => !(r.userId == u)) =
      s.attendance.filter (fun r => !(r.userId == u)) := by
  rw [importData_spec]
  simp only [importSpec, List.filter_append, filter_not_idem]
  have hnil : (mkAttendanceRows u (importMaps d s).2.2 (importMaps d s).2.1 s.nextAttendanceId (d.attendance.getD [])).filter (fun r => !(r.userId == u)) = [] := by
    rw [List.filter_eq_nil_iff]
    intro r hr
    simp [mkAttendanceRows_userId u (importMaps d s).2.2 (importMaps d s).2.1 s.nextAttendanceId (d.attendance.getD []) r hr]
  rw [hnil, List.append_nil]

theorem importData_owner_jobImages (u : Nat) (d : Doc) (s : DB) :
    (importData u d s).jobImages.filter (fun r => r.userId == u) =
      mkJobImageRows u s.now (importMaps d s).2.1 s.nextJobImageId (d.jobImages.getD []) := by
  rw [importData_spec]
  simp only [importSpec, List.filter_append, filter_not_filter, List.nil_append]
  exact List.filter_eq_self.mpr (fun r hr => by
    simp [mkJobImageRows_userId u s.now (importMaps d s).2.1 s.nextJobImageId (d.jobImages.getD []) r hr])

theorem importData_nonowner_jobImages (u : Nat) (d : Doc) (s : DB) :
    (importData u d s).jobImages.filter (fun r => !(r.userId == u)) =
      s.jobImages.filter (fun r => !(r.userId == u)) := by
  rw [importData_spec]
  simp only [importSpec, List.filter_append, filter_not_idem]
  have hnil : (mkJobImageRows u s.now (importMaps d s).2.1 s.nextJobImageId (d.jobImages.getD [])).filter (fun r => !(r.userId == u)) = [] := by
    rw [List.filter_eq_nil_iff]
    intro r hr
    simp [mkJobImageRows_userId u s.now (importMaps d s).2.1 s.nextJobImageId (d.jobImages.getD []) r hr]
  rw [hnil, List.append_nil]

theorem importData_owner_workerDocuments (u : Nat) (d : Doc) (s : DB) :
    (importData u d s).workerDocuments.filter (fun r => r.userId == u) =
      mkWorkerDocumentRows u s.now (importMaps d s).2.2 s.nextWorkerDocumentId (d.workerDocuments.getD []) := by
  rw [importData_spec]
  simp only [importSpec, List.filter_append, filter_not_filter, List.nil_append]
  exact List.filter_eq_self.mpr (fun r hr => by
    simp [mkWorkerDocumentRows_userId u s.now (importMaps d s).2.2 s.nextWorkerDocumentId (d.workerDocuments.getD []) r hr])

theorem importData_nonowner_workerDocuments (u : Nat) (d : Doc) (s : DB) :
    (importData u d s).workerDocuments.filter (fun r => !(r.userId == u)) =
      s.workerDocuments.filter (fun r => !(r.userId == u)) := by
  rw [importData_spec]
  simp only [importSpec, List.filter_append, filter_not_idem]
  have hnil : (mkWorkerDocumentRows u s.now (importMaps d s).2.2 s.nextWorkerDocumentId (d.workerDocuments.getD [])).filter (fun r => !(r.userId == u)) = [] := by
    rw [List.filter_eq_nil_iff]
    intro r hr
    simp [mkWorkerDocumentRows_userId u s.now (importMaps d s).2.2 s.nextWorkerDocumentId (d.workerDocuments.getD []) r hr]
  rw [hnil, List.append_nil]

theorem importData_owner_customerImages (u : Nat) (d : Doc) (s : DB) :
    (importData u d s).customerImages.filter (fun r => r.userId == u) =
      mkCustomerImageRows u s.now (importMaps d s).1 s.nextCustomerImageId (d.customerImages.getD []) := by
  rw [importData_spec]
  simp only [importSpec, List.filter_append, filter_not_filter, List.nil_append]
  exact List.filter_eq_self.mpr (fun r hr => by
    simp [mkCustomerImageRows_userId u s.now (importMaps d s).1 s.nextCustomerImageId (d.customerImages.getD []) r hr])

theorem importData_nonowner_customerImages (u : Nat) (d : Doc) (s : DB) :
    (importData u d s).customerImages.filter (fun r => !(r.userId == u)) =
      s.customerImages.filter (fun r => !(r.userId == u)) := by
  rw [importData_spec]
  simp only [importSpec, List.filter_append, filter_not_idem]
  have hnil : (mkCustomerImageRows u s.now (importMaps d s).1 s.nextCustomerImageId (d.customerImages.getD [])).filter (fun r => !(r.userId == u)) = [] := by
    rw [List.filter_eq_nil_iff]
    intro r hr
    simp [mkCustomerImageRows_userId u s.now (importMaps d s).1 s.nextCustomerImageId (d.customerImages.getD []) r hr]
  rw [hnil, List.append_nil]

/-! Indexed descriptions of the inserted rows, and content preservation
of one insert phase over serialized rows. -/

theorem mkJobRows_jobId (uid : Nat) (cmap : IdMap) (base : Nat) (js : List DocJob) :
    ∀ r ∈ mkJobRows uid cmap base js, r.jobId = none := by
  induction js generalizing base with
  | nil => simp [mkJobRows]
  | cons j js ih =>
    intro r hr
    rcases (by simpa [mkJobRows] using hr : _ ∨ _) with h | h
    · simp [h]
    · exact ih (base + 1) r h


theorem mkCustomerRows_get (uid : Nat) (base : Nat) (l : List DocCustomer) (k : Nat) (x : DocCustomer)
    (h : l[k]? = some x) :
    (mkCustomerRows uid base l)[k]? = some { id := base + k, userId := uid, name := x.name, phone := x.phone, address := x.address } := by
  induction l generalizing base k with
  | nil => simp at h
  | cons y ys ih =>
    match k with
    | 0 =>
      simp only [List.getElem?_cons_zero, Option.some.injEq] at h
      subst h
      simp [mkCustomerRows]
    | Nat.succ j =>
      simp only [List.getElem?_cons_succ] at h
      rw [(by omega : base + (j + 1) = base + 1 + j)]
      rw [mkCustomerRows]
      simp only [List.getElem?_cons_succ]
      exact ih (base + 1) j h


theorem mkJobRows_get (uid : Nat) (cmap : IdMap) (base : Nat) (l : List DocJob) (k : Nat) (x : DocJob)
    (h : l[k]? = some x) :
    (mkJobRows uid cmap base l)[k]? = some { id := base + k, userId := uid, jobId := none, jobName := x.jobName, customerId := remapFk cmap x.customerId, category := x.category, description := x.description, location := x.location, status := x.status, quotedAmount := x.quotedAmount, agreedAmount := x.agreedAmount, paidAmount := x.paidAmount, startDate := x.startDate, endDate := x.endDate } := by
  induction l generalizing base k with
  | nil => simp at h
  | cons y ys ih =>
    match k with
    | 0 =>
      simp only [List.getElem?_cons_zero, Option.some.injEq] at h
      subst h
      simp [mkJobRows]
    | Nat.succ j =>
      simp only [List.getElem?_cons_succ] at h
      rw [(by omega : base + (j + 1) = base + 1 + j)]
      rw [mkJobRows]
      simp only [List.getElem?_cons_succ]
      exact ih (base + 1) j h


theorem mkWorkerRows_get (uid : Nat) (jmap : IdMap) (base : Nat) (l : List DocWorker) (k : Nat) (x : DocWorker)
    (h : l[k]? = some x) :
    (mkWorkerRows uid jmap base l)[k]? = some { id := base + k, userId := uid, jobId := remapFk jmap x.jobId, name := x.name, role := x.role, phone := x.phone, address := x.address, documentUrl := x.documentUrl, dailyWage := x.dailyWage, isActive := x.isActive, rating := x.rating } := by
  induction l generalizing base k with
  | nil => simp at h
  | cons y ys ih =>
    match k with
    | 0 =>
      simp only [List.getElem?_cons_zero, Option.some.injEq] at h
      subst h
      simp [mkWorkerRows]
    | Nat.succ j =>
      simp only [List.getElem?_cons_succ] at h
      rw [(by omega : base + (j + 1) = base + 1 + j)]
      rw [mkWorkerRows]
      simp only [List.getElem?_cons_succ]
      exact ih (base + 1) j h


theorem mkExpenseRows_get (uid : Nat) (jmap : IdMap) (base : Nat) (l : List DocExpense) (k : Nat) (x : DocExpense)
    (h : l[k]? = some x) :
    (mkExpenseRows uid jmap base l)[k]? = some { id := base + k, userId := uid, jobId := remapFk jmap x.jobId, category := x.category, description := x.description, amount := x.amount, paidAmount := x.paidAmount, paidFull := x.paidFull, date := x.date, isRequired := x.isRequired } := by
  induction l generalizing base k with
  | nil => simp at h
  | cons y ys ih =>
    match k with
    | 0 =>
      simp only [List.getElem?_cons_zero, Option.some.injEq] at h
      subst h
      simp [mkExpenseRows]
    | Nat.succ j =>
      simp only [List.getElem?_cons_succ] at h
      rw [(by omega : base + (j + 1) = base + 1 + j)]
      rw [mkExpenseRows]
      simp only [List.getElem?_cons_succ]
      exact ih (base + 1) j h


theorem mkInventoryRows_get (uid : Nat) (jmap : IdMap) (base : Nat) (l : List DocInventory) (k : Nat) (x : DocInventory)
    (h : l[k]? = some x) :
    (mkInventoryRows uid jmap base l)[k]? = some { id := base + k, userId := uid, jobId := remapFk jmap x.jobId, name := x.name, category := x.category, quantity := x.quantity, unit := x.unit, costPerUnit := x.costPerUnit, assignedToJobId := remapFk jmap x.assignedToJobId } := by
  induction l generalizing base k with
  | nil => simp at h
  | cons y ys ih =>
    match k with
    | 0 =>
      simp only [List.getElem?_cons_zero, Option.some.injEq] at h
      subst h
      simp [mkInventoryRows]
    | Nat.succ j =>
      simp only [List.getElem?_cons_succ] at h
      rw [(by omega : base + (j + 1) = base + 1 + j)]
      rw [mkInventoryRows]
      simp only [List.getElem?_cons_succ]
      exact ih (base + 1) j h


theorem mkTravelRows_get (uid : Nat) (jmap : IdMap) (base : Nat) (l : List DocTravel) (k : Nat) (x : DocTravel)
    (h : l[k]? = some x) :
    (mkTravelRows uid jmap base l)[k]? = some { id := base + k, userId := uid, jobId := remapFk jmap x.jobId, date := x.date, kilometers := x.kilometers, fuelCost := x.fuelCost } := by
  induction l generalizing base k with
  | nil => simp at h
  | cons y ys ih =>
    match k with
    | 0 =>
      simp only [List.getElem?_cons_zero, Option.some.injEq] at h
      subst h
      simp [mkTravelRows]
    | Nat.succ j =>
      simp only [List.getElem?_cons_succ] at h
      rw [(by omega : base + (j + 1) = base + 1 + j)]
      rw [mkTravelRows]
      simp only [List.getElem?_cons_succ]
      exact ih (base + 1) j h


theorem mkNoteRows_get (uid now : Nat) (cmap jmap wmap : IdMap) (base : Nat) (l : List DocNote) (k : Nat) (x : DocNote)
    (h : l[k]? = some x) :
    (mkNoteRows uid now cmap jmap wmap base l)[k]? = some { id := base + k, userId := uid, type := x.type, sectionTag := x.sectionTag, referenceId := remapNoteRef cmap jmap wmap x.sectionTag x.referenceId, attrName := x.attrName, content := x.content, createdAt := now } := by
  induction l generalizing base k with
  | nil => simp at h
  | cons y ys ih =>
    match k with
    | 0 =>
      simp only [List.getElem?_cons_zero, Option.some.injEq] at h
      subst h
      simp [mkNoteRows]
    | Nat.succ j =>
      simp only [List.getElem?_cons_succ] at h
      rw [(by omega : base + (j + 1) = base + 1 + j)]
      rw [mkNoteRows]
      simp only [List.getElem?_cons_succ]
      exact ih (base + 1) j h


theorem mkAttendanceRows_get (uid : Nat) (wmap jmap : IdMap) (base : Nat) (l : List DocAttendance) (k : Nat) (x : DocAttendance)
    (h : l[k]? = some x) :
    (mkAttendanceRows uid wmap jmap base l)[k]? = some { id := base + k, userId := uid, workerId := remapFk wmap x.workerId, jobId := remapFk jmap x.jobId, date := x.date, status := x.status, extraAllowance := x.extraAllowance } := by
  induction l generalizing base k with
  | nil => simp at h
  | cons y ys ih =>
    match k with
    | 0 =>
      simp only [List.getElem?_cons_zero, Option.some.injEq] at h
      subst h
      simp [mkAttendanceRows]
    | Nat.succ j =>
      simp only [List.getElem?_cons_succ] at h
      rw [(by omega : base + (j + 1) = base + 1 + j)]
      rw [mkAttendanceRows]
      simp only [List.getElem?_cons_succ]
      exact ih (base + 1) j h


theorem mkCustomerRows_content (uid : Nat) (base : Nat) (l : List CustomerRow) :
    (mkCustomerRows uid base (l.map custToDoc)).map custContent = l.map custContent := by
  induction l generalizing base with
  | nil => simp [mkCustomerRows]
  | cons r l ih => simp [mkCustomerRows, custToDoc, custContent, ih]


theorem mkJobRows_content (uid : Nat) (cmap : IdMap) (base : Nat) (l : List JobRow) :
    (mkJobRows uid cmap base (l.map jobToDoc)).map jobContent = l.map jobContent := by
  induction l generalizing base with
  | nil => simp [mkJobRows]
  | cons r l ih => simp [mkJobRows, jobToDoc, jobContent, ih]


theorem mkWorkerRows_content (uid : Nat) (jmap : IdMap) (base : Nat) (l : List WorkerRow) :
    (mkWorkerRows uid jmap base (l.map workerToDoc)).map workerContent = l.map workerContent := by
  induction l generalizing base with
  | nil => simp [mkWorkerRows]
  | cons r l ih => simp [mkWorkerRows, workerToDoc, workerContent, ih]


theorem mkExpenseRows_content (uid : Nat) (jmap : IdMap) (base : Nat) (l : List ExpenseRow) :
    (mkExpenseRows uid jmap base (l.map expenseToDoc)).map expenseContent = l.map expenseContent := by
  induction l generalizing base with
  | nil => simp [mkExpenseRows]
  | cons r l ih => simp [mkExpenseRows, expenseToDoc, expenseContent, ih]


theorem mkInventoryRows_content (uid : Nat) (jmap : IdMap) (base : Nat) (l : List InventoryRow) :
    (mkInventoryRows uid jmap base (l.map inventoryToDoc)).map inventoryContent = l.map inventoryContent := by
  induction l generalizing base with
  | nil => simp [mkInventoryRows]
  | cons r l ih => simp [mkInventoryRows, inventoryToDoc, inventoryContent, ih]


theorem mkTravelRows_content (uid : Nat) (jmap : IdMap) (base : Nat) (l : List TravelRow) :
    (mkTravelRows uid jmap base (l.map travelToDoc)).map travelContent = l.map travelContent := by
  induction l generalizing base with
  | nil => simp [mkTravelRows]
  | cons r l ih => simp [mkTravelRows, travelToDoc, travelContent, ih]


theorem mkNoteRows_content (uid now : Nat) (cmap jmap wmap : IdMap) (base : Nat) (l : List NoteRow) :
    (mkNoteRows uid now cmap jmap wmap base (l.map noteToDoc)).map noteContent = l.map noteContent := by
  induction l generalizing base with
  | nil => simp [mkNoteRows]
  | cons r l ih => simp [mkNoteRows, noteToDoc, noteContent, ih]


theorem mkAttendanceRows_content (uid : Nat) (wmap jmap : IdMap) (base : Nat) (l : List AttendanceRow) :
    (mkAttendanceRows uid wmap jmap base (l.map attendanceToDoc)).map attendanceContent = l.map attendanceContent := by
  induction l generalizing base with
  | nil => simp [mkAttendanceRows]
  | cons r l ih => simp [mkAttendanceRows, attendanceToDoc, attendanceContent, ih]

/-! Lemmas about the three child tables with a required parent key:
untranslatable rows are skipped without any other effect, and when every
row is translatable nothing is dropped. -/


theorem mkJobImageRows_skip (uid now : Nat) (m : IdMap) (base : Nat)
    (l1 l2 : List DocJobImage) (bad : DocJobImage)
    (h : (if bad.jobId = 0 then none else mapGet m bad.jobId) = none ∨
         (if bad.jobId = 0 then none else mapGet m bad.jobId) = some 0) :
    mkJobImageRows uid now m base (l1 ++ bad :: l2) = mkJobImageRows uid now m base (l1 ++ l2) := by
  induction l1 generalizing base with
  | nil =>
    rcases h with h | h
    · simp only [List.nil_append, mkJobImageRows, h]
    · simp only [List.nil_append, mkJobImageRows, h]
      simp
  | cons y ys ih =>
    simp only [List.cons_append, mkJobImageRows]
    cases hv : (if y.jobId = 0 then none else mapGet m y.jobId) with
    | none => exact ih base
    | some v =>
      by_cases hz : v = 0
      · simp only [hz, if_pos rfl]
        exact ih base
      · simp only [if_neg hz]
        exact congrArg _ (ih (base + 1))

theorem mkJobImageRows_get_total (uid now : Nat) (m : IdMap) (base : Nat)
    (l : List DocJobImage) (k : Nat) (x : DocJobImage)
    (htotal : ∀ y ∈ l, ∃ v, (if y.jobId = 0 then none else mapGet m y.jobId) = some v ∧ v ≠ 0)
    (h : l[k]? = some x) :
    ∃ v, (if x.jobId = 0 then none else mapGet m x.jobId) = some v ∧ v ≠ 0 ∧
      (mkJobImageRows uid now m base l)[k]? = some { id := base + k, userId := uid, jobId := v, url := x.url, description := x.description, createdAt := now } := by
  induction l generalizing base k with
  | nil => simp at h
  | cons y ys ih =>
    obtain ⟨v, hv, hvz⟩ := htotal y (List.mem_cons_self y ys)
    match k with
    | 0 =>
      simp only [List.getElem?_cons_zero, Option.some.injEq] at h
      subst h
      refine ⟨v, hv, hvz, ?_⟩
      rw [mkJobImageRows, hv]
      simp [hvz]
    | Nat.succ j =>
      simp only [List.getElem?_cons_succ] at h
      have htail : ∀ y2 ∈ ys, ∃ v2, (if y2.jobId = 0 then none else mapGet m y2.jobId) = some v2 ∧ v2 ≠ 0 :=
        fun y2 hy2 => htotal y2 (List.mem_cons_of_mem y hy2)
      obtain ⟨v2, hv2, hv2z, hget⟩ := ih (base + 1) j htail h
      refine ⟨v2, hv2, hv2z, ?_⟩
      rw [(by omega : base + (j + 1) = base + 1 + j)]
      rw [mkJobImageRows, hv]
      simp only [if_neg hvz, List.getElem?_cons_succ]
      exact hget

theorem mkJobImageRows_content_total (uid now : Nat) (m : IdMap) (base : Nat) (l : List JobImageRow)
    (htotal : ∀ y ∈ l, ∃ v, (if y.jobId = 0 then none else mapGet m y.jobId) = some v ∧ v ≠ 0) :
    (mkJobImageRows uid now m base (l.map jobImageToDoc)).map jobImageContent = l.map jobImageContent := by
  induction l generalizing base with
  | nil => simp [mkJobImageRows]
  | cons r l ih =>
    obtain ⟨v, hv, hvz⟩ := htotal r (List.mem_cons_self r l)
    have htail : ∀ y ∈ l, ∃ v2, (if y.jobId = 0 then none else mapGet m y.jobId) = some v2 ∧ v2 ≠ 0 :=
      fun y hy => htotal y (List.mem_cons_of_mem r hy)
    simp only [List.map_cons, mkJobImageRows, jobImageToDoc]
    rw [(by simpa [jobImageToDoc] using hv : (if r.jobId = 0 then none else mapGet m r.jobId) = some v)]
    simp only [if_neg hvz, List.map_cons]
    rw [ih (base + 1) htail]
    simp [jobImageContent]


theorem mkWorkerDocumentRows_skip (uid now : Nat) (m : IdMap) (base : Nat)
    (l1 l2 : List DocWorkerDocument) (bad : DocWorkerDocument)
    (h : (if bad.workerId = 0 then none else mapGet m bad.workerId) = none ∨
         (if bad.workerId = 0 then none else mapGet m bad.workerId) = some 0) :
    mkWorkerDocumentRows uid now m base (l1 ++ bad :: l2) = mkWorkerDocumentRows uid now m base (l1 ++ l2) := by
  induction l1 generalizing base with
  | nil =>
    rcases h with h | h
    · simp only [List.nil_append, mkWorkerDocumentRows, h]
    · simp only [List.nil_append, mkWorkerDocumentRows, h]
      simp
  | cons y ys ih =>
    simp only [List.cons_append, mkWorkerDocumentRows]
    cases hv : (if y.workerId = 0 then none else mapGet m y.workerId) with
    | none => exact ih base
    | some v =>
      by_cases hz : v = 0
      · simp only [hz, if_pos rfl]
        exact ih base
      · simp only [if_neg hz]
        exact congrArg _ (ih (base + 1))

theorem mkWorkerDocumentRows_get_total (uid now : Nat) (m : IdMap) (base : Nat)
    (l : List DocWorkerDocument) (k : Nat) (x : DocWorkerDocument)
    (htotal : ∀ y ∈ l, ∃ v, (if y.workerId = 0 then none else mapGet m y.workerId) = some v ∧ v ≠ 0)
    (h : l[k]? = some x) :
    ∃ v, (if x.workerId = 0 then none else mapGet m x.workerId) = some v ∧ v ≠ 0 ∧
      (mkWorkerDocumentRows uid now m base l)[k]? = some { id := base + k, userId := uid, workerId := v, url := x.url, name := x.name, createdAt := now } := by
  induction l generalizing base k with
  | nil => simp at h
  | cons y ys ih =>
    obtain ⟨v, hv, hvz⟩ := htotal y (List.mem_cons_self y ys)
    match k with
    | 0 =>
      simp only [List.getElem?_cons_zero, Option.some.injEq] at h
      subst h
      refine ⟨v, hv, hvz, ?_⟩
      rw [mkWorkerDocumentRows, hv]
      simp [hvz]
    | Nat.succ j =>
      simp only [List.getElem?_cons_succ] at h
      have htail : ∀ y2 ∈ ys, ∃ v2, (if y2.workerId = 0 then none else mapGet m y2.workerId) = some v2 ∧ v2 ≠ 0 :=
        fun y2 hy2 => htotal y2 (List.mem_cons_of_mem y hy2)
      obtain ⟨v2, hv2, hv2z, hget⟩ := ih (base + 1) j htail h
      refine ⟨v2, hv2, hv2z, ?_⟩
      rw [(by omega : base + (j + 1) = base + 1 + j)]
      rw [mkWorkerDocumentRows, hv]
      simp only [if_neg hvz, List.getElem?_cons_succ]
      exact hget

theorem mkWorkerDocumentRows_content_total (uid now : Nat) (m : IdMap) (base : Nat) (l : List WorkerDocumentRow)
    (htotal : ∀ y ∈ l, ∃ v, (if y.workerId = 0 then none else mapGet m y.workerId) = some v ∧ v ≠ 0) :
    (mkWorkerDocumentRows uid now m base (l.map workerDocumentToDoc)).map workerDocumentContent = l.map workerDocumentContent := by
  induction l generalizing base with
  | nil => simp [mkWorkerDocumentRows]
  | cons r l ih =>
    obtain ⟨v, hv, hvz⟩ := htotal r (List.mem_cons_self r l)
    have htail : ∀ y ∈ l, ∃ v2, (if y.workerId = 0 then none else mapGet m y.workerId) = some v2 ∧ v2 ≠ 0 :=
      fun y hy => htotal y (List.mem_cons_of_mem r hy)
    simp only [List.map_cons, mkWorkerDocumentRows, workerDocumentToDoc]
    rw [(by simpa [workerDocumentToDoc] using hv : (if r.workerId = 0 then none else mapGet m r.workerId) = some v)]
    simp only [if_neg hvz, List.map_cons]
    rw [ih (base + 1) htail]
    simp [workerDocumentContent]


theorem mkCustomerImageRows_skip (uid now : Nat) (m : IdMap) (base : Nat)
    (l1 l2 : List DocCustomerImage) (bad : DocCustomerImage)
    (h : (if bad.customerId = 0 then none else mapGet m bad.customerId) = none ∨
         (if bad.customerId = 0 then none else mapGet m bad.customerId) = some 0) :
    mkCustomerImageRows uid now m base (l1 ++ bad :: l2) = mkCustomerImageRows uid now m base (l1 ++ l2) := by
  induction l1 generalizing base with
  | nil =>
    rcases h with h | h
    · simp only [List.nil_append, mkCustomerImageRows, h]
    · simp only [List.nil_append, mkCustomerImageRows, h]
      simp
  | cons y ys ih =>
    simp only [List.cons_append, mkCustomerImageRows]
    cases hv : (if y.customerId = 0 then none else mapGet m y.customerId) with
    | none => exact ih base
    | some v =>
      by_cases hz : v = 0
      · simp only [hz, if_pos rfl]
        exact ih base
      · simp only [if_neg hz]
        exact congrArg _ (ih (base + 1))

theorem mkCustomerImageRows_get_total (uid now : Nat) (m : IdMap) (base : Nat)
    (l : List DocCustomerImage) (k : Nat) (x : DocCustomerImage)
    (htotal : ∀ y ∈ l, ∃ v, (if y.customerId = 0 then none else mapGet m y.customerId) = some v ∧ v ≠ 0)
    (h : l[k]? = some x) :
    ∃ v, (if x.customerId = 0 then none else mapGet m x.customerId) = some v ∧ v ≠ 0 ∧
      (mkCustomerImageRows uid now m base l)[k]? = some { id := base + k, userId := uid, customerId := v, url := x.url, description := x.description, createdAt := now } := by
  induction l generalizing base k with
  | nil => simp at h
  | cons y ys ih =>
    obtain ⟨v, hv, hvz⟩ := htotal y (List.mem_cons_self y ys)
    match k with
    | 0 =>
      simp only [List.getElem?_cons_zero, Option.some.injEq] at h
      subst h
      refine ⟨v, hv, hvz, ?_⟩
      rw [mkCustomerImageRows, hv]
      simp [hvz]
    | Nat.succ j =>
      simp only [List.getElem?_cons_succ] at h
      have htail : ∀ y2 ∈ ys, ∃ v2, (if y2.customerId = 0 then none else mapGet m y2.customerId) = some v2 ∧ v2 ≠ 0 :=
        fun y2 hy2 => htotal y2 (List.mem_cons_of_mem y hy2)
      obtain ⟨v2, hv2, hv2z, hget⟩ := ih (base + 1) j htail h
      refine ⟨v2, hv2, hv2z, ?_⟩
      rw [(by omega : base + (j + 1) = base + 1 + j)]
      rw [mkCustomerImageRows, hv]
      simp only [if_neg hvz, List.getElem?_cons_succ]
      exact hget

theorem mkCustomerImageRows_content_total (uid now : Nat) (m : IdMap) (base : Nat) (l : List CustomerImageRow)
    (htotal : ∀ y ∈ l, ∃ v, (if y.customerId = 0 then none else mapGet m y.customerId) = some v ∧ v ≠ 0) :
    (mkCustomerImageRows uid now m base (l.map customerImageToDoc)).map customerImageContent = l.map customerImageContent := by
  induction l generalizing base with
  | nil => simp [mkCustomerImageRows]
  | cons r l ih =>
    obtain ⟨v, hv, hvz⟩ := htotal r (List.mem_cons_self r l)
    have htail : ∀ y ∈ l, ∃ v2, (if y.customerId = 0 then none else mapGet m y.customerId) = some v2 ∧ v2 ≠ 0 :=
      fun y hy => htotal y (List.mem_cons_of_mem r hy)
    simp only [List.map_cons, mkCustomerImageRows, customerImageToDoc]
    rw [(by simpa [customerImageToDoc] using hv : (if r.customerId = 0 then none else mapGet m r.customerId) = some v)]
    simp only [if_neg hvz, List.map_cons]
    rw [ih (base + 1) htail]
    simp [customerImageContent]

/-! Claim theorems. -/

/-- C1: for every owner id and every document, if any delete or insert
step of importData fails (modelled by the failure oracle firing at any
store operation of the transaction body), then after the call returns
with an error the observable store is exactly the pre-call store: the
owner rows of every entity table are what they were before the call,
nothing is partially inserted and nothing is deleted without being
restored, because one transaction wraps the whole operation and rolls
back. -/
theorem importData_atomic (oracle : Nat → Bool) (userId : Nat) (d : Doc) (s : DB)
    (e : String) (h : (importDataT oracle userId d s).2 = some e) :
    (importDataT oracle userId d s).1 = s := by
  unfold importDataT at h ⊢
  cases htx : txBodyT oracle userId d s with
  | ok p =>
    obtain ⟨s1, n1⟩ := p
    rw [htx] at h
    simp at h
  | error e2 =>
    rfl

/-- Witness for C1: a store operation that fails at the first insert of
the customer phase (operation index 11, after the eleven deletes) makes
the whole import return an error, and the observable store is the
pre-call store exDB1, although the delete phase had already run inside
the transaction. -/
theorem importData_atomic_witness :
    (importDataT (fun n => n == 11) 1 exDocFull exDB1).2 = some "store error" ∧
    (importDataT (fun n => n == 11) 1 exDocFull exDB1).1 = exDB1 :=
  ⟨by decide, importData_atomic (fun n => n == 11) 1 exDocFull exDB1 "store error" (by decide)⟩

/-- C6: importing a document whose entity lists are all absent or empty
(absent lists are treated as empty) deletes all rows of the owner and
leaves zero rows for that owner in every entity table, while the rows of
every other owner are untouched, in every table. -/
theorem importEmptyDoc_clears (u : Nat) (d : Doc) (s : DB)
    (hc : d.customers = none ∨ d.customers = some [])
    (hj : d.jobs = none ∨ d.jobs = some [])
    (he : d.expenses = none ∨ d.expenses = some [])
    (hi : d.inventory = none ∨ d.inventory = some [])
    (hn : d.notes = none ∨ d.notes = some [])
    (ht : d.travel = none ∨ d.travel = some [])
    (hw : d.workers = none ∨ d.workers = some [])
    (ha : d.attendance = none ∨ d.attendance = some [])
    (hji : d.jobImages = none ∨ d.jobImages = some [])
    (hwd : d.workerDocuments = none ∨ d.workerDocuments = some [])
    (hci : d.customerImages = none ∨ d.customerImages = some []) :
    ((importData u d s).customers.filter (fun r => r.userId == u) = [] ∧
     (importData u d s).customers.filter (fun r => !(r.userId == u)) =
       s.customers.filter (fun r => !(r.userId == u))) ∧
    ((importData u d s).jobs.filter (fun r => r.userId == u) = [] ∧
     (importData u d s).jobs.filter (fun r => !(r.userId == u)) =
       s.jobs.filter (fun r => !(r.userId == u))) ∧
    ((importData u d s).expenses.filter (fun r => r.userId == u) = [] ∧
     (importData u d s).expenses.filter (fun r => !(r.userId == u)) =
       s.expenses.filter (fun r => !(r.userId == u))) ∧
    ((importData u d s).inventory.filter (fun r => r.userId == u) = [] ∧
     (importData u d s).inventory.filter (fun r => !(r.userId == u)) =
       s.inventory.filter (fun r => !(r.userId == u))) ∧
    ((importData u d s).notes.filter (fun r => r.userId == u) = [] ∧
     (importData u d s).notes.filter (fun r => !(r.userId == u)) =
       s.notes.filter (fun r => !(r.userId == u))) ∧
    ((importData u d s).travel.filter (fun r => r.userId == u) = [] ∧
     (importData u d s).travel.filter (fun r => !(r.userId == u)) =
       s.travel.filter (fun r => !(r.userId == u))) ∧
    ((importData u d s).workers.filter (fun r => r.userId == u) = [] ∧
     (importData u d s).workers.filter (fun r => !(r.userId == u)) =
       s.workers.filter (fun r => !(r.userId == u))) ∧
    ((importData u d s).attendance.filter (fun r => r.userId == u) = [] ∧
     (importData u d s).attendance.filter (fun r => !(r.userId == u)) =
       s.attendance.filter (fun r => !(r.userId == u))) ∧
    ((importData u d s).jobImages.filter (fun r => r.userId == u) = [] ∧
     (importData u d s).jobImages.filter (fun r => !(r.userId == u)) =
       s.jobImages.filter (fun r => !(r.userId == u))) ∧
    ((importData u d s).workerDocuments.filter (fun r => r.userId == u) = [] ∧
     (importData u d s).workerDocuments.filter (fun r => !(r.userId == u)) =
       s.workerDocuments.filter (fun r => !(r.userId == u))) ∧
    ((importData u d s).customerImages.filter (fun r => r.userId == u) = [] ∧
     (importData u d s).customerImages.filter (fun r => !(r.userId == u)) =
       s.customerImages.filter (fun r => !(r.userId == u))) := by
  have gc : d.customers.getD [] = [] := by rcases hc with h | h <;> simp [h]
  have gj : d.jobs.getD [] = [] := by rcases hj with h | h <;> simp [h]
  have ge : d.expenses.getD [] = [] := by rcases he with h | h <;> simp [h]
  have gi : d.inventory.getD [] = [] := by rcases hi with h | h <;> simp [h]
  have gn : d.notes.getD [] = [] := by rcases hn with h | h <;> simp [h]
  have gt : d.travel.getD [] = [] := by rcases ht with h | h <;> simp [h]
  have gw : d.workers.getD [] = [] := by rcases hw with h | h <;> simp [h]
  have ga : d.attendance.getD [] = [] := by rcases ha with h | h <;> simp [h]
  have gji : d.jobImages.getD [] = [] := by rcases hji with h | h <;> simp [h]
  have gwd : d.workerDocuments.getD [] = [] := by rcases hwd with h | h <;> simp [h]
  have gci : d.customerImages.getD [] = [] := by rcases hci with h | h <;> simp [h]
  refine ⟨⟨?_, importData_nonowner_customers u d s⟩,
          ⟨?_, importData_nonowner_jobs u d s⟩,
          ⟨?_, importData_nonowner_expenses u d s⟩,
          ⟨?_, importData_nonowner_inventory u d s⟩,
          ⟨?_, importData_nonowner_notes u d s⟩,
          ⟨?_, importData_nonowner_travel u d s⟩,
          ⟨?_, importData_nonowner_workers u d s⟩,
          ⟨?_, importData_nonowner_attendance u d s⟩,
          ⟨?_, importData_nonowner_jobImages u d s⟩,
          ⟨?_, importData_nonowner_workerDocuments u d s⟩,
          ⟨?_, importData_nonowner_customerImages u d s⟩⟩
  · rw [importData_owner_customers, gc]
    rfl
  · rw [importData_owner_jobs, gj]
    rfl
  · rw [importData_owner_expenses, ge]
    rfl
  · rw [importData_owner_inventory, gi]
    rfl
  · rw [importData_owner_notes, gn]
    rfl
  · rw [importData_owner_travel, gt]
    rfl
  · rw [importData_owner_workers, gw]
    rfl
  · rw [importData_owner_attendance, ga]
    rfl
  · rw [importData_owner_jobImages, gji]
    rfl
  · rw [importData_owner_workerDocuments, gwd]
    rfl
  · rw [importData_owner_customerImages, gci]
    rfl

/-- Witness for C6: importing the empty document for owner 1 into a
store holding one row of owner 1 in every entity table leaves zero rows
of owner 1 in the customers and notes tables; importing it into a store
where owner 2 holds rows with colliding ids leaves the owner 2 rows
untouched. -/
theorem importEmptyDoc_clears_witness :
    (importData 1 emptyDoc exDBAll).customers.filter (fun r => r.userId == 1) = [] ∧
    (importData 1 emptyDoc exDBAll).notes.filter (fun r => r.userId == 1) = [] ∧
    (importData 1 emptyDoc exDB2).jobs.filter (fun r => !(r.userId == 1)) =
      exDB2.jobs.filter (fun r => !(r.userId == 1)) := by
  have h1 := importEmptyDoc_clears 1 emptyDoc exDBAll
    (Or.inl rfl) (Or.inl rfl) (Or.inl rfl) (Or.inl rfl) (Or.inl rfl) (Or.inl rfl)
    (Or.inl rfl) (Or.inl rfl) (Or.inl rfl) (Or.inl rfl) (Or.inl rfl)
  have h2 := importEmptyDoc_clears 1 emptyDoc exDB2
    (Or.inl rfl) (Or.inl rfl) (Or.inl rfl) (Or.inl rfl) (Or.inl rfl) (Or.inl rfl)
    (Or.inl rfl) (Or.inl rfl) (Or.inl rfl) (Or.inl rfl) (Or.inl rfl)
  exact ⟨h1.1.1, h1.2.2.2.2.1.1, h2.2.1.2⟩

/-- C10: after every import, every job row stored for the owner has a
null jobCode (the job_id text column), regardless of the jobCode values
carried in the document: importData strips the jobCode on insert and
never derives a new one. -/
theorem importData_jobCode_null (u : Nat) (d : Doc) (s : DB) :
    ∀ j ∈ (importData u d s).jobs, j.userId = u → j.jobId = none := by
  intro j hj hu
  rw [importData_spec] at hj
  simp only [importSpec] at hj
  rcases List.mem_append.mp hj with h | h
  · have hpred := (List.mem_filter.mp h).2
    simp at hpred
    exact absurd hu hpred
  · exact mkJobRows_jobId _ _ _ _ j h

/-- Witness for C10: importing a document whose first job carries the
jobCode text OLDCODE produces only jobs with a null jobCode for the
owner. -/
theorem importData_jobCode_null_witness :
    ((importData 1 exDocFull emptyDB).jobs.filter (fun j => j.userId == 1)).all
      (fun j => j.jobId == none) = true := by
  have h := importData_jobCode_null 1 exDocFull emptyDB
  rw [List.all_eq_true]
  intro j hj
  have hmem := (List.mem_filter.mp hj).1
  have huid : j.userId = 1 := by
    have := (List.mem_filter.mp hj).2
    simpa using this
  simp [h j hmem huid]

/-- C9 counterexample: deleteCustomer invoked for owner 1 with id 5,
which does not exist among the owner rows of exDB1, returns normally
with the store unchanged; the embedded operation returns only the store,
mirroring the source, which issues the owner-scoped delete and returns
void with no existence check, so no not-found condition is ever
reported for deletes, contrary to the claim. -/
theorem deleteCustomer_silent_noop : deleteCustomer 5 1 exDB1 = exDB1 := by decide

/-- C9 amended: an update targeting a row that does not exist for the
given owner reports Customer not found to the caller and performs no
state change and no retry; a delete targeting such a row silently
succeeds, also changing nothing, and reports no not-found condition. -/
theorem updateDelete_notFound (id u : Nat) (upd : CustomerUpdates) (s : DB)
    (h : s.customers.find? (fun r => r.id == id && r.userId == u) = none) :
    updateCustomer id u upd s = .error "Customer not found" ∧
    deleteCustomer id u s = s := by
  constructor
  · unfold updateCustomer
    rw [h]
  · unfold deleteCustomer
    have hkeep : s.customers.filter (fun r => !(r.id == id && r.userId == u)) = s.customers := by
      apply List.filter_eq_self.mpr
      intro a ha
      have hna := List.find?_eq_none.mp h a ha
      cases hb : (a.id == id && a.userId == u) with
      | false => simp [hb]
      | true => exact absurd hb hna
    rw [hkeep]

/-- Witness for C9: in exDB1 no customer of owner 1 has id 5, the update
reports Customer not found and the delete silently leaves the store
unchanged. -/
theorem updateDelete_notFound_witness :
    updateCustomer 5 1 {} exDB1 = .error "Customer not found" ∧
    deleteCustomer 5 1 exDB1 = exDB1 :=
  updateDelete_notFound 5 1 {} exDB1 (by decide)

/-- C8 counterexample: updateJob forwards its payload to the store
unchanged, and the payload may contain the job_id (jobCode) column, so
an update that carries a jobId field overwrites the jobCode derived at
creation: in exDBJob the stored jobCode 1I01012025 becomes HACK. -/
theorem updateJob_changes_jobCode :
    (updateJob 1 1 { jobId := some (some "HACK") } exDBJob).toOption.map
      (fun p => p.2.jobs.map (fun j => j.jobId)) = some [some "HACK"] ∧
    exDBJob.jobs.map (fun j => j.jobId) = [some "1I01012025"] := by
  constructor
  · rfl
  · rfl

/-- C8 amended: the jobCode is derived exactly once at creation from the
ordinal count of the owner jobs, the first letter of the category and
the creation date (formula N ++ C ++ DDMMYYYY), the created row is
stored with it, and updateJob leaves every stored jobCode unchanged
whenever its payload does not itself contain a jobId field; a payload
containing a jobId field overwrites it (see the counterexample). -/
theorem jobCode_derivation (ij : InsertJob) (u : Nat) (today : DateParts) (s : DB)
    (idv uv : Nat) (upd : UpdateJob) (s2 : DB)
    (hfresh : ∀ r ∈ s.jobs, r.id ≠ s.nextJobId) (hupd : upd.jobId = none) :
    ((createJob ij u today s).1.jobId =
      some (toString ((s.jobs.filter (fun r => r.userId == u)).length + 1) ++
        categoryInitial ij.category ++
        (pad2 today.day ++ pad2 today.month ++ toString today.year))) ∧
    ((createJob ij u today s).2.jobs = s.jobs ++ [(createJob ij u today s).1]) ∧
    (∀ j2 t2, updateJob idv uv upd s2 = .ok (j2, t2) →
      t2.jobs.map (fun j => j.jobId) = s2.jobs.map (fun j => j.jobId)) := by
  refine ⟨rfl, ?_, ?_⟩
  · simp only [createJob, List.map_append]
    have h1 : ∀ (l : List JobRow), (∀ r ∈ l, r.id ≠ s.nextJobId) →
        l.map (fun j => if j.id == s.nextJobId then { j with jobId := some (toString ((s.jobs.filter (fun r => r.userId == u)).length + 1) ++ categoryInitial ij.category ++ (pad2 today.day ++ pad2 today.month ++ toString today.year)) } else j) = l := by
      intro l hl
      induction l with
      | nil => rfl
      | cons a l ih =>
        have ha := hl a (List.mem_cons_self a l)
        simp only [List.map_cons]
        rw [if_neg (by simpa using ha)]
        rw [ih (fun r hr => hl r (List.mem_cons_of_mem a hr))]
    rw [h1 s.jobs hfresh]
    simp
  · intro j2 t2 hok
    simp only [updateJob] at hok
    cases hfind : s2.jobs.find? (fun r => r.id == idv && r.userId == uv) with
    | none =>
      rw [hfind] at hok
      exact absurd hok (by simp)
    | some r =>
      rw [hfind] at hok
      simp only [Except.ok.injEq, Prod.mk.injEq] at hok
      obtain ⟨hj2, ht2⟩ := hok
      subst ht2
      simp only [List.map_map]
      apply List.map_congr_left
      intro a ha
      by_cases hc : a.id = idv ∧ a.userId = uv
      · simp [hc, applyJobUpdates, hupd]
      · simp [hc, applyJobUpdates]

/-- Witness for C8: creating a job for owner 1 in the empty store on
01 01 2025 with category interior yields jobCode 1I01012025, and an
update whose payload has no jobId field leaves the stored jobCode of
exDBJob unchanged. -/
theorem jobCode_derivation_witness :
    (createJob { description := "d", location := "l", quotedAmount := "100",
                 category := some "interior" } 1 ⟨1, 1, 2025⟩ emptyDB).1.jobId =
      some "1I01012025" ∧
    (updateJob 1 1 {} exDBJob).toOption.map
      (fun p => p.2.jobs.map (fun j => j.jobId)) = some [some "1I01012025"] := by
  have h := jobCode_derivation
    { description := "d", location := "l", quotedAmount := "100",
      category := some "interior" } 1 ⟨1, 1, 2025⟩ emptyDB 1 1 {} exDBJob
    (by simp [emptyDB]) rfl
  refine ⟨?_, ?_⟩
  · rw [h.1]
    decide
  · have hok : (updateJob 1 1 {} exDBJob).toOption.isSome = true := by decide
    cases hres : updateJob 1 1 {} exDBJob with
    | error e =>
      rw [hres] at hok
      simp [Except.toOption] at hok
    | ok p =>
      obtain ⟨j2, t2⟩ := p
      have hmap := h.2.2 j2 t2 hres
      show some (List.map (fun j => j.jobId) t2.jobs) = some [some "1I01012025"]
      rw [hmap]
      decide

/-- C5: for every note row of the document, the inserted note of the
owner translates its referenceId through the id-map selected by the
section tag: sections jobs and workers_attendance use the job id-map,
customers the customer id-map, workers the worker id-map, and every
other section value (as well as an absent or zero referenceId) yields a
null referenceId; all other fields are carried, createdAt is
regenerated from the clock. -/
theorem noteRef_dispatch (u : Nat) (d : Doc) (s : DB) (k : Nat) (dn : DocNote)
    (h : (d.notes.getD [])[k]? = some dn) :
    ((importData u d s).notes.filter (fun r => r.userId == u))[k]? =
      some { id := s.nextNoteId + k, userId := u, type := dn.type,
             sectionTag := dn.sectionTag,
             referenceId :=
               match dn.referenceId with
               | some r =>
                 if r = 0 then none
                 else if dn.sectionTag = "jobs" || dn.sectionTag = "workers_attendance" then
                   mapGet (importMaps d s).2.1 r
                 else if dn.sectionTag = "customers" then mapGet (importMaps d s).1 r
                 else if dn.sectionTag = "workers" then mapGet (importMaps d s).2.2 r
                 else none
               | none => none,
             attrName := dn.attrName, content := dn.content, createdAt := s.now } := by
  rw [importData_owner_notes]
  rw [mkNoteRows_get u s.now (importMaps d s).1 (importMaps d s).2.1 (importMaps d s).2.2
    s.nextNoteId (d.notes.getD []) k dn h]
  simp only [remapNoteRef]

/-- Witness for C5: the fifth note of exDocFull has the unknown section
inventory, so its imported copy of owner 1 has a null referenceId while
its other fields are carried and its createdAt is the clock of the
store. -/
theorem noteRef_dispatch_witness :
    ((importData 1 exDocFull emptyDB).notes.filter (fun r => r.userId == 1))[4]? =
      some { id := 5, userId := 1, type := "log", sectionTag := "inventory",
             referenceId := none, attrName := some "reassignment", content := "n5",
             createdAt := 0 } := by
  have h := noteRef_dispatch 1 exDocFull emptyDB 4
    { id := some 15, type := "log", sectionTag := "inventory", referenceId := some 8,
      attrName := some "reassignment", content := "n5", createdAt := 7 } (by decide)
  rw [h]
  decide

/-! Lookup of the three id-maps a given import builds. -/

theorem importMaps_cget (d : Doc) (s : DB) (i c : Nat) (dc : DocCustomer)
    (hnod : (truthyIds ((d.customers.getD []).map (fun x => x.id))).Nodup)
    (hi : (d.customers.getD [])[i]? = some dc) (hid : dc.id = some c) (hc : c ≠ 0) :
    mapGet (importMaps d s).1 c = some (s.nextCustomerId + i) := by
  have hm : ((d.customers.getD []).map (fun x => x.id))[i]? = some (some c) := by
    rw [List.getElem?_map, hi]
    simp [hid]
  exact buildIdMap_get _ _ _ i c hnod hm hc

theorem importMaps_jget (d : Doc) (s : DB) (i c : Nat) (dj : DocJob)
    (hnod : (truthyIds ((d.jobs.getD []).map (fun x => x.id))).Nodup)
    (hi : (d.jobs.getD [])[i]? = some dj) (hid : dj.id = some c) (hc : c ≠ 0) :
    mapGet (importMaps d s).2.1 c = some (s.nextJobId + i) := by
  have hm : ((d.jobs.getD []).map (fun x => x.id))[i]? = some (some c) := by
    rw [List.getElem?_map, hi]
    simp [hid]
  exact buildIdMap_get _ _ _ i c hnod hm hc

theorem importMaps_wget (d : Doc) (s : DB) (i c : Nat) (dw : DocWorker)
    (hnod : (truthyIds ((d.workers.getD []).map (fun x => x.id))).Nodup)
    (hi : (d.workers.getD [])[i]? = some dw) (hid : dw.id = some c) (hc : c ≠ 0) :
    mapGet (importMaps d s).2.2 c = some (s.nextWorkerId + i) := by
  have hm : ((d.workers.getD []).map (fun x => x.id))[i]? = some (some c) := by
    rw [List.getElem?_map, hi]
    simp [hid]
  exact buildIdMap_get _ _ _ i c hnod hm hc


/-- C2: after a successful import, every inserted row whose document
foreign key referred to the old id of a parent row also present in the
document carries the fresh store-assigned id of that parent inserted
copy: the job customerId through the customer id-map, the worker jobId
through the job id-map, the expense, inventory and travel jobId (and the
inventory assignedToJobId independently) through the job id-map, and the
attendance workerId and jobId through the worker and job id-maps
independently.  The i-th inserted parent receives the i-th fresh serial
id, and the child foreign key equals exactly that id.  The document old
ids of each parent list are assumed pairwise distinct where truthy, as
they are in every exported document. -/
theorem fkRemap (u : Nat) (d : Doc) (s : DB)
    (hnC : (truthyIds ((d.customers.getD []).map (fun x => x.id))).Nodup)
    (hnJ : (truthyIds ((d.jobs.getD []).map (fun x => x.id))).Nodup)
    (hnW : (truthyIds ((d.workers.getD []).map (fun x => x.id))).Nodup) :
    (∀ (k : Nat) (x : DocJob) (i c : Nat) (p : DocCustomer),
      (d.jobs.getD [])[k]? = some x → x.customerId = some c → c ≠ 0 →
      (d.customers.getD [])[i]? = some p → p.id = some c →
      ((importData u d s).jobs.filter (fun r => r.userId == u))[k]?.map (fun r => r.customerId) =
        some (some (s.nextCustomerId + i)) ∧
      ((importData u d s).customers.filter (fun r => r.userId == u))[i]?.map (fun r => r.id) =
        some (s.nextCustomerId + i)) ∧
    (∀ (k : Nat) (x : DocWorker) (i c : Nat) (p : DocJob),
      (d.workers.getD [])[k]? = some x → x.jobId = some c → c ≠ 0 →
      (d.jobs.getD [])[i]? = some p → p.id = some c →
      ((importData u d s).workers.filter (fun r => r.userId == u))[k]?.map (fun r => r.jobId) =
        some (some (s.nextJobId + i)) ∧
      ((importData u d s).jobs.filter (fun r => r.userId == u))[i]?.map (fun r => r.id) =
        some (s.nextJobId + i)) ∧
    (∀ (k : Nat) (x : DocExpense) (i c : Nat) (p : DocJob),
      (d.expenses.getD [])[k]? = some x → x.jobId = some c → c ≠ 0 →
      (d.jobs.getD [])[i]? = some p → p.id = some c →
      ((importData u d s).expenses.filter (fun r => r.userId == u))[k]?.map (fun r => r.jobId) =
        some (some (s.nextJobId + i)) ∧
      ((importData u d s).jobs.filter (fun r => r.userId == u))[i]?.map (fun r => r.id) =
        some (s.nextJobId + i)) ∧
    (∀ (k : Nat) (x : DocInventory) (i c : Nat) (p : DocJob),
      (d.inventory.getD [])[k]? = some x → x.jobId = some c → c ≠ 0 →
      (d.jobs.getD [])[i]? = some p → p.id = some c →
      ((importData u d s).inventory.filter (fun r => r.userId == u))[k]?.map (fun r => r.jobId) =
        some (some (s.nextJobId + i)) ∧
      ((importData u d s).jobs.filter (fun r => r.userId == u))[i]?.map (fun r => r.id) =
        some (s.nextJobId + i)) ∧
    (∀ (k : Nat) (x : DocInventory) (i c : Nat) (p : DocJob),
      (d.inventory.getD [])[k]? = some x → x.assignedToJobId = some c → c ≠ 0 →
      (d.jobs.getD [])[i]? = some p → p.id = some c →
      ((importData u d s).inventory.filter (fun r => r.userId == u))[k]?.map (fun r => r.assignedToJobId) =
        some (some (s.nextJobId + i)) ∧
      ((importData u d s).jobs.filter (fun r => r.userId == u))[i]?.map (fun r => r.id) =
        some (s.nextJobId + i)) ∧
    (∀ (k : Nat) (x : DocTravel) (i c : Nat) (p : DocJob),
      (d.travel.getD [])[k]? = some x → x.jobId = some c → c ≠ 0 →
      (d.jobs.getD [])[i]? = some p → p.id = some c →
      ((importData u d s).travel.filter (fun r => r.userId == u))[k]?.map (fun r => r.jobId) =
        some (some (s.nextJobId + i)) ∧
      ((importData u d s).jobs.filter (fun r => r.userId == u))[i]?.map (fun r => r.id) =
        some (s.nextJobId + i)) ∧
    (∀ (k : Nat) (x : DocAttendance) (i c : Nat) (p : DocWorker),
      (d.attendance.getD [])[k]? = some x → x.workerId = some c → c ≠ 0 →
      (d.workers.getD [])[i]? = some p → p.id = some c →
      ((importData u d s).attendance.filter (fun r => r.userId == u))[k]?.map (fun r => r.workerId) =
        some (some (s.nextWorkerId + i)) ∧
      ((importData u d s).workers.filter (fun r => r.userId == u))[i]?.map (fun r => r.id) =
        some (s.nextWorkerId + i)) ∧
    (∀ (k : Nat) (x : DocAttendance) (i c : Nat) (p : DocJob),
      (d.attendance.getD [])[k]? = some x → x.jobId = some c → c ≠ 0 →
      (d.jobs.getD [])[i]? = some p → p.id = some c →
      ((importData u d s).attendance.filter (fun r => r.userId == u))[k]?.map (fun r => r.jobId) =
        some (some (s.nextJobId + i)) ∧
      ((importData u d s).jobs.filter (fun r => r.userId == u))[i]?.map (fun r => r.id) =
        some (s.nextJobId + i)) := by
  refine ⟨?_, ?_, ?_, ?_, ?_, ?_, ?_, ?_⟩
  · intro k x i c p hk hfk hc hi hpid
    constructor
    · rw [importData_owner_jobs]
      rw [mkJobRows_get u (importMaps d s).1 s.nextJobId (d.jobs.getD []) k x hk]
      simp [hfk, remapFk, hc, importMaps_cget d s i c p hnC hi hpid hc]
    · rw [importData_owner_customers]
      rw [mkCustomerRows_get u s.nextCustomerId (d.customers.getD []) i p hi]
      simp
  · intro k x i c p hk hfk hc hi hpid
    constructor
    · rw [importData_owner_workers]
      rw [mkWorkerRows_get u (importMaps d s).2.1 s.nextWorkerId (d.workers.getD []) k x hk]
      simp [hfk, remapFk, hc, importMaps_jget d s i c p hnJ hi hpid hc]
    · rw [importData_owner_jobs]
      rw [mkJobRows_get u (importMaps d s).1 s.nextJobId (d.jobs.getD []) i p hi]
      simp
  · intro k x i c p hk hfk hc hi hpid
    constructor
    · rw [importData_owner_expenses]
      rw [mkExpenseRows_get u (importMaps d s).2.1 s.nextExpenseId (d.expenses.getD []) k x hk]
      simp [hfk, remapFk, hc, importMaps_jget d s i c p hnJ hi hpid hc]
    · rw [importData_owner_jobs]
      rw [mkJobRows_get u (importMaps d s).1 s.nextJobId (d.jobs.getD []) i p hi]
      simp
  · intro k x i c p hk hfk hc hi hpid
    constructor
    · rw [importData_owner_inventory]
      rw [mkInventoryRows_get u (importMaps d s).2.1 s.nextInventoryId (d.inventory.getD []) k x hk]
      simp [hfk, remapFk, hc, importMaps_jget d s i c p hnJ hi hpid hc]
    · rw [importData_owner_jobs]
      rw [mkJobRows_get u (importMaps d s).1 s.nextJobId (d.jobs.getD []) i p hi]
      simp
  · intro k x i c p hk hfk hc hi hpid
    constructor
    · rw [importData_owner_inventory]
      rw [mkInventoryRows_get u (importMaps d s).2.1 s.nextInventoryId (d.inventory.getD []) k x hk]
      simp [hfk, remapFk, hc, importMaps_jget d s i c p hnJ hi hpid hc]
    · rw [importData_owner_jobs]
      rw [mkJobRows_get u (importMaps d s).1 s.nextJobId (d.jobs.getD []) i p hi]
      simp
  · intro k x i c p hk hfk hc hi hpid
    constructor
    · rw [importData_owner_travel]
      rw [mkTravelRows_get u (importMaps d s).2.1 s.nextTravelId (d.travel.getD []) k x hk]
      simp [hfk, remapFk, hc, importMaps_jget d s i c p hnJ hi hpid hc]
    · rw [importData_owner_jobs]
      rw [mkJobRows_get u (importMaps d s).1 s.nextJobId (d.jobs.getD []) i p hi]
      simp
  · intro k x i c p hk hfk hc hi hpid
    constructor
    · rw [importData_owner_attendance]
      rw [mkAttendanceRows_get u (importMaps d s).2.2 (importMaps d s).2.1 s.nextAttendanceId (d.attendance.getD []) k x hk]
      simp [hfk, remapFk, hc, importMaps_wget d s i c p hnW hi hpid hc]
    · rw [importData_owner_workers]
      rw [mkWorkerRows_get u (importMaps d s).2.1 s.nextWorkerId (d.workers.getD []) i p hi]
      simp
  · intro k x i c p hk hfk hc hi hpid
    constructor
    · rw [importData_owner_attendance]
      rw [mkAttendanceRows_get u (importMaps d s).2.2 (importMaps d s).2.1 s.nextAttendanceId (d.attendance.getD []) k x hk]
      simp [hfk, remapFk, hc, importMaps_jget d s i c p hnJ hi hpid hc]
    · rw [importData_owner_jobs]
      rw [mkJobRows_get u (importMaps d s).1 s.nextJobId (d.jobs.getD []) i p hi]
      simp

/-- Witness for C2: importing exDocFull for owner 1 into the empty
store, the first job points at the first inserted customer (new id 1),
the worker, expense, inventory and attendance rows point at the first
inserted job (new id 1), and the inventory assignedToJobId and the
travel log point at the second inserted job (new id 2). -/
theorem fkRemap_witness :
    ((importData 1 exDocFull emptyDB).jobs.filter (fun r => r.userId == 1))[0]?.map
      (fun r => r.customerId) = some (some 1) ∧
    ((importData 1 exDocFull emptyDB).customers.filter (fun r => r.userId == 1))[0]?.map
      (fun r => r.id) = some 1 ∧
    ((importData 1 exDocFull emptyDB).workers.filter (fun r => r.userId == 1))[0]?.map
      (fun r => r.jobId) = some (some 1) ∧
    ((importData 1 exDocFull emptyDB).expenses.filter (fun r => r.userId == 1))[0]?.map
      (fun r => r.jobId) = some (some 1) ∧
    ((importData 1 exDocFull emptyDB).inventory.filter (fun r => r.userId == 1))[0]?.map
      (fun r => r.jobId) = some (some 1) ∧
    ((importData 1 exDocFull emptyDB).inventory.filter (fun r => r.userId == 1))[0]?.map
      (fun r => r.assignedToJobId) = some (some 2) ∧
    ((importData 1 exDocFull emptyDB).travel.filter (fun r => r.userId == 1))[0]?.map
      (fun r => r.jobId) = some (some 2) ∧
    ((importData 1 exDocFull emptyDB).attendance.filter (fun r => r.userId == 1))[0]?.map
      (fun r => r.workerId) = some (some 1) ∧
    ((importData 1 exDocFull emptyDB).attendance.filter (fun r => r.userId == 1))[0]?.map
      (fun r => r.jobId) = some (some 1) := by
  have h := fkRemap 1 exDocFull emptyDB (by decide) (by decide) (by decide)
  exact ⟨(h.1 0 _ 0 2 _ rfl rfl (by decide) rfl rfl).1,
         (h.1 0 _ 0 2 _ rfl rfl (by decide) rfl rfl).2,
         (h.2.1 0 _ 0 5 _ rfl rfl (by decide) rfl rfl).1,
         (h.2.2.1 0 _ 0 5 _ rfl rfl (by decide) rfl rfl).1,
         (h.2.2.2.1 0 _ 0 5 _ rfl rfl (by decide) rfl rfl).1,
         (h.2.2.2.2.1 0 _ 1 6 _ rfl rfl (by decide) rfl rfl).1,
         (h.2.2.2.2.2.1 0 _ 1 6 _ rfl rfl (by decide) rfl rfl).1,
         (h.2.2.2.2.2.2.1 0 _ 0 3 _ rfl rfl (by decide) rfl rfl).1,
         (h.2.2.2.2.2.2.2 0 _ 0 5 _ rfl rfl (by decide) rfl rfl).1⟩

/-! Agreement of the oracle-instrumented transaction body with the
pure import when no failure is injected. -/

theorem deleteOwnerT_noFail (u : Nat) (s : DB) (n : Nat) :
    deleteOwnerT (fun _ => false) u s n = .ok (deleteOwner u s, n + 11) := rfl


theorem importCustomersT_noFail (u : Nat) (l : List DocCustomer) (s : DB) (m : IdMap) (n : Nat) :
    importCustomersT (fun _ => false) u l s m n =
      .ok ((importCustomers u l s m).1, (importCustomers u l s m).2, n + l.length) := by
  induction l generalizing s m n with
  | nil => simp [importCustomersT, importCustomers]
  | cons c l ih =>
    rw [importCustomersT]
    simp [importCustomers, ih, Nat.add_assoc, Nat.add_comm, Nat.add_left_comm]


theorem importJobsT_noFail (u : Nat) (cmap : IdMap) (l : List DocJob) (s : DB) (m : IdMap) (n : Nat) :
    importJobsT (fun _ => false) u cmap l s m n =
      .ok ((importJobs u cmap l s m).1, (importJobs u cmap l s m).2, n + l.length) := by
  induction l generalizing s m n with
  | nil => simp [importJobsT, importJobs]
  | cons c l ih =>
    rw [importJobsT]
    simp [importJobs, ih, Nat.add_assoc, Nat.add_comm, Nat.add_left_comm]


theorem importWorkersT_noFail (u : Nat) (jmap : IdMap) (l : List DocWorker) (s : DB) (m : IdMap) (n : Nat) :
    importWorkersT (fun _ => false) u jmap l s m n =
      .ok ((importWorkers u jmap l s m).1, (importWorkers u jmap l s m).2, n + l.length) := by
  induction l generalizing s m n with
  | nil => simp [importWorkersT, importWorkers]
  | cons c l ih =>
    rw [importWorkersT]
    simp [importWorkers, ih, Nat.add_assoc, Nat.add_comm, Nat.add_left_comm]


theorem importExpensesT_noFail (u : Nat) (jmap : IdMap) (l : List DocExpense) (s : DB) (n : Nat) :
    importExpensesT (fun _ => false) u jmap l s n = .ok (importExpenses u jmap l s, n + l.length) := by
  induction l generalizing s n with
  | nil => simp [importExpensesT, importExpenses]
  | cons c l ih =>
    rw [importExpensesT]
    simp [importExpenses, ih, Nat.add_assoc, Nat.add_comm, Nat.add_left_comm]


theorem importInventoryT_noFail (u : Nat) (jmap : IdMap) (l : List DocInventory) (s : DB) (n : Nat) :
    importInventoryT (fun _ => false) u jmap l s n = .ok (importInventory u jmap l s, n + l.length) := by
  induction l generalizing s n with
  | nil => simp [importInventoryT, importInventory]
  | cons c l ih =>
    rw [importInventoryT]
    simp [importInventory, ih, Nat.add_assoc, Nat.add_comm, Nat.add_left_comm]


theorem importTravelT_noFail (u : Nat) (jmap : IdMap) (l : List DocTravel) (s : DB) (n : Nat) :
    importTravelT (fun _ => false) u jmap l s n = .ok (importTravel u jmap l s, n + l.length) := by
  induction l generalizing s n with
  | nil => simp [importTravelT, importTravel]
  | cons c l ih =>
    rw [importTravelT]
    simp [importTravel, ih, Nat.add_assoc, Nat.add_comm, Nat.add_left_comm]


theorem importNotesT_noFail (u : Nat) (cmap jmap wmap : IdMap) (l : List DocNote) (s : DB) (n : Nat) :
    importNotesT (fun _ => false) u cmap jmap wmap l s n = .ok (importNotes u cmap jmap wmap l s, n + l.length) := by
  induction l generalizing s n with
  | nil => simp [importNotesT, importNotes]
  | cons c l ih =>
    rw [importNotesT]
    simp [importNotes, ih, Nat.add_assoc, Nat.add_comm, Nat.add_left_comm]


theorem importAttendanceT_noFail (u : Nat) (wmap jmap : IdMap) (l : List DocAttendance) (s : DB) (n : Nat) :
    importAttendanceT (fun _ => false) u wmap jmap l s n = .ok (importAttendance u wmap jmap l s, n + l.length) := by
  induction l generalizing s n with
  | nil => simp [importAttendanceT, importAttendance]
  | cons c l ih =>
    rw [importAttendanceT]
    simp [importAttendance, ih, Nat.add_assoc, Nat.add_comm, Nat.add_left_comm]


theorem importJobImagesT_noFail (u : Nat) (jmap : IdMap) (l : List DocJobImage) (s : DB) (n : Nat) :
    importJobImagesT (fun _ => false) u jmap l s n =
      .ok (importJobImages u jmap l s, n + countJobImageInserts jmap l) := by
  induction l generalizing s n with
  | nil => rfl
  | cons c l ih =>
    cases hv : (if c.jobId = 0 then none else mapGet jmap c.jobId) with
    | none =>
      have hT : importJobImagesT (fun _ => false) u jmap (c :: l) s n =
          importJobImagesT (fun _ => false) u jmap l s n := by
        rw [importJobImagesT, hv]
      have hP : importJobImages u jmap (c :: l) s = importJobImages u jmap l s := by
        rw [importJobImages, hv]
      have hC : countJobImageInserts jmap (c :: l) = countJobImageInserts jmap l := by
        rw [countJobImageInserts, hv]
      rw [hT, hP, hC, ih s n]
    | some v =>
      by_cases hz : v = 0
      · have hT : importJobImagesT (fun _ => false) u jmap (c :: l) s n =
            importJobImagesT (fun _ => false) u jmap l s n := by
          rw [importJobImagesT, hv]
          simp [hz]
        have hP : importJobImages u jmap (c :: l) s = importJobImages u jmap l s := by
          rw [importJobImages, hv]
          simp [hz]
        have hC : countJobImageInserts jmap (c :: l) = countJobImageInserts jmap l := by
          rw [countJobImageInserts, hv]
          simp [hz]
        rw [hT, hP, hC, ih s n]
      · have hT : importJobImagesT (fun _ => false) u jmap (c :: l) s n =
            importJobImagesT (fun _ => false) u jmap l (importJobImages u jmap [c] s) (n + 1) := by
          rw [importJobImagesT, hv]
          simp [hz]
        have hP : importJobImages u jmap (c :: l) s = importJobImages u jmap l (importJobImages u jmap [c] s) := by
          conv => lhs; rw [importJobImages, hv]
          simp only [if_neg hz]
          congr 1
          conv => rhs; rw [importJobImages, hv]
          simp only [if_neg hz]
          conv => rhs; rw [importJobImages]
        have hC : countJobImageInserts jmap (c :: l) = countJobImageInserts jmap l + 1 := by
          rw [countJobImageInserts, hv]
          simp [hz]
        rw [hT, ih (importJobImages u jmap [c] s) (n + 1), ← hP, hC,
          (by omega : n + 1 + countJobImageInserts jmap l = n + (countJobImageInserts jmap l + 1))]


theorem importWorkerDocumentsT_noFail (u : Nat) (wmap : IdMap) (l : List DocWorkerDocument) (s : DB) (n : Nat) :
    importWorkerDocumentsT (fun _ => false) u wmap l s n =
      .ok (importWorkerDocuments u wmap l s, n + countWorkerDocumentInserts wmap l) := by
  induction l generalizing s n with
  | nil => rfl
  | cons c l ih =>
    cases hv : (if c.workerId = 0 then none else mapGet wmap c.workerId) with
    | none =>
      have hT : importWorkerDocumentsT (fun _ => false) u wmap (c :: l) s n =
          importWorkerDocumentsT (fun _ => false) u wmap l s n := by
        rw [importWorkerDocumentsT, hv]
      have hP : importWorkerDocuments u wmap (c :: l) s = importWorkerDocuments u wmap l s := by
        rw [importWorkerDocuments, hv]
      have hC : countWorkerDocumentInserts wmap (c :: l) = countWorkerDocumentInserts wmap l := by
        rw [countWorkerDocumentInserts, hv]
      rw [hT, hP, hC, ih s n]
    | some v =>
      by_cases hz : v = 0
      · have hT : importWorkerDocumentsT (fun _ => false) u wmap (c :: l) s n =
            importWorkerDocumentsT (fun _ => false) u wmap l s n := by
          rw [importWorkerDocumentsT, hv]
          simp [hz]
        have hP : importWorkerDocuments u wmap (c :: l) s = importWorkerDocuments u wmap l s := by
          rw [importWorkerDocuments, hv]
          simp [hz]
        have hC : countWorkerDocumentInserts wmap (c :: l) = countWorkerDocumentInserts wmap l := by
          rw [countWorkerDocumentInserts, hv]
          simp [hz]
        rw [hT, hP, hC, ih s n]
      · have hT : importWorkerDocumentsT (fun _ => false) u wmap (c :: l) s n =
            importWorkerDocumentsT (fun _ => false) u wmap l (importWorkerDocuments u wmap [c] s) (n + 1) := by
          rw [importWorkerDocumentsT, hv]
          simp [hz]
        have hP : importWorkerDocuments u wmap (c :: l) s = importWorkerDocuments u wmap l (importWorkerDocuments u wmap [c] s) := by
          conv => lhs; rw [importWorkerDocuments, hv]
          simp only [if_neg hz]
          congr 1
          conv => rhs; rw [importWorkerDocuments, hv]
          simp only [if_neg hz]
          conv => rhs; rw [importWorkerDocuments]
        have hC : countWorkerDocumentInserts wmap (c :: l) = countWorkerDocumentInserts wmap l + 1 := by
          rw [countWorkerDocumentInserts, hv]
          simp [hz]
        rw [hT, ih (importWorkerDocuments u wmap [c] s) (n + 1), ← hP, hC,
          (by omega : n + 1 + countWorkerDocumentInserts wmap l = n + (countWorkerDocumentInserts wmap l + 1))]


theorem importCustomerImagesT_noFail (u : Nat) (cmap : IdMap) (l : List DocCustomerImage) (s : DB) (n : Nat) :
    importCustomerImagesT (fun _ => false) u cmap l s n =
      .ok (importCustomerImages u cmap l s, n + countCustomerImageInserts cmap l) := by
  induction l generalizing s n with
  | nil => rfl
  | cons c l ih =>
    cases hv : (if c.customerId = 0 then none else mapGet cmap c.customerId) with
    | none =>
      have hT : importCustomerImagesT (fun _ => false) u cmap (c :: l) s n =
          importCustomerImagesT (fun _ => false) u cmap l s n := by
        rw [importCustomerImagesT, hv]
      have hP : importCustomerImages u cmap (c :: l) s = importCustomerImages u cmap l s := by
        rw [importCustomerImages, hv]
      have hC : countCustomerImageInserts cmap (c :: l) = countCustomerImageInserts cmap l := by
        rw [countCustomerImageInserts, hv]
      rw [hT, hP, hC, ih s n]
    | some v =>
      by_cases hz : v = 0
      · have hT : importCustomerImagesT (fun _ => false) u cmap (c :: l) s n =
            importCustomerImagesT (fun _ => false) u cmap l s n := by
          rw [importCustomerImagesT, hv]
          simp [hz]
        have hP : importCustomerImages u cmap (c :: l) s = importCustomerImages u cmap l s := by
          rw [importCustomerImages, hv]
          simp [hz]
        have hC : countCustomerImageInserts cmap (c :: l) = countCustomerImageInserts cmap l := by
          rw [countCustomerImageInserts, hv]
          simp [hz]
        rw [hT, hP, hC, ih s n]
      · have hT : importCustomerImagesT (fun _ => false) u cmap (c :: l) s n =
            importCustomerImagesT (fun _ => false) u cmap l (importCustomerImages u cmap [c] s) (n + 1) := by
          rw [importCustomerImagesT, hv]
          simp [hz]
        have hP : importCustomerImages u cmap (c :: l) s = importCustomerImages u cmap l (importCustomerImages u cmap [c] s) := by
          conv => lhs; rw [importCustomerImages, hv]
          simp only [if_neg hz]
          congr 1
          conv => rhs; rw [importCustomerImages, hv]
          simp only [if_neg hz]
          conv => rhs; rw [importCustomerImages]
        have hC : countCustomerImageInserts cmap (c :: l) = countCustomerImageInserts cmap l + 1 := by
          rw [countCustomerImageInserts, hv]
          simp [hz]
        rw [hT, ih (importCustomerImages u cmap [c] s) (n + 1), ← hP, hC,
          (by omega : n + 1 + countCustomerImageInserts cmap l = n + (countCustomerImageInserts cmap l + 1))]

theorem exceptBind_ok {α β : Type} (a : α) (f : α → Except String β) :
    (Except.ok a >>= f : Except String β) = f a := rfl

/-- With no injected failure the transactional import commits and its
result is exactly the pure import. -/
theorem importDataT_noFail (u : Nat) (d : Doc) (s : DB) :
    importDataT (fun _ => false) u d s = (importData u d s, none) := by
  unfold importDataT txBodyT
  simp only [deleteOwnerT_noFail, importCustomersT_noFail, importJobsT_noFail,
    importWorkersT_noFail, importExpensesT_noFail, importInventoryT_noFail,
    importTravelT_noFail, importNotesT_noFail, importAttendanceT_noFail,
    importJobImagesT_noFail, importWorkerDocumentsT_noFail, importCustomerImagesT_noFail,
    exceptBind_ok]
  rfl

/-! Absent keys in the id-maps yield no translation. -/

theorem importMaps_cget_none (d : Doc) (s : DB) (c : Nat)
    (h : c ∉ truthyIds ((d.customers.getD []).map (fun x => x.id))) :
    mapGet (importMaps d s).1 c = none := by
  have := buildIdMap_not_mem ((d.customers.getD []).map (fun x => x.id)) s.nextCustomerId [] c h
  simpa [importMaps, mapGet] using this

theorem importMaps_jget_none (d : Doc) (s : DB) (c : Nat)
    (h : c ∉ truthyIds ((d.jobs.getD []).map (fun x => x.id))) :
    mapGet (importMaps d s).2.1 c = none := by
  have := buildIdMap_not_mem ((d.jobs.getD []).map (fun x => x.id)) s.nextJobId [] c h
  simpa [importMaps, mapGet] using this

theorem importMaps_wget_none (d : Doc) (s : DB) (c : Nat)
    (h : c ∉ truthyIds ((d.workers.getD []).map (fun x => x.id))) :
    mapGet (importMaps d s).2.2 c = none := by
  have := buildIdMap_not_mem ((d.workers.getD []).map (fun x => x.id)) s.nextWorkerId [] c h
  simpa [importMaps, mapGet] using this


/-- C4: a document row whose foreign key has no entry in the matching
id-map is inserted with that key null when the column is optional
(customerId on jobs, jobId on workers, expenses, inventory, travel and
attendance, assignedToJobId on inventory, workerId on attendance), and
is skipped entirely when the column is required (job images, worker
documents, customer images), without disturbing any other inserted row
or serial id; in both cases the import as a whole still succeeds (the
transaction, run with no store failure, commits the pure result). -/
theorem fkNullAndSkip (u : Nat) (d : Doc) (s : DB) :
    (∀ (k : Nat) (x : DocJob) (c : Nat),
      (d.jobs.getD [])[k]? = some x → x.customerId = some c →
      c ∉ truthyIds ((d.customers.getD []).map (fun q => q.id)) →
      ((importData u d s).jobs.filter (fun r => r.userId == u))[k]?.map (fun r => r.customerId) =
        some none) ∧
    (∀ (k : Nat) (x : DocWorker) (c : Nat),
      (d.workers.getD [])[k]? = some x → x.jobId = some c →
      c ∉ truthyIds ((d.jobs.getD []).map (fun q => q.id)) →
      ((importData u d s).workers.filter (fun r => r.userId == u))[k]?.map (fun r => r.jobId) =
        some none) ∧
    (∀ (k : Nat) (x : DocExpense) (c : Nat),
      (d.expenses.getD [])[k]? = some x → x.jobId = some c →
      c ∉ truthyIds ((d.jobs.getD []).map (fun q => q.id)) →
      ((importData u d s).expenses.filter (fun r => r.userId == u))[k]?.map (fun r => r.jobId) =
        some none) ∧
    (∀ (k : Nat) (x : DocInventory) (c : Nat),
      (d.inventory.getD [])[k]? = some x → x.jobId = some c →
      c ∉ truthyIds ((d.jobs.getD []).map (fun q => q.id)) →
      ((importData u d s).inventory.filter (fun r => r.userId == u))[k]?.map (fun r => r.jobId) =
        some none) ∧
    (∀ (k : Nat) (x : DocInventory) (c : Nat),
      (d.inventory.getD [])[k]? = some x → x.assignedToJobId = some c →
      c ∉ truthyIds ((d.jobs.getD []).map (fun q => q.id)) →
      ((importData u d s).inventory.filter (fun r => r.userId == u))[k]?.map (fun r => r.assignedToJobId) =
        some none) ∧
    (∀ (k : Nat) (x : DocTravel) (c : Nat),
      (d.travel.getD [])[k]? = some x → x.jobId = some c →
      c ∉ truthyIds ((d.jobs.getD []).map (fun q => q.id)) →
      ((importData u d s).travel.filter (fun r => r.userId == u))[k]?.map (fun r => r.jobId) =
        some none) ∧
    (∀ (k : Nat) (x : DocAttendance) (c : Nat),
      (d.attendance.getD [])[k]? = some x → x.workerId = some c →
      c ∉ truthyIds ((d.workers.getD []).map (fun q => q.id)) →
      ((importData u d s).attendance.filter (fun r => r.userId == u))[k]?.map (fun r => r.workerId) =
        some none) ∧
    (∀ (k : Nat) (x : DocAttendance) (c : Nat),
      (d.attendance.getD [])[k]? = some x → x.jobId = some c →
      c ∉ truthyIds ((d.jobs.getD []).map (fun q => q.id)) →
      ((importData u d s).attendance.filter (fun r => r.userId == u))[k]?.map (fun r => r.jobId) =
        some none) ∧
    (∀ (l1 l2 : List DocJobImage) (bad : DocJobImage),
      d.jobImages = some (l1 ++ bad :: l2) →
      (bad.jobId = 0 ∨ bad.jobId ∉ truthyIds ((d.jobs.getD []).map (fun q => q.id))) →
      importData u d s = importData u { d with jobImages := some (l1 ++ l2) } s) ∧
    (∀ (l1 l2 : List DocWorkerDocument) (bad : DocWorkerDocument),
      d.workerDocuments = some (l1 ++ bad :: l2) →
      (bad.workerId = 0 ∨ bad.workerId ∉ truthyIds ((d.workers.getD []).map (fun q => q.id))) →
      importData u d s = importData u { d with workerDocuments := some (l1 ++ l2) } s) ∧
    (∀ (l1 l2 : List DocCustomerImage) (bad : DocCustomerImage),
      d.customerImages = some (l1 ++ bad :: l2) →
      (bad.customerId = 0 ∨ bad.customerId ∉ truthyIds ((d.customers.getD []).map (fun q => q.id))) →
      importData u d s = importData u { d with customerImages := some (l1 ++ l2) } s) ∧
    (importDataT (fun _ => false) u d s = (importData u d s, none)) := by
  refine ⟨?_, ?_, ?_, ?_, ?_, ?_, ?_, ?_, ?_, ?_, ?_, ?_⟩
  · intro k x c hk hfk hmem
    rw [importData_owner_jobs]
    rw [mkJobRows_get u (importMaps d s).1 s.nextJobId (d.jobs.getD []) k x hk]
    by_cases hc0 : c = 0
    · simp [remapFk, hfk, hc0]
    · simp [remapFk, hfk, hc0, importMaps_cget_none d s c hmem]
  · intro k x c hk hfk hmem
    rw [importData_owner_workers]
    rw [mkWorkerRows_get u (importMaps d s).2.1 s.nextWorkerId (d.workers.getD []) k x hk]
    by_cases hc0 : c = 0
    · simp [remapFk, hfk, hc0]
    · simp [remapFk, hfk, hc0, importMaps_jget_none d s c hmem]
  · intro k x c hk hfk hmem
    rw [importData_owner_expenses]
    rw [mkExpenseRows_get u (importMaps d s).2.1 s.nextExpenseId (d.expenses.getD []) k x hk]
    by_cases hc0 : c = 0
    · simp [remapFk, hfk, hc0]
    · simp [remapFk, hfk, hc0, importMaps_jget_none d s c hmem]
  · intro k x c hk hfk hmem
    rw [importData_owner_inventory]
    rw [mkInventoryRows_get u (importMaps d s).2.1 s.nextInventoryId (d.inventory.getD []) k x hk]
    by_cases hc0 : c = 0
    · simp [remapFk, hfk, hc0]
    · simp [remapFk, hfk, hc0, importMaps_jget_none d s c hmem]
  · intro k x c hk hfk hmem
    rw [importData_owner_inventory]
    rw [mkInventoryRows_get u (importMaps d s).2.1 s.nextInventoryId (d.inventory.getD []) k x hk]
    by_cases hc0 : c = 0
    · simp [remapFk, hfk, hc0]
    · simp [remapFk, hfk, hc0, importMaps_jget_none d s c hmem]
  · intro k x c hk hfk hmem
    rw [importData_owner_travel]
    rw [mkTravelRows_get u (importMaps d s).2.1 s.nextTravelId (d.travel.getD []) k x hk]
    by_cases hc0 : c = 0
    · simp [remapFk, hfk, hc0]
    · simp [remapFk, hfk, hc0, importMaps_jget_none d s c hmem]
  · intro k x c hk hfk hmem
    rw [importData_owner_attendance]
    rw [mkAttendanceRows_get u (importMaps d s).2.2 (importMaps d s).2.1 s.nextAttendanceId (d.attendance.getD []) k x hk]
    by_cases hc0 : c = 0
    · simp [remapFk, hfk, hc0]
    · simp [remapFk, hfk, hc0, importMaps_wget_none d s c hmem]
  · intro k x c hk hfk hmem
    rw [importData_owner_attendance]
    rw [mkAttendanceRows_get u (importMaps d s).2.2 (importMaps d s).2.1 s.nextAttendanceId (d.attendance.getD []) k x hk]
    by_cases hc0 : c = 0
    · simp [remapFk, hfk, hc0]
    · simp [remapFk, hfk, hc0, importMaps_jget_none d s c hmem]
  · intro l1 l2 bad hd hbad
    have hv : (if bad.jobId = 0 then none else mapGet (importMaps d s).2.1 bad.jobId) = none := by
      rcases hbad with h0 | hm
      · simp [h0]
      · by_cases h0 : bad.jobId = 0
        · simp [h0]
        · simp [h0, importMaps_jget_none d s bad.jobId hm]
    rw [importData_spec, importData_spec]
    simp only [importSpec]
    rw [hd]
    rw [Option.getD_some]
    rw [mkJobImageRows_skip u s.now (importMaps d s).2.1 s.nextJobImageId l1 l2 bad (Or.inl hv)]
    rfl
  · intro l1 l2 bad hd hbad
    have hv : (if bad.workerId = 0 then none else mapGet (importMaps d s).2.2 bad.workerId) = none := by
      rcases hbad with h0 | hm
      · simp [h0]
      · by_cases h0 : bad.workerId = 0
        · simp [h0]
        · simp [h0, importMaps_wget_none d s bad.workerId hm]
    rw [importData_spec, importData_spec]
    simp only [importSpec]
    rw [hd]
    rw [Option.getD_some]
    rw [mkWorkerDocumentRows_skip u s.now (importMaps d s).2.2 s.nextWorkerDocumentId l1 l2 bad (Or.inl hv)]
    rfl
  · intro l1 l2 bad hd hbad
    have hv : (if bad.customerId = 0 then none else mapGet (importMaps d s).1 bad.customerId) = none := by
      rcases hbad with h0 | hm
      · simp [h0]
      · by_cases h0 : bad.customerId = 0
        · simp [h0]
        · simp [h0, importMaps_cget_none d s bad.customerId hm]
    rw [importData_spec, importData_spec]
    simp only [importSpec]
    rw [hd]
    rw [Option.getD_some]
    rw [mkCustomerImageRows_skip u s.now (importMaps d s).1 s.nextCustomerImageId l1 l2 bad (Or.inl hv)]
    rfl
  · exact importDataT_noFail u d s

/-- Witness for C4: in exDocFull the second job references the absent
customer 9, so its imported copy has a null customerId; the second
job image references the absent job 99, so importing the document
equals importing it with that row removed; and the failure-free
transactional import of the same document commits the pure result. -/
theorem fkNullAndSkip_witness :
    ((importData 1 exDocFull emptyDB).jobs.filter (fun r => r.userId == 1))[1]?.map
      (fun r => r.customerId) = some none ∧
    importData 1 exDocFull emptyDB =
      importData 1
        { exDocFull with jobImages := some [{ id := some 21, jobId := 5, url := "u1", description := none, createdAt := 7 }] } emptyDB ∧
    importDataT (fun _ => false) 1 exDocFull emptyDB =
      (importData 1 exDocFull emptyDB, none) := by
  have h := fkNullAndSkip 1 exDocFull emptyDB
  refine ⟨h.1 1 _ 9 rfl rfl (by decide), ?_, h.2.2.2.2.2.2.2.2.2.2.2⟩
  exact h.2.2.2.2.2.2.2.2.1
    [{ id := some 21, jobId := 5, url := "u1", description := none, createdAt := 7 }] []
    { id := some 22, jobId := 99, url := "u2", description := none, createdAt := 7 }
    rfl (Or.inr (by decide))

/-- C7: exportData for owner u reads only rows whose owner id is u (two
stores agreeing on the owner rows export identically, whatever the other
owners hold, even with colliding numeric ids); importData never writes
or deletes a row of another owner (the non-owner projection of every
table is untouched); and importData reads no row of another owner (two
stores with the same serial counters and clock produce identical owner
rows from the same document).  exportData returns a document and touches
no state at all in the embedding, mirroring the read-only selects of the
source. -/
theorem tenantIsolation (u : Nat) (d : Doc) (s t : DB)
    (hcnt : s.nextCustomerId = t.nextCustomerId ∧
            s.nextJobId = t.nextJobId ∧
            s.nextExpenseId = t.nextExpenseId ∧
            s.nextInventoryId = t.nextInventoryId ∧
            s.nextNoteId = t.nextNoteId ∧
            s.nextTravelId = t.nextTravelId ∧
            s.nextWorkerId = t.nextWorkerId ∧
            s.nextAttendanceId = t.nextAttendanceId ∧
            s.nextJobImageId = t.nextJobImageId ∧
            s.nextWorkerDocumentId = t.nextWorkerDocumentId ∧
            s.nextCustomerImageId = t.nextCustomerImageId ∧
            s.now = t.now)
    (hown : s.customers.filter (fun r => r.userId == u) = t.customers.filter (fun r => r.userId == u) ∧
            s.jobs.filter (fun r => r.userId == u) = t.jobs.filter (fun r => r.userId == u) ∧
            s.expenses.filter (fun r => r.userId == u) = t.expenses.filter (fun r => r.userId == u) ∧
            s.inventory.filter (fun r => r.userId == u) = t.inventory.filter (fun r => r.userId == u) ∧
            s.notes.filter (fun r => r.userId == u) = t.notes.filter (fun r => r.userId == u) ∧
            s.travel.filter (fun r => r.userId == u) = t.travel.filter (fun r => r.userId == u) ∧
            s.workers.filter (fun r => r.userId == u) = t.workers.filter (fun r => r.userId == u) ∧
            s.attendance.filter (fun r => r.userId == u) = t.attendance.filter (fun r => r.userId == u) ∧
            s.jobImages.filter (fun r => r.userId == u) = t.jobImages.filter (fun r => r.userId == u) ∧
            s.workerDocuments.filter (fun r => r.userId == u) = t.workerDocuments.filter (fun r => r.userId == u) ∧
            s.customerImages.filter (fun r => r.userId == u) = t.customerImages.filter (fun r => r.userId == u)) :
    (exportData u s = exportData u t) ∧
    ((importData u d s).customers.filter (fun r => !(r.userId == u)) = s.customers.filter (fun r => !(r.userId == u)) ∧
    (importData u d s).jobs.filter (fun r => !(r.userId == u)) = s.jobs.filter (fun r => !(r.userId == u)) ∧
    (importData u d s).expenses.filter (fun r => !(r.userId == u)) = s.expenses.filter (fun r => !(r.userId == u)) ∧
    (importData u d s).inventory.filter (fun r => !(r.userId == u)) = s.inventory.filter (fun r => !(r.userId == u)) ∧
    (importData u d s).notes.filter (fun r => !(r.userId == u)) = s.notes.filter (fun r => !(r.userId == u)) ∧
    (importData u d s).travel.filter (fun r => !(r.userId == u)) = s.travel.filter (fun r => !(r.userId == u)) ∧
    (importData u d s).workers.filter (fun r => !(r.userId == u)) = s.workers.filter (fun r => !(r.userId == u)) ∧
    (importData u d s).attendance.filter (fun r => !(r.userId == u)) = s.attendance.filter (fun r => !(r.userId == u)) ∧
    (importData u d s).jobImages.filter (fun r => !(r.userId == u)) = s.jobImages.filter (fun r => !(r.userId == u)) ∧
    (importData u d s).workerDocuments.filter (fun r => !(r.userId == u)) = s.workerDocuments.filter (fun r => !(r.userId == u)) ∧
    (importData u d s).customerImages.filter (fun r => !(r.userId == u)) = s.customerImages.filter (fun r => !(r.userId == u))) ∧
    ((importData u d s).customers.filter (fun r => r.userId == u) = (importData u d t).customers.filter (fun r => r.userId == u) ∧
    (importData u d s).jobs.filter (fun r => r.userId == u) = (importData u d t).jobs.filter (fun r => r.userId == u) ∧
    (importData u d s).expenses.filter (fun r => r.userId == u) = (importData u d t).expenses.filter (fun r => r.userId == u) ∧
    (importData u d s).inventory.filter (fun r => r.userId == u) = (importData u d t).inventory.filter (fun r => r.userId == u) ∧
    (importData u d s).notes.filter (fun r => r.userId == u) = (importData u d t).notes.filter (fun r => r.userId == u) ∧
    (importData u d s).travel.filter (fun r => r.userId == u) = (importData u d t).travel.filter (fun r => r.userId == u) ∧
    (importData u d s).workers.filter (fun r => r.userId == u) = (importData u d t).workers.filter (fun r => r.userId == u) ∧
    (importData u d s).attendance.filter (fun r => r.userId == u) = (importData u d t).attendance.filter (fun r => r.userId == u) ∧
    (importData u d s).jobImages.filter (fun r => r.userId == u) = (importData u d t).jobImages.filter (fun r => r.userId == u) ∧
    (importData u d s).workerDocuments.filter (fun r => r.userId == u) = (importData u d t).workerDocuments.filter (fun r => r.userId == u) ∧
    (importData u d s).customerImages.filter (fun r => r.userId == u) = (importData u d t).customerImages.filter (fun r => r.userId == u)) := by
  have hc1 := hcnt.1
  have hc2 := hcnt.2.1
  have hc3 := hcnt.2.2.1
  have hc4 := hcnt.2.2.2.1
  have hc5 := hcnt.2.2.2.2.1
  have hc6 := hcnt.2.2.2.2.2.1
  have hc7 := hcnt.2.2.2.2.2.2.1
  have hc8 := hcnt.2.2.2.2.2.2.2.1
  have hc9 := hcnt.2.2.2.2.2.2.2.2.1
  have hc10 := hcnt.2.2.2.2.2.2.2.2.2.1
  have hc11 := hcnt.2.2.2.2.2.2.2.2.2.2.1
  have hnow := hcnt.2.2.2.2.2.2.2.2.2.2.2
  have hown1 := hown.1
  have hown2 := hown.2.1
  have hown3 := hown.2.2.1
  have hown4 := hown.2.2.2.1
  have hown5 := hown.2.2.2.2.1
  have hown6 := hown.2.2.2.2.2.1
  have hown7 := hown.2.2.2.2.2.2.1
  have hown8 := hown.2.2.2.2.2.2.2.1
  have hown9 := hown.2.2.2.2.2.2.2.2.1
  have hown10 := hown.2.2.2.2.2.2.2.2.2.1
  have hown11 := hown.2.2.2.2.2.2.2.2.2.2
  have hm : importMaps d s = importMaps d t := by
    unfold importMaps
    rw [hc1, hc2, hc7]
  refine ⟨?_, ⟨?_, ?_, ?_, ?_, ?_, ?_, ?_, ?_, ?_, ?_, ?_⟩, ⟨?_, ?_, ?_, ?_, ?_, ?_, ?_, ?_, ?_, ?_, ?_⟩⟩
  · unfold exportData
    rw [hown1, hown2, hown3, hown4, hown5, hown6, hown7, hown8, hown9, hown10, hown11]
  · exact importData_nonowner_customers u d s
  · exact importData_nonowner_jobs u d s
  · exact importData_nonowner_expenses u d s
  · exact importData_nonowner_inventory u d s
  · exact importData_nonowner_notes u d s
  · exact importData_nonowner_travel u d s
  · exact importData_nonowner_workers u d s
  · exact importData_nonowner_attendance u d s
  · exact importData_nonowner_jobImages u d s
  · exact importData_nonowner_workerDocuments u d s
  · exact importData_nonowner_customerImages u d s
  · rw [importData_owner_customers, importData_owner_customers]
    simp only [hm, hc1, hc2, hc3, hc4, hc5, hc6, hc7, hc8, hc9, hc10, hc11, hnow]
  · rw [importData_owner_jobs, importData_owner_jobs]
    simp only [hm, hc1, hc2, hc3, hc4, hc5, hc6, hc7, hc8, hc9, hc10, hc11, hnow]
  · rw [importData_owner_expenses, importData_owner_expenses]
    simp only [hm, hc1, hc2, hc3, hc4, hc5, hc6, hc7, hc8, hc9, hc10, hc11, hnow]
  · rw [importData_owner_inventory, importData_owner_inventory]
    simp only [hm, hc1, hc2, hc3, hc4, hc5, hc6, hc7, hc8, hc9, hc10, hc11, hnow]
  · rw [importData_owner_notes, importData_owner_notes]
    simp only [hm, hc1, hc2, hc3, hc4, hc5, hc6, hc7, hc8, hc9, hc10, hc11, hnow]
  · rw [importData_owner_travel, importData_owner_travel]
    simp only [hm, hc1, hc2, hc3, hc4, hc5, hc6, hc7, hc8, hc9, hc10, hc11, hnow]
  · rw [importData_owner_workers, importData_owner_workers]
    simp only [hm, hc1, hc2, hc3, hc4, hc5, hc6, hc7, hc8, hc9, hc10, hc11, hnow]
  · rw [importData_owner_attendance, importData_owner_attendance]
    simp only [hm, hc1, hc2, hc3, hc4, hc5, hc6, hc7, hc8, hc9, hc10, hc11, hnow]
  · rw [importData_owner_jobImages, importData_owner_jobImages]
    simp only [hm, hc1, hc2, hc3, hc4, hc5, hc6, hc7, hc8, hc9, hc10, hc11, hnow]
  · rw [importData_owner_workerDocuments, importData_owner_workerDocuments]
    simp only [hm, hc1, hc2, hc3, hc4, hc5, hc6, hc7, hc8, hc9, hc10, hc11, hnow]
  · rw [importData_owner_customerImages, importData_owner_customerImages]
    simp only [hm, hc1, hc2, hc3, hc4, hc5, hc6, hc7, hc8, hc9, hc10, hc11, hnow]

/-- Witness for C7: exDB1 and exDB2 agree on the rows of owner 1 but
exDB2 also holds rows of owner 2 whose numeric ids collide with those of
owner 1; exporting owner 1 from either store yields the same document, and bringing
exDocFull into exDB2 for owner 1 leaves the owner 2 jobs
untouched, and the imported owner 1 customers are identical in both
stores. -/
theorem tenantIsolation_witness :
    exportData 1 exDB2 = exportData 1 exDB1 ∧
    (importData 1 exDocFull exDB2).jobs.filter (fun r => !(r.userId == 1)) =
      exDB2.jobs.filter (fun r => !(r.userId == 1)) ∧
    (importData 1 exDocFull exDB2).customers.filter (fun r => r.userId == 1) =
      (importData 1 exDocFull exDB1).customers.filter (fun r => r.userId == 1) := by
  have h := tenantIsolation 1 exDocFull exDB2 exDB1
    ⟨rfl, rfl, rfl, rfl, rfl, rfl, rfl, rfl, rfl, rfl, rfl, rfl⟩
    (by refine ⟨?_, ?_, ?_, ?_, ?_, ?_, ?_, ?_, ?_, ?_, ?_⟩ <;> decide)
  exact ⟨h.1, h.2.1.2.1, h.2.2.1⟩

/-! Helpers for the round-trip theorem. -/

theorem truthyIds_map_some (l : List Nat) (h : ∀ x ∈ l, x ≠ 0) :
    truthyIds (l.map some) = l := by
  induction l with
  | nil => rfl
  | cons a l ih =>
    have ha := h a (List.mem_cons_self a l)
    rw [List.map_cons, truthyIds_cons_some, if_neg ha,
      ih (fun x hx => h x (List.mem_cons_of_mem a hx))]

theorem mkNoteRows_createdAt (uid now : Nat) (cmap jmap wmap : IdMap) (base : Nat)
    (ns : List DocNote) : ∀ r ∈ mkNoteRows uid now cmap jmap wmap base ns, r.createdAt = now := by
  induction ns generalizing base with
  | nil => simp [mkNoteRows]
  | cons n ns ih =>
    intro r hr
    rcases (by simpa [mkNoteRows] using hr : _ ∨ _) with h | h
    · simp [h]
    · exact ih (base + 1) r h

theorem mkJobImageRows_createdAt (uid now : Nat) (jmap : IdMap) (base : Nat)
    (l : List DocJobImage) : ∀ r ∈ mkJobImageRows uid now jmap base l, r.createdAt = now := by
  induction l generalizing base with
  | nil => simp [mkJobImageRows]
  | cons ji l ih =>
    intro r hr
    rw [mkJobImageRows] at hr
    rcases hmo : (if ji.jobId = 0 then none else mapGet jmap ji.jobId) with _ | nj
    · rw [hmo] at hr
      exact ih base r hr
    · rw [hmo] at hr
      by_cases hz : nj = 0
      · simp only [hz, if_true, eq_self_iff_true] at hr
        exact ih base r hr
      · simp only [hz, if_false, if_neg hz] at hr
        rcases (by simpa using hr : _ ∨ _) with h | h
        · simp [h]
        · exact ih (base + 1) r h

theorem mkWorkerDocumentRows_createdAt (uid now : Nat) (wmap : IdMap) (base : Nat)
    (l : List DocWorkerDocument) :
    ∀ r ∈ mkWorkerDocumentRows uid now wmap base l, r.createdAt = now := by
  induction l generalizing base with
  | nil => simp [mkWorkerDocumentRows]
  | cons wd l ih =>
    intro r hr
    rw [mkWorkerDocumentRows] at hr
    rcases hmo : (if wd.workerId = 0 then none else mapGet wmap wd.workerId) with _ | nw
    · rw [hmo] at hr
      exact ih base r hr
    · rw [hmo] at hr
      by_cases hz : nw = 0
      · simp only [hz, if_true, eq_self_iff_true] at hr
        exact ih base r hr
      · simp only [hz, if_false, if_neg hz] at hr
        rcases (by simpa using hr : _ ∨ _) with h | h
        · simp [h]
        · exact ih (base + 1) r h

theorem mkCustomerImageRows_createdAt (uid now : Nat) (cmap : IdMap) (base : Nat)
    (l : List DocCustomerImage) :
    ∀ r ∈ mkCustomerImageRows uid now cmap base l, r.createdAt = now := by
  induction l generalizing base with
  | nil => simp [mkCustomerImageRows]
  | cons ci l ih =>
    intro r hr
    rw [mkCustomerImageRows] at hr
    rcases hmo : (if ci.customerId = 0 then none else mapGet cmap ci.customerId) with _ | nc
    · rw [hmo] at hr
      exact ih base r hr
    · rw [hmo] at hr
      by_cases hz : nc = 0
      · simp only [hz, if_true, eq_self_iff_true] at hr
        exact ih base r hr
      · simp only [hz, if_false, if_neg hz] at hr
        rcases (by simpa using hr : _ ∨ _) with h | h
        · simp [h]
        · exact ih (base + 1) r h

theorem export_customers_getD (u : Nat) (s : DB) :
    ((exportData u s).customers.getD []) =
      (s.customers.filter (fun r => r.userId == u)).map custToDoc := rfl

theorem export_jobs_getD (u : Nat) (s : DB) :
    ((exportData u s).jobs.getD []) =
      (s.jobs.filter (fun r => r.userId == u)).map jobToDoc := rfl

theorem export_workers_getD (u : Nat) (s : DB) :
    ((exportData u s).workers.getD []) =
      (s.workers.filter (fun r => r.userId == u)).map workerToDoc := rfl

theorem export_truthy_customers (u : Nat) (s : DB)
    (hnz : ∀ r ∈ s.customers.filter (fun r => r.userId == u), r.id ≠ 0) :
    truthyIds (((exportData u s).customers.getD []).map (fun x => x.id)) =
      (s.customers.filter (fun r => r.userId == u)).map (fun r => r.id) := by
  rw [export_customers_getD, List.map_map]
  have : ((fun x => DocCustomer.id x) ∘ custToDoc) =
      (fun r : CustomerRow => some r.id) := rfl
  rw [this]
  have h2 : (s.customers.filter (fun r => r.userId == u)).map (fun r => some r.id) =
      ((s.customers.filter (fun r => r.userId == u)).map (fun r => r.id)).map some := by
    rw [List.map_map]
    rfl
  rw [h2]
  apply truthyIds_map_some
  intro x hx
  obtain ⟨r, hr, hrx⟩ := List.mem_map.mp hx
  exact hrx ▸ hnz r hr

theorem export_truthy_jobs (u : Nat) (s : DB)
    (hnz : ∀ r ∈ s.jobs.filter (fun r => r.userId == u), r.id ≠ 0) :
    truthyIds (((exportData u s).jobs.getD []).map (fun x => x.id)) =
      (s.jobs.filter (fun r => r.userId == u)).map (fun r => r.id) := by
  rw [export_jobs_getD, List.map_map]
  have : ((fun x => DocJob.id x) ∘ jobToDoc) = (fun r : JobRow => some r.id) := rfl
  rw [this]
  have h2 : (s.jobs.filter (fun r => r.userId == u)).map (fun r => some r.id) =
      ((s.jobs.filter (fun r => r.userId == u)).map (fun r => r.id)).map some := by
    rw [List.map_map]
    rfl
  rw [h2]
  apply truthyIds_map_some
  intro x hx
  obtain ⟨r, hr, hrx⟩ := List.mem_map.mp hx
  exact hrx ▸ hnz r hr

theorem export_truthy_workers (u : Nat) (s : DB)
    (hnz : ∀ r ∈ s.workers.filter (fun r => r.userId == u), r.id ≠ 0) :
    truthyIds (((exportData u s).workers.getD []).map (fun x => x.id)) =
      (s.workers.filter (fun r => r.userId == u)).map (fun r => r.id) := by
  rw [export_workers_getD, List.map_map]
  have : ((fun x => DocWorker.id x) ∘ workerToDoc) = (fun r : WorkerRow => some r.id) := rfl
  rw [this]
  have h2 : (s.workers.filter (fun r => r.userId == u)).map (fun r => some r.id) =
      ((s.workers.filter (fun r => r.userId == u)).map (fun r => r.id)).map some := by
    rw [List.map_map]
    rfl
  rw [h2]
  apply truthyIds_map_some
  intro x hx
  obtain ⟨r, hr, hrx⟩ := List.mem_map.mp hx
  exact hrx ▸ hnz r hr

theorem export_cget (u : Nat) (s : DB) (i : Nat) (p : CustomerRow)
    (hnd : ((s.customers.filter (fun r => r.userId == u)).map (fun r => r.id)).Nodup)
    (hnz : ∀ r ∈ s.customers.filter (fun r => r.userId == u), r.id ≠ 0)
    (hi : (s.customers.filter (fun r => r.userId == u))[i]? = some p) :
    mapGet (importMaps (exportData u s) s).1 p.id = some (s.nextCustomerId + i) := by
  apply importMaps_cget (exportData u s) s i p.id (custToDoc p)
  · rw [export_truthy_customers u s hnz]
    exact hnd
  · rw [export_customers_getD, List.getElem?_map, hi]
    rfl
  · rfl
  · exact hnz p (List.getElem?_mem hi)

theorem export_jget (u : Nat) (s : DB) (i : Nat) (p : JobRow)
    (hnd : ((s.jobs.filter (fun r => r.userId == u)).map (fun r => r.id)).Nodup)
    (hnz : ∀ r ∈ s.jobs.filter (fun r => r.userId == u), r.id ≠ 0)
    (hi : (s.jobs.filter (fun r => r.userId == u))[i]? = some p) :
    mapGet (importMaps (exportData u s) s).2.1 p.id = some (s.nextJobId + i) := by
  apply importMaps_jget (exportData u s) s i p.id (jobToDoc p)
  · rw [export_truthy_jobs u s hnz]
    exact hnd
  · rw [export_jobs_getD, List.getElem?_map, hi]
    rfl
  · rfl
  · exact hnz p (List.getElem?_mem hi)

theorem export_wget (u : Nat) (s : DB) (i : Nat) (p : WorkerRow)
    (hnd : ((s.workers.filter (fun r => r.userId == u)).map (fun r => r.id)).Nodup)
    (hnz : ∀ r ∈ s.workers.filter (fun r => r.userId == u), r.id ≠ 0)
    (hi : (s.workers.filter (fun r => r.userId == u))[i]? = some p) :
    mapGet (importMaps (exportData u s) s).2.2 p.id = some (s.nextWorkerId + i) := by
  apply importMaps_wget (exportData u s) s i p.id (workerToDoc p)
  · rw [export_truthy_workers u s hnz]
    exact hnd
  · rw [export_workers_getD, List.getElem?_map, hi]
    rfl
  · rfl
  · exact hnz p (List.getElem?_mem hi)

theorem export_total_jobImages (u : Nat) (s : DB)
    (hnd : ((s.jobs.filter (fun r => r.userId == u)).map (fun r => r.id)).Nodup)
    (hnz : ∀ r ∈ s.jobs.filter (fun r => r.userId == u), r.id ≠ 0)
    (hj1 : 1 ≤ s.nextJobId)
    (hJI : ∀ p ∈ s.jobImages.filter (fun r => r.userId == u),
      p.jobId ∈ (s.jobs.filter (fun r => r.userId == u)).map (fun r => r.id)) :
    ∀ y ∈ s.jobImages.filter (fun r => r.userId == u), ∃ v,
      (if y.jobId = 0 then none
       else mapGet (importMaps (exportData u s) s).2.1 y.jobId) = some v ∧ v ≠ 0 := by
  intro y hy
  obtain ⟨i, hig⟩ := List.getElem?_of_mem (hJI y hy)
  rw [List.getElem?_map] at hig
  cases hip : (s.jobs.filter (fun r => r.userId == u))[i]? with
  | none => rw [hip] at hig; simp at hig
  | some p =>
    rw [hip] at hig
    simp only [Option.map_some'] at hig
    have hpid : p.id = y.jobId := by injection hig
    have hget := export_jget u s i p hnd hnz hip
    refine ⟨s.nextJobId + i, ?_, by omega⟩
    rw [if_neg (by rw [← hpid]; exact hnz p (List.getElem?_mem hip)), ← hpid, hget]

theorem export_total_workerDocuments (u : Nat) (s : DB)
    (hnd : ((s.workers.filter (fun r => r.userId == u)).map (fun r => r.id)).Nodup)
    (hnz : ∀ r ∈ s.workers.filter (fun r => r.userId == u), r.id ≠ 0)
    (hw1 : 1 ≤ s.nextWorkerId)
    (hWD : ∀ p ∈ s.workerDocuments.filter (fun r => r.userId == u),
      p.workerId ∈ (s.workers.filter (fun r => r.userId == u)).map (fun r => r.id)) :
    ∀ y ∈ s.workerDocuments.filter (fun r => r.userId == u), ∃ v,
      (if y.workerId = 0 then none
       else mapGet (importMaps (exportData u s) s).2.2 y.workerId) = some v ∧ v ≠ 0 := by
  intro y hy
  obtain ⟨i, hig⟩ := List.getElem?_of_mem (hWD y hy)
  rw [List.getElem?_map] at hig
  cases hip : (s.workers.filter (fun r => r.userId == u))[i]? with
  | none => rw [hip] at hig; simp at hig
  | some p =>
    rw [hip] at hig
    simp only [Option.map_some'] at hig
    have hpid : p.id = y.workerId := by injection hig
    have hget := export_wget u s i p hnd hnz hip
    refine ⟨s.nextWorkerId + i, ?_, by omega⟩
    rw [if_neg (by rw [← hpid]; exact hnz p (List.getElem?_mem hip)), ← hpid, hget]

theorem export_total_customerImages (u : Nat) (s : DB)
    (hnd : ((s.customers.filter (fun r => r.userId == u)).map (fun r => r.id)).Nodup)
    (hnz : ∀ r ∈ s.customers.filter (fun r => r.userId == u), r.id ≠ 0)
    (hc1 : 1 ≤ s.nextCustomerId)
    (hCI : ∀ p ∈ s.customerImages.filter (fun r => r.userId == u),
      p.customerId ∈ (s.customers.filter (fun r => r.userId == u)).map (fun r => r.id)) :
    ∀ y ∈ s.customerImages.filter (fun r => r.userId == u), ∃ v,
      (if y.customerId = 0 then none
       else mapGet (importMaps (exportData u s) s).1 y.customerId) = some v ∧ v ≠ 0 := by
  intro y hy
  obtain ⟨i, hig⟩ := List.getElem?_of_mem (hCI y hy)
  rw [List.getElem?_map] at hig
  cases hip : (s.customers.filter (fun r => r.userId == u))[i]? with
  | none => rw [hip] at hig; simp at hig
  | some p =>
    rw [hip] at hig
    simp only [Option.map_some'] at hig
    have hpid : p.id = y.customerId := by injection hig
    have hget := export_cget u s i p hnd hnz hip
    refine ⟨s.nextCustomerId + i, ?_, by omega⟩
    rw [if_neg (by rw [← hpid]; exact hnz p (List.getElem?_mem hip)), ← hpid, hget]

theorem export_expenses_getD (u : Nat) (s : DB) :
    ((exportData u s).expenses.getD []) =
      (s.expenses.filter (fun r => r.userId == u)).map expenseToDoc := rfl

theorem export_inventory_getD (u : Nat) (s : DB) :
    ((exportData u s).inventory.getD []) =
      (s.inventory.filter (fun r => r.userId == u)).map inventoryToDoc := rfl

theorem export_notes_getD (u : Nat) (s : DB) :
    ((exportData u s).notes.getD []) =
      (s.notes.filter (fun r => r.userId == u)).map noteToDoc := rfl

theorem export_travel_getD (u : Nat) (s : DB) :
    ((exportData u s).travel.getD []) =
      (s.travel.filter (fun r => r.userId == u)).map travelToDoc := rfl

theorem export_attendance_getD (u : Nat) (s : DB) :
    ((exportData u s).attendance.getD []) =
      (s.attendance.filter (fun r => r.userId == u)).map attendanceToDoc := rfl

theorem export_jobImages_getD (u : Nat) (s : DB) :
    ((exportData u s).jobImages.getD []) =
      (s.jobImages.filter (fun r => r.userId == u)).map jobImageToDoc := rfl

theorem export_workerDocuments_getD (u : Nat) (s : DB) :
    ((exportData u s).workerDocuments.getD []) =
      (s.workerDocuments.filter (fun r => r.userId == u)).map workerDocumentToDoc := rfl

theorem export_customerImages_getD (u : Nat) (s : DB) :
    ((exportData u s).customerImages.getD []) =
      (s.customerImages.filter (fun r => r.userId == u)).map customerImageToDoc := rfl

theorem rt_customers_get (u : Nat) (s : DB) (i : Nat) (p : CustomerRow)
    (hi : (s.customers.filter (fun r => r.userId == u))[i]? = some p) :
    ((importData u (exportData u s) s).customers.filter (fun r => r.userId == u))[i]? =
      some { id := s.nextCustomerId + i, userId := u, name := p.name, phone := p.phone, address := p.address } := by
  rw [importData_owner_customers]
  have hd : ((exportData u s).customers.getD [])[i]? = some (custToDoc p) := by
    rw [export_customers_getD, List.getElem?_map, hi]
    rfl
  exact mkCustomerRows_get u s.nextCustomerId _ i (custToDoc p) hd

theorem rt_jobs_get (u : Nat) (s : DB) (i : Nat) (p : JobRow)
    (hi : (s.jobs.filter (fun r => r.userId == u))[i]? = some p) :
    ((importData u (exportData u s) s).jobs.filter (fun r => r.userId == u))[i]? =
      some { id := s.nextJobId + i, userId := u, jobId := none, jobName := p.jobName, customerId := remapFk (importMaps (exportData u s) s).1 p.customerId, category := p.category, description := p.description, location := p.location, status := p.status, quotedAmount := p.quotedAmount, agreedAmount := p.agreedAmount, paidAmount := p.paidAmount, startDate := p.startDate, endDate := p.endDate } := by
  rw [importData_owner_jobs]
  have hd : ((exportData u s).jobs.getD [])[i]? = some (jobToDoc p) := by
    rw [export_jobs_getD, List.getElem?_map, hi]
    rfl
  exact mkJobRows_get u (importMaps (exportData u s) s).1 s.nextJobId _ i (jobToDoc p) hd

theorem rt_workers_get (u : Nat) (s : DB) (i : Nat) (p : WorkerRow)
    (hi : (s.workers.filter (fun r => r.userId == u))[i]? = some p) :
    ((importData u (exportData u s) s).workers.filter (fun r => r.userId == u))[i]? =
      some { id := s.nextWorkerId + i, userId := u, jobId := remapFk (importMaps (exportData u s) s).2.1 p.jobId, name := p.name, role := p.role, phone := p.phone, address := p.address, documentUrl := p.documentUrl, dailyWage := p.dailyWage, isActive := p.isActive, rating := p.rating } := by
  rw [importData_owner_workers]
  have hd : ((exportData u s).workers.getD [])[i]? = some (workerToDoc p) := by
    rw [export_workers_getD, List.getElem?_map, hi]
    rfl
  exact mkWorkerRows_get u (importMaps (exportData u s) s).2.1 s.nextWorkerId _ i (workerToDoc p) hd

theorem rt_expenses_get (u : Nat) (s : DB) (i : Nat) (p : ExpenseRow)
    (hi : (s.expenses.filter (fun r => r.userId == u))[i]? = some p) :
    ((importData u (exportData u s) s).expenses.filter (fun r => r.userId == u))[i]? =
      some { id := s.nextExpenseId + i, userId := u, jobId := remapFk (importMaps (exportData u s) s).2.1 p.jobId, category := p.category, description := p.description, amount := p.amount, paidAmount := p.paidAmount, paidFull := p.paidFull, date := p.date, isRequired := p.isRequired } := by
  rw [importData_owner_expenses]
  have hd : ((exportData u s).expenses.getD [])[i]? = some (expenseToDoc p) := by
    rw [export_expenses_getD, List.getElem?_map, hi]
    rfl
  exact mkExpenseRows_get u (importMaps (exportData u s) s).2.1 s.nextExpenseId _ i (expenseToDoc p) hd

theorem rt_inventory_get (u : Nat) (s : DB) (i : Nat) (p : InventoryRow)
    (hi : (s.inventory.filter (fun r => r.userId == u))[i]? = some p) :
    ((importData u (exportData u s) s).inventory.filter (fun r => r.userId == u))[i]? =
      some { id := s.nextInventoryId + i, userId := u, jobId := remapFk (importMaps (exportData u s) s).2.1 p.jobId, name := p.name, category := p.category, quantity := p.quantity, unit := p.unit, costPerUnit := p.costPerUnit, assignedToJobId := remapFk (importMaps (exportData u s) s).2.1 p.assignedToJobId } := by
  rw [importData_owner_inventory]
  have hd : ((exportData u s).inventory.getD [])[i]? = some (inventoryToDoc p) := by
    rw [export_inventory_getD, List.getElem?_map, hi]
    rfl
  exact mkInventoryRows_get u (importMaps (exportData u s) s).2.1 s.nextInventoryId _ i (inventoryToDoc p) hd

theorem rt_travel_get (u : Nat) (s : DB) (i : Nat) (p : TravelRow)
    (hi : (s.travel.filter (fun r => r.userId == u))[i]? = some p) :
    ((importData u (exportData u s) s).travel.filter (fun r => r.userId == u))[i]? =
      some { id := s.nextTravelId + i, userId := u, jobId := remapFk (importMaps (exportData u s) s).2.1 p.jobId, date := p.date, kilometers := p.kilometers, fuelCost := p.fuelCost } := by
  rw [importData_owner_travel]
  have hd : ((exportData u s).travel.getD [])[i]? = some (travelToDoc p) := by
    rw [export_travel_getD, List.getElem?_map, hi]
    rfl
  exact mkTravelRows_get u (importMaps (exportData u s) s).2.1 s.nextTravelId _ i (travelToDoc p) hd

theorem rt_notes_get (u : Nat) (s : DB) (i : Nat) (p : NoteRow)
    (hi : (s.notes.filter (fun r => r.userId == u))[i]? = some p) :
    ((importData u (exportData u s) s).notes.filter (fun r => r.userId == u))[i]? =
      some { id := s.nextNoteId + i, userId := u, type := p.type, sectionTag := p.sectionTag, referenceId := remapNoteRef (importMaps (exportData u s) s).1 (importMaps (exportData u s) s).2.1 (importMaps (exportData u s) s).2.2 p.sectionTag p.referenceId, attrName := p.attrName, content := p.content, createdAt := s.now } := by
  rw [importData_owner_notes]
  have hd : ((exportData u s).notes.getD [])[i]? = some (noteToDoc p) := by
    rw [export_notes_getD, List.getElem?_map, hi]
    rfl
  exact mkNoteRows_get u s.now (importMaps (exportData u s) s).1 (importMaps (exportData u s) s).2.1 (importMaps (exportData u s) s).2.2 s.nextNoteId _ i (noteToDoc p) hd

theorem rt_attendance_get (u : Nat) (s : DB) (i : Nat) (p : AttendanceRow)
    (hi : (s.attendance.filter (fun r => r.userId == u))[i]? = some p) :
    ((importData u (exportData u s) s).attendance.filter (fun r => r.userId == u))[i]? =
      some { id := s.nextAttendanceId + i, userId := u, workerId := remapFk (importMaps (exportData u s) s).2.2 p.workerId, jobId := remapFk (importMaps (exportData u s) s).2.1 p.jobId, date := p.date, status := p.status, extraAllowance := p.extraAllowance } := by
  rw [importData_owner_attendance]
  have hd : ((exportData u s).attendance.getD [])[i]? = some (attendanceToDoc p) := by
    rw [export_attendance_getD, List.getElem?_map, hi]
    rfl
  exact mkAttendanceRows_get u (importMaps (exportData u s) s).2.2 (importMaps (exportData u s) s).2.1 s.nextAttendanceId _ i (attendanceToDoc p) hd

set_option maxHeartbeats 2000000 in
/-- C3 amended: a round trip import(export(u)) leaves the owner data
semantically identical up to the exceptions the code forces: every table
holds the same rows field-for-field except the store-assigned ids
(renumbered), the jobCode (nulled on import), the createdAt timestamps
of notes, photos and documents (regenerated from the clock), and the
referenceId of notes whose section is not one of the four mapped tags
(nulled); every cross-reference among the surviving fields still points
at the row that is the same one by content: the k-th owner child row
referencing the i-th owner parent row before the round trip yields a
k-th child referencing exactly the i-th parent after it, for all eight
optional foreign keys, the three mapped note sections and the three
required photo and document keys.  Hypotheses: owner rows have pairwise
distinct nonzero ids per parent table (PostgreSQL serial ids), serial
counters are at least one, and the photo and document rows of the owner
reference owner parents (the app only creates them so). -/
theorem roundTrip_amended (u : Nat) (s : DB)
    (hc1 : 1 ≤ s.nextCustomerId) (hj1 : 1 ≤ s.nextJobId) (hw1 : 1 ≤ s.nextWorkerId)
    (hCnd : ((s.customers.filter (fun r => r.userId == u)).map (fun r => r.id)).Nodup)
    (hCnz : ∀ r ∈ s.customers.filter (fun r => r.userId == u), r.id ≠ 0)
    (hJnd : ((s.jobs.filter (fun r => r.userId == u)).map (fun r => r.id)).Nodup)
    (hJnz : ∀ r ∈ s.jobs.filter (fun r => r.userId == u), r.id ≠ 0)
    (hWnd : ((s.workers.filter (fun r => r.userId == u)).map (fun r => r.id)).Nodup)
    (hWnz : ∀ r ∈ s.workers.filter (fun r => r.userId == u), r.id ≠ 0)
    (hJI : ∀ p ∈ s.jobImages.filter (fun r => r.userId == u),
      p.jobId ∈ (s.jobs.filter (fun r => r.userId == u)).map (fun r => r.id))
    (hWD : ∀ p ∈ s.workerDocuments.filter (fun r => r.userId == u),
      p.workerId ∈ (s.workers.filter (fun r => r.userId == u)).map (fun r => r.id))
    (hCI : ∀ p ∈ s.customerImages.filter (fun r => r.userId == u),
      p.customerId ∈ (s.customers.filter (fun r => r.userId == u)).map (fun r => r.id)) :
    ((importData u (exportData u s) s).customers.filter (fun r => r.userId == u)).map custContent =
      (s.customers.filter (fun r => r.userId == u)).map custContent ∧
    ((importData u (exportData u s) s).jobs.filter (fun r => r.userId == u)).map jobContent =
      (s.jobs.filter (fun r => r.userId == u)).map jobContent ∧
    ((importData u (exportData u s) s).workers.filter (fun r => r.userId == u)).map workerContent =
      (s.workers.filter (fun r => r.userId == u)).map workerContent ∧
    ((importData u (exportData u s) s).expenses.filter (fun r => r.userId == u)).map expenseContent =
      (s.expenses.filter (fun r => r.userId == u)).map expenseContent ∧
    ((importData u (exportData u s) s).inventory.filter (fun r => r.userId == u)).map inventoryContent =
      (s.inventory.filter (fun r => r.userId == u)).map inventoryContent ∧
    ((importData u (exportData u s) s).travel.filter (fun r => r.userId == u)).map travelContent =
      (s.travel.filter (fun r => r.userId == u)).map travelContent ∧
    ((importData u (exportData u s) s).notes.filter (fun r => r.userId == u)).map noteContent =
      (s.notes.filter (fun r => r.userId == u)).map noteContent ∧
    ((importData u (exportData u s) s).attendance.filter (fun r => r.userId == u)).map attendanceContent =
      (s.attendance.filter (fun r => r.userId == u)).map attendanceContent ∧
    ((importData u (exportData u s) s).jobImages.filter (fun r => r.userId == u)).map jobImageContent =
      (s.jobImages.filter (fun r => r.userId == u)).map jobImageContent ∧
    ((importData u (exportData u s) s).workerDocuments.filter (fun r => r.userId == u)).map workerDocumentContent =
      (s.workerDocuments.filter (fun r => r.userId == u)).map workerDocumentContent ∧
    ((importData u (exportData u s) s).customerImages.filter (fun r => r.userId == u)).map customerImageContent =
      (s.customerImages.filter (fun r => r.userId == u)).map customerImageContent ∧
    (∀ j ∈ (importData u (exportData u s) s).jobs.filter (fun r => r.userId == u), j.jobId = none) ∧
    (∀ n ∈ (importData u (exportData u s) s).notes.filter (fun r => r.userId == u), n.createdAt = s.now) ∧
    (∀ n ∈ (importData u (exportData u s) s).jobImages.filter (fun r => r.userId == u), n.createdAt = s.now) ∧
    (∀ n ∈ (importData u (exportData u s) s).workerDocuments.filter (fun r => r.userId == u), n.createdAt = s.now) ∧
    (∀ n ∈ (importData u (exportData u s) s).customerImages.filter (fun r => r.userId == u), n.createdAt = s.now) ∧
    (∀ (k i : Nat) (x : JobRow) (p : CustomerRow),
      (s.jobs.filter (fun r => r.userId == u))[k]? = some x →
      (s.customers.filter (fun r => r.userId == u))[i]? = some p →
      x.customerId = some p.id →
      ∃ (x2 : JobRow) (p2 : CustomerRow),
        ((importData u (exportData u s) s).jobs.filter (fun r => r.userId == u))[k]? = some x2 ∧
        ((importData u (exportData u s) s).customers.filter (fun r => r.userId == u))[i]? = some p2 ∧
        x2.customerId = some p2.id) ∧
    (∀ (k i : Nat) (x : WorkerRow) (p : JobRow),
      (s.workers.filter (fun r => r.userId == u))[k]? = some x →
      (s.jobs.filter (fun r => r.userId == u))[i]? = some p →
      x.jobId = some p.id →
      ∃ (x2 : WorkerRow) (p2 : JobRow),
        ((importData u (exportData u s) s).workers.filter (fun r => r.userId == u))[k]? = some x2 ∧
        ((importData u (exportData u s) s).jobs.filter (fun r => r.userId == u))[i]? = some p2 ∧
        x2.jobId = some p2.id) ∧
    (∀ (k i : Nat) (x : ExpenseRow) (p : JobRow),
      (s.expenses.filter (fun r => r.userId == u))[k]? = some x →
      (s.jobs.filter (fun r => r.userId == u))[i]? = some p →
      x.jobId = some p.id →
      ∃ (x2 : ExpenseRow) (p2 : JobRow),
        ((importData u (exportData u s) s).expenses.filter (fun r => r.userId == u))[k]? = some x2 ∧
        ((importData u (exportData u s) s).jobs.filter (fun r => r.userId == u))[i]? = some p2 ∧
        x2.jobId = some p2.id) ∧
    (∀ (k i : Nat) (x : InventoryRow) (p : JobRow),
      (s.inventory.filter (fun r => r.userId == u))[k]? = some x →
      (s.jobs.filter (fun r => r.userId == u))[i]? = some p →
      x.jobId = some p.id →
      ∃ (x2 : InventoryRow) (p2 : JobRow),
        ((importData u (exportData u s) s).inventory.filter (fun r => r.userId == u))[k]? = some x2 ∧
        ((importData u (exportData u s) s).jobs.filter (fun r => r.userId == u))[i]? = some p2 ∧
        x2.jobId = some p2.id) ∧
    (∀ (k i : Nat) (x : InventoryRow) (p : JobRow),
      (s.inventory.filter (fun r => r.userId == u))[k]? = some x →
      (s.jobs.filter (fun r => r.userId == u))[i]? = some p →
      x.assignedToJobId = some p.id →
      ∃ (x2 : InventoryRow) (p2 : JobRow),
        ((importData u (exportData u s) s).inventory.filter (fun r => r.userId == u))[k]? = some x2 ∧
        ((importData u (exportData u s) s).jobs.filter (fun r => r.userId == u))[i]? = some p2 ∧
        x2.assignedToJobId = some p2.id) ∧
    (∀ (k i : Nat) (x : TravelRow) (p : JobRow),
      (s.travel.filter (fun r => r.userId == u))[k]? = some x →
      (s.jobs.filter (fun r => r.userId == u))[i]? = some p →
      x.jobId = some p.id →
      ∃ (x2 : TravelRow) (p2 : JobRow),
        ((importData u (exportData u s) s).travel.filter (fun r => r.userId == u))[k]? = some x2 ∧
        ((importData u (exportData u s) s).jobs.filter (fun r => r.userId == u))[i]? = some p2 ∧
        x2.jobId = some p2.id) ∧
    (∀ (k i : Nat) (x : AttendanceRow) (p : WorkerRow),
      (s.attendance.filter (fun r => r.userId == u))[k]? = some x →
      (s.workers.filter (fun r => r.userId == u))[i]? = some p →
      x.workerId = some p.id →
      ∃ (x2 : AttendanceRow) (p2 : WorkerRow),
        ((importData u (exportData u s) s).attendance.filter (fun r => r.userId == u))[k]? = some x2 ∧
        ((importData u (exportData u s) s).workers.filter (fun r => r.userId == u))[i]? = some p2 ∧
        x2.workerId = some p2.id) ∧
    (∀ (k i : Nat) (x : AttendanceRow) (p : JobRow),
      (s.attendance.filter (fun r => r.userId == u))[k]? = some x →
      (s.jobs.filter (fun r => r.userId == u))[i]? = some p →
      x.jobId = some p.id →
      ∃ (x2 : AttendanceRow) (p2 : JobRow),
        ((importData u (exportData u s) s).attendance.filter (fun r => r.userId == u))[k]? = some x2 ∧
        ((importData u (exportData u s) s).jobs.filter (fun r => r.userId == u))[i]? = some p2 ∧
        x2.jobId = some p2.id) ∧
    (∀ (k i : Nat) (x : NoteRow) (p : JobRow),
      (s.notes.filter (fun r => r.userId == u))[k]? = some x →
      (s.jobs.filter (fun r => r.userId == u))[i]? = some p →
      (x.sectionTag = "jobs" ∨ x.sectionTag = "workers_attendance") → x.referenceId = some p.id →
      ∃ (x2 : NoteRow) (p2 : JobRow),
        ((importData u (exportData u s) s).notes.filter (fun r => r.userId == u))[k]? = some x2 ∧
        ((importData u (exportData u s) s).jobs.filter (fun r => r.userId == u))[i]? = some p2 ∧
        x2.referenceId = some p2.id) ∧
    (∀ (k i : Nat) (x : NoteRow) (p : CustomerRow),
      (s.notes.filter (fun r => r.userId == u))[k]? = some x →
      (s.customers.filter (fun r => r.userId == u))[i]? = some p →
      x.sectionTag = "customers" → x.referenceId = some p.id →
      ∃ (x2 : NoteRow) (p2 : CustomerRow),
        ((importData u (exportData u s) s).notes.filter (fun r => r.userId == u))[k]? = some x2 ∧
        ((importData u (exportData u s) s).customers.filter (fun r => r.userId == u))[i]? = some p2 ∧
        x2.referenceId = some p2.id) ∧
    (∀ (k i : Nat) (x : NoteRow) (p : WorkerRow),
      (s.notes.filter (fun r => r.userId == u))[k]? = some x →
      (s.workers.filter (fun r => r.userId == u))[i]? = some p →
      x.sectionTag = "workers" → x.referenceId = some p.id →
      ∃ (x2 : NoteRow) (p2 : WorkerRow),
        ((importData u (exportData u s) s).notes.filter (fun r => r.userId == u))[k]? = some x2 ∧
        ((importData u (exportData u s) s).workers.filter (fun r => r.userId == u))[i]? = some p2 ∧
        x2.referenceId = some p2.id) ∧
    (∀ (k : Nat) (x : NoteRow),
      (s.notes.filter (fun r => r.userId == u))[k]? = some x →
      x.sectionTag ≠ "jobs" → x.sectionTag ≠ "workers_attendance" →
      x.sectionTag ≠ "customers" → x.sectionTag ≠ "workers" →
      ∃ (x2 : NoteRow), ((importData u (exportData u s) s).notes.filter (fun r => r.userId == u))[k]? = some x2 ∧ x2.referenceId = none) ∧
    (∀ (k i : Nat) (x : JobImageRow) (p : JobRow),
      (s.jobImages.filter (fun r => r.userId == u))[k]? = some x →
      (s.jobs.filter (fun r => r.userId == u))[i]? = some p →
      x.jobId = p.id →
      ∃ (x2 : JobImageRow) (p2 : JobRow),
        ((importData u (exportData u s) s).jobImages.filter (fun r => r.userId == u))[k]? = some x2 ∧
        ((importData u (exportData u s) s).jobs.filter (fun r => r.userId == u))[i]? = some p2 ∧
        x2.jobId = p2.id) ∧
    (∀ (k i : Nat) (x : WorkerDocumentRow) (p : WorkerRow),
      (s.workerDocuments.filter (fun r => r.userId == u))[k]? = some x →
      (s.workers.filter (fun r => r.userId == u))[i]? = some p →
      x.workerId = p.id →
      ∃ (x2 : WorkerDocumentRow) (p2 : WorkerRow),
        ((importData u (exportData u s) s).workerDocuments.filter (fun r => r.userId == u))[k]? = some x2 ∧
        ((importData u (exportData u s) s).workers.filter (fun r => r.userId == u))[i]? = some p2 ∧
        x2.workerId = p2.id) ∧
    (∀ (k i : Nat) (x : CustomerImageRow) (p : CustomerRow),
      (s.customerImages.filter (fun r => r.userId == u))[k]? = some x →
      (s.customers.filter (fun r => r.userId == u))[i]? = some p →
      x.customerId = p.id →
      ∃ (x2 : CustomerImageRow) (p2 : CustomerRow),
        ((importData u (exportData u s) s).customerImages.filter (fun r => r.userId == u))[k]? = some x2 ∧
        ((importData u (exportData u s) s).customers.filter (fun r => r.userId == u))[i]? = some p2 ∧
        x2.customerId = p2.id) := by
  refine ⟨?_, ?_, ?_, ?_, ?_, ?_, ?_, ?_, ?_, ?_, ?_, ?_, ?_, ?_, ?_, ?_, ?_, ?_, ?_, ?_, ?_, ?_, ?_, ?_, ?_, ?_, ?_, ?_, ?_, ?_, ?_⟩
  · rw [importData_owner_customers, export_customers_getD]
    exact mkCustomerRows_content u s.nextCustomerId _
  · rw [importData_owner_jobs, export_jobs_getD]
    exact mkJobRows_content u (importMaps (exportData u s) s).1 s.nextJobId _
  · rw [importData_owner_workers, export_workers_getD]
    exact mkWorkerRows_content u (importMaps (exportData u s) s).2.1 s.nextWorkerId _
  · rw [importData_owner_expenses, export_expenses_getD]
    exact mkExpenseRows_content u (importMaps (exportData u s) s).2.1 s.nextExpenseId _
  · rw [importData_owner_inventory, export_inventory_getD]
    exact mkInventoryRows_content u (importMaps (exportData u s) s).2.1 s.nextInventoryId _
  · rw [importData_owner_travel, export_travel_getD]
    exact mkTravelRows_content u (importMaps (exportData u s) s).2.1 s.nextTravelId _
  · rw [importData_owner_notes, export_notes_getD]
    exact mkNoteRows_content u s.now (importMaps (exportData u s) s).1 (importMaps (exportData u s) s).2.1 (importMaps (exportData u s) s).2.2 s.nextNoteId _
  · rw [importData_owner_attendance, export_attendance_getD]
    exact mkAttendanceRows_content u (importMaps (exportData u s) s).2.2 (importMaps (exportData u s) s).2.1 s.nextAttendanceId _
  · rw [importData_owner_jobImages, export_jobImages_getD]
    exact mkJobImageRows_content_total u s.now (importMaps (exportData u s) s).2.1 s.nextJobImageId _ (export_total_jobImages u s hJnd hJnz hj1 hJI)
  · rw [importData_owner_workerDocuments, export_workerDocuments_getD]
    exact mkWorkerDocumentRows_content_total u s.now (importMaps (exportData u s) s).2.2 s.nextWorkerDocumentId _ (export_total_workerDocuments u s hWnd hWnz hw1 hWD)
  · rw [importData_owner_customerImages, export_customerImages_getD]
    exact mkCustomerImageRows_content_total u s.now (importMaps (exportData u s) s).1 s.nextCustomerImageId _ (export_total_customerImages u s hCnd hCnz hc1 hCI)
  · intro j hj
    rw [importData_owner_jobs, export_jobs_getD] at hj
    exact mkJobRows_jobId _ _ _ _ j hj
  · intro n hn
    rw [importData_owner_notes, export_notes_getD] at hn
    exact mkNoteRows_createdAt u s.now _ _ _ s.nextNoteId _ n hn
  · intro n hn
    rw [importData_owner_jobImages, export_jobImages_getD] at hn
    exact mkJobImageRows_createdAt u s.now _ _ _ n hn
  · intro n hn
    rw [importData_owner_workerDocuments, export_workerDocuments_getD] at hn
    exact mkWorkerDocumentRows_createdAt u s.now _ _ _ n hn
  · intro n hn
    rw [importData_owner_customerImages, export_customerImages_getD] at hn
    exact mkCustomerImageRows_createdAt u s.now _ _ _ n hn
  · intro k i x p hk hi hfk
    refine ⟨_, _, rt_jobs_get u s k x hk, rt_customers_get u s i p hi, ?_⟩
    show remapFk (importMaps (exportData u s) s).1 x.customerId = some (s.nextCustomerId + i)
    have hpz : p.id ≠ 0 := hCnz p (List.getElem?_mem hi)
    rw [hfk]
    simp [remapFk, hpz, export_cget u s i p hCnd hCnz hi]
  · intro k i x p hk hi hfk
    refine ⟨_, _, rt_workers_get u s k x hk, rt_jobs_get u s i p hi, ?_⟩
    show remapFk (importMaps (exportData u s) s).2.1 x.jobId = some (s.nextJobId + i)
    have hpz : p.id ≠ 0 := hJnz p (List.getElem?_mem hi)
    rw [hfk]
    simp [remapFk, hpz, export_jget u s i p hJnd hJnz hi]
  · intro k i x p hk hi hfk
    refine ⟨_, _, rt_expenses_get u s k x hk, rt_jobs_get u s i p hi, ?_⟩
    show remapFk (importMaps (exportData u s) s).2.1 x.jobId = some (s.nextJobId + i)
    have hpz : p.id ≠ 0 := hJnz p (List.getElem?_mem hi)
    rw [hfk]
    simp [remapFk, hpz, export_jget u s i p hJnd hJnz hi]
  · intro k i x p hk hi hfk
    refine ⟨_, _, rt_inventory_get u s k x hk, rt_jobs_get u s i p hi, ?_⟩
    show remapFk (importMaps (exportData u s) s).2.1 x.jobId = some (s.nextJobId + i)
    have hpz : p.id ≠ 0 := hJnz p (List.getElem?_mem hi)
    rw [hfk]
    simp [remapFk, hpz, export_jget u s i p hJnd hJnz hi]
  · intro k i x p hk hi hfk
    refine ⟨_, _, rt_inventory_get u s k x hk, rt_jobs_get u s i p hi, ?_⟩
    show remapFk (importMaps (exportData u s) s).2.1 x.assignedToJobId = some (s.nextJobId + i)
    have hpz : p.id ≠ 0 := hJnz p (List.getElem?_mem hi)
    rw [hfk]
    simp [remapFk, hpz, export_jget u s i p hJnd hJnz hi]
  · intro k i x p hk hi hfk
    refine ⟨_, _, rt_travel_get u s k x hk, rt_jobs_get u s i p hi, ?_⟩
    show remapFk (importMaps (exportData u s) s).2.1 x.jobId = some (s.nextJobId + i)
    have hpz : p.id ≠ 0 := hJnz p (List.getElem?_mem hi)
    rw [hfk]
    simp [remapFk, hpz, export_jget u s i p hJnd hJnz hi]
  · intro k i x p hk hi hfk
    refine ⟨_, _, rt_attendance_get u s k x hk, rt_workers_get u s i p hi, ?_⟩
    show remapFk (importMaps (exportData u s) s).2.2 x.workerId = some (s.nextWorkerId + i)
    have hpz : p.id ≠ 0 := hWnz p (List.getElem?_mem hi)
    rw [hfk]
    simp [remapFk, hpz, export_wget u s i p hWnd hWnz hi]
  · intro k i x p hk hi hfk
    refine ⟨_, _, rt_attendance_get u s k x hk, rt_jobs_get u s i p hi, ?_⟩
    show remapFk (importMaps (exportData u s) s).2.1 x.jobId = some (s.nextJobId + i)
    have hpz : p.id ≠ 0 := hJnz p (List.getElem?_mem hi)
    rw [hfk]
    simp [remapFk, hpz, export_jget u s i p hJnd hJnz hi]
  · intro k i x p hk hi hsec hfk
    refine ⟨_, _, rt_notes_get u s k x hk, rt_jobs_get u s i p hi, ?_⟩
    show remapNoteRef (importMaps (exportData u s) s).1 (importMaps (exportData u s) s).2.1
      (importMaps (exportData u s) s).2.2 x.sectionTag x.referenceId = some (s.nextJobId + i)
    have hpz : p.id ≠ 0 := hJnz p (List.getElem?_mem hi)
    rw [hfk]
    rcases hsec with h | h <;>
      simp [remapNoteRef, h, hpz, export_jget u s i p hJnd hJnz hi]
  · intro k i x p hk hi hsec hfk
    refine ⟨_, _, rt_notes_get u s k x hk, rt_customers_get u s i p hi, ?_⟩
    show remapNoteRef (importMaps (exportData u s) s).1 (importMaps (exportData u s) s).2.1
      (importMaps (exportData u s) s).2.2 x.sectionTag x.referenceId = some (s.nextCustomerId + i)
    have hpz : p.id ≠ 0 := hCnz p (List.getElem?_mem hi)
    rw [hfk]
    simp [remapNoteRef, hsec, hpz, export_cget u s i p hCnd hCnz hi]
  · intro k i x p hk hi hsec hfk
    refine ⟨_, _, rt_notes_get u s k x hk, rt_workers_get u s i p hi, ?_⟩
    show remapNoteRef (importMaps (exportData u s) s).1 (importMaps (exportData u s) s).2.1
      (importMaps (exportData u s) s).2.2 x.sectionTag x.referenceId = some (s.nextWorkerId + i)
    have hpz : p.id ≠ 0 := hWnz p (List.getElem?_mem hi)
    rw [hfk]
    simp [remapNoteRef, hsec, hpz, export_wget u s i p hWnd hWnz hi]
  · intro k x hk h1 h2 h3 h4
    refine ⟨_, rt_notes_get u s k x hk, ?_⟩
    show remapNoteRef (importMaps (exportData u s) s).1 (importMaps (exportData u s) s).2.1
      (importMaps (exportData u s) s).2.2 x.sectionTag x.referenceId = none
    cases hr : x.referenceId with
    | none => simp [remapNoteRef]
    | some r => simp [remapNoteRef, h1, h2, h3, h4]
  · intro k i x p hk hi hfk
    have htot := export_total_jobImages u s hJnd hJnz hj1 hJI
    have htot2 : ∀ y ∈ (s.jobImages.filter (fun r => r.userId == u)).map jobImageToDoc, ∃ v,
        (if y.jobId = 0 then none
         else mapGet (importMaps (exportData u s) s).2.1 y.jobId) = some v ∧ v ≠ 0 := by
      intro y hy
      obtain ⟨r, hr, hry⟩ := List.mem_map.mp hy
      obtain ⟨v, hv, hvz⟩ := htot r hr
      subst hry
      exact ⟨v, hv, hvz⟩
    have hdk : ((s.jobImages.filter (fun r => r.userId == u)).map jobImageToDoc)[k]? = some (jobImageToDoc x) := by
      rw [List.getElem?_map, hk]
      rfl
    obtain ⟨v, hv, hvz, hgetk⟩ := mkJobImageRows_get_total u s.now (importMaps (exportData u s) s).2.1 s.nextJobImageId _ k (jobImageToDoc x) htot2 hdk
    have hpz : p.id ≠ 0 := hJnz p (List.getElem?_mem hi)
    have hv2 : (if (jobImageToDoc x).jobId = 0 then none
        else mapGet (importMaps (exportData u s) s).2.1 (jobImageToDoc x).jobId) =
        some (s.nextJobId + i) := by
      show (if x.jobId = 0 then none
        else mapGet (importMaps (exportData u s) s).2.1 x.jobId) = _
      rw [hfk, if_neg hpz, export_jget u s i p hJnd hJnz hi]
    rw [hv2] at hv
    have hveq : v = s.nextJobId + i := by
      injection hv with hinj
      exact hinj.symm
    have himg : ((importData u (exportData u s) s).jobImages.filter (fun r => r.userId == u))[k]? =
        some ⟨s.nextJobImageId + k, u, v, x.url, x.description, s.now⟩ := by
      rw [importData_owner_jobImages, export_jobImages_getD]
      exact hgetk
    exact ⟨_, _, himg, rt_jobs_get u s i p hi, hveq⟩
  · intro k i x p hk hi hfk
    have htot := export_total_workerDocuments u s hWnd hWnz hw1 hWD
    have htot2 : ∀ y ∈ (s.workerDocuments.filter (fun r => r.userId == u)).map workerDocumentToDoc, ∃ v,
        (if y.workerId = 0 then none
         else mapGet (importMaps (exportData u s) s).2.2 y.workerId) = some v ∧ v ≠ 0 := by
      intro y hy
      obtain ⟨r, hr, hry⟩ := List.mem_map.mp hy
      obtain ⟨v, hv, hvz⟩ := htot r hr
      subst hry
      exact ⟨v, hv, hvz⟩
    have hdk : ((s.workerDocuments.filter (fun r => r.userId == u)).map workerDocumentToDoc)[k]? = some (workerDocumentToDoc x) := by
      rw [List.getElem?_map, hk]
      rfl
    obtain ⟨v, hv, hvz, hgetk⟩ := mkWorkerDocumentRows_get_total u s.now (importMaps (exportData u s) s).2.2 s.nextWorkerDocumentId _ k (workerDocumentToDoc x) htot2 hdk
    have hpz : p.id ≠ 0 := hWnz p (List.getElem?_mem hi)
    have hv2 : (if (workerDocumentToDoc x).workerId = 0 then none
        else mapGet (importMaps (exportData u s) s).2.2 (workerDocumentToDoc x).workerId) =
        some (s.nextWorkerId + i) := by
      show (if x.workerId = 0 then none
        else mapGet (importMaps (exportData u s) s).2.2 x.workerId) = _
      rw [hfk, if_neg hpz, export_wget u s i p hWnd hWnz hi]
    rw [hv2] at hv
    have hveq : v = s.nextWorkerId + i := by
      injection hv with hinj
      exact hinj.symm
    have himg : ((importData u (exportData u s) s).workerDocuments.filter (fun r => r.userId == u))[k]? =
        some ⟨s.nextWorkerDocumentId + k, u, v, x.url, x.name, s.now⟩ := by
      rw [importData_owner_workerDocuments, export_workerDocuments_getD]
      exact hgetk
    exact ⟨_, _, himg, rt_workers_get u s i p hi, hveq⟩
  · intro k i x p hk hi hfk
    have htot := export_total_customerImages u s hCnd hCnz hc1 hCI
    have htot2 : ∀ y ∈ (s.customerImages.filter (fun r => r.userId == u)).map customerImageToDoc, ∃ v,
        (if y.customerId = 0 then none
         else mapGet (importMaps (exportData u s) s).1 y.customerId) = some v ∧ v ≠ 0 := by
      intro y hy
      obtain ⟨r, hr, hry⟩ := List.mem_map.mp hy
      obtain ⟨v, hv, hvz⟩ := htot r hr
      subst hry
      exact ⟨v, hv, hvz⟩
    have hdk : ((s.customerImages.filter (fun r => r.userId == u)).map customerImageToDoc)[k]? = some (customerImageToDoc x) := by
      rw [List.getElem?_map, hk]
      rfl
    obtain ⟨v, hv, hvz, hgetk⟩ := mkCustomerImageRows_get_total u s.now (importMaps (exportData u s) s).1 s.nextCustomerImageId _ k (customerImageToDoc x) htot2 hdk
    have hpz : p.id ≠ 0 := hCnz p (List.getElem?_mem hi)
    have hv2 : (if (customerImageToDoc x).customerId = 0 then none
        else mapGet (importMaps (exportData u s) s).1 (customerImageToDoc x).customerId) =
        some (s.nextCustomerId + i) := by
      show (if x.customerId = 0 then none
        else mapGet (importMaps (exportData u s) s).1 x.customerId) = _
      rw [hfk, if_neg hpz, export_cget u s i p hCnd hCnz hi]
    rw [hv2] at hv
    have hveq : v = s.nextCustomerId + i := by
      injection hv with hinj
      exact hinj.symm
    have himg : ((importData u (exportData u s) s).customerImages.filter (fun r => r.userId == u))[k]? =
        some ⟨s.nextCustomerImageId + k, u, v, x.url, x.description, s.now⟩ := by
      rw [importData_owner_customerImages, export_customerImages_getD]
      exact hgetk
    exact ⟨_, _, himg, rt_customers_get u s i p hi, hveq⟩

/-- C3 counterexample: the claim as stated (every table field-for-field
identical except ids and jobCode) is false.  exDBInv holds the audit
note the app itself writes on updateInventory (section inventory,
referenceId pointing at the inventory item, createdAt 42); after the
round trip import(export(1)) the note of owner 1 has a null referenceId and a
regenerated createdAt equal to the clock 100, both fields that are
neither an id nor the jobCode, while the remaining note fields are
preserved. -/
theorem roundTrip_not_field_identical :
    exDBInv.notes.map (fun n => (n.referenceId, n.createdAt)) = [(some 1, 42)] ∧
    ((importData 1 (exportData 1 exDBInv) exDBInv).notes.filter (fun r => r.userId == 1)).map
      (fun n => (n.referenceId, n.createdAt)) = [(none, 100)] ∧
    ((importData 1 (exportData 1 exDBInv) exDBInv).notes.filter (fun r => r.userId == 1)).map
      noteContent = exDBInv.notes.map noteContent := by
  refine ⟨by decide, by decide, by decide⟩

/-- Witness for C3: the round trip on exDBAll (one owner 1 row per
table, all foreign keys owner-closed) preserves the customer contents,
and the single job points at the single re-inserted customer (new id 2),
as the amended theorem states. -/
theorem roundTrip_amended_witness :
    ((importData 1 (exportData 1 exDBAll) exDBAll).customers.filter
      (fun r => r.userId == 1)).map custContent =
      (exDBAll.customers.filter (fun r => r.userId == 1)).map custContent ∧
    ((importData 1 (exportData 1 exDBAll) exDBAll).jobs.filter (fun r => r.userId == 1)).map
      (fun j => j.customerId) = [some 2] ∧
    ((importData 1 (exportData 1 exDBAll) exDBAll).customers.filter
      (fun r => r.userId == 1)).map (fun c => c.id) = [2] := by
  have h := roundTrip_amended 1 exDBAll (by decide) (by decide) (by decide) (by decide)
    (by decide) (by decide) (by decide) (by decide) (by decide) (by decide) (by decide)
    (by decide)
  exact ⟨h.1, by decide, by decide⟩
